import Mathlib

/-!
# Match scoring of `src/employer/job_matching_service.js`

A shallow embedding of `JobMatchingService.calculateMatchScore` and the properties of it
that the specification states.

Modelling conventions.

* A JavaScript number is `JsNum`: either `NaN` or a finite value, kept as a rational.
  Every division in `calculateMatchScore` has a divisor that the code has just tested to be
  positive, or the constant total 100, so no infinity arises. The component scores and their
  sum are computed exactly. The quotient and the product of the final percentage,
  `(totalScore / totalMaxScore) * 100`, are rounded to binary64 as IEEE 754 prescribes: there
  the rounding decides which integer `Math.round` returns for a total that ends in one half.
* A field that the source reads through `&&`, `?.` or `||` is an `Option`; `none` is the
  absent (`undefined`) field. A field the source dereferences unguarded is mandatory.
* `new Date().getFullYear()` is the explicit argument `currentYear`.
* Strings are Lean strings, processed through their list of characters.
  `toLowerCase` lowers the ASCII letters.
-/

namespace JobMatching

/-! ## JavaScript numbers -/

/-- Rounding of a rational to the nearest integer, a tie going to the even neighbour. -/
def roundHalfEven (q : ℚ) : ℤ :=
  if q - ⌊q⌋ < 1 / 2 then ⌊q⌋
  else if 1 / 2 < q - ⌊q⌋ then ⌊q⌋ + 1
  else if ⌊q⌋ % 2 = 0 then ⌊q⌋ else ⌊q⌋ + 1

/-- The binary64 exponent of a value: the floor of its logarithm in base 2, and -1022 for the
values below `2 ^ -1022`, the subnormal ones. -/
def binaryExponent (q : ℚ) : ℤ :=
  max (Int.log 2 |q|) (-1022)

/-- Rounding to binary64, the IEEE 754 double format, in the default mode: the nearest
multiple of the unit in the last place, which is `2 ^ (exponent - 52)`, a tie going to the even
multiple. The exponent is not bounded above, so that no infinity arises. -/
def roundToDouble (q : ℚ) : ℚ :=
  roundHalfEven (q / 2 ^ (binaryExponent q - 52)) * 2 ^ (binaryExponent q - 52)

/-- A JavaScript number: `NaN`, or a finite value. -/
inductive JsNum where
  | nan : JsNum
  | num (q : ℚ) : JsNum
deriving DecidableEq

namespace JsNum

/-- The operator `+` on numbers. -/
def add : JsNum → JsNum → JsNum
  | num a, num b => num (a + b)
  | _, _ => nan

/-- The operator `-` on numbers. -/
def sub : JsNum → JsNum → JsNum
  | num a, num b => num (a - b)
  | _, _ => nan

/-- The operator `*` on numbers. -/
def mul : JsNum → JsNum → JsNum
  | num a, num b => num (a * b)
  | _, _ => nan

/-- The operator `/` on numbers, for a divisor other than zero. -/
def div : JsNum → JsNum → JsNum
  | num a, num b => num (a / b)
  | _, _ => nan

/-- The comparison `a >= b`: false as soon as one side is `NaN`. -/
def ge : JsNum → JsNum → Bool
  | num a, num b => decide (b ≤ a)
  | _, _ => false

/-- The function `Math.min` of two arguments. -/
def min : JsNum → JsNum → JsNum
  | num a, num b => num (if a ≤ b then a else b)
  | _, _ => nan

/-- The operator `*` with the rounding of binary64: the product rounded to the nearest
double. -/
def mulDouble : JsNum → JsNum → JsNum
  | num a, num b => num (roundToDouble (a * b))
  | _, _ => nan

/-- The operator `/` with the rounding of binary64, for a divisor other than zero: the
quotient rounded to the nearest double. -/
def divDouble : JsNum → JsNum → JsNum
  | num a, num b => num (roundToDouble (a / b))
  | _, _ => nan

/-- The function `Math.round`: nearest integer, halves towards plus infinity. -/
def round : JsNum → JsNum
  | num a => num ((⌊a + 1 / 2⌋ : ℤ) : ℚ)
  | nan => nan

end JsNum

/-! ## Strings -/

/-- The method `String.prototype.toLowerCase`, on ASCII letters. -/
def toLowerCase (s : String) : String :=
  ⟨s.data.map Char.toLower⟩

/-- Whether the characters `t` occur as a contiguous block inside `s`. -/
def includesChars : List Char → List Char → Bool
  | [], t => t.isEmpty
  | c :: s, t => t.isPrefixOf (c :: s) || includesChars s t

/-- The method `s.includes(t)`. -/
def includes (s t : String) : Bool :=
  includesChars s.data t.data

/-- The test `a === b || a.includes(b) || b.includes(a)` that every factor applies, with `a`
the applicant's string and `b` the job's string. -/
def fuzzyMatch (a b : String) : Bool :=
  a == b || includes a b || includes b a

/-- Truthiness of a string-valued field: present and not the empty string. -/
def truthy : Option String → Bool
  | some s => s != ""
  | none => false

/-- The expression `d.split('-')[0]`: the text before the first hyphen. -/
def splitHead (d : String) : String :=
  ⟨d.data.takeWhile (fun c => c != '-')⟩

/-- The white space that `parseInt` strips: `WhiteSpace` and `LineTerminator` code points. -/
def isStrWhiteSpaceChar (c : Char) : Bool :=
  let n := c.toNat
  n == 9 || n == 10 || n == 11 || n == 12 || n == 13 || n == 32 || n == 160 || n == 5760 ||
    (8192 ≤ n && n ≤ 8202) || n == 8232 || n == 8233 || n == 8239 || n == 8287 ||
    n == 12288 || n == 65279

/-- The value of a character as a digit of radix `r`, if it is one. -/
def radixDigit (r : Nat) (c : Char) : Option Nat :=
  let n := c.toNat
  let v : Option Nat :=
    if 48 ≤ n ∧ n ≤ 57 then some (n - 48)
    else if 97 ≤ n ∧ n ≤ 122 then some (n - 87)
    else if 65 ≤ n ∧ n ≤ 90 then some (n - 55)
    else none
  v.filter (fun d => d < r)

/-- The longest leading run of radix-`r` digits, as digit values. -/
def leadingDigits (r : Nat) : List Char → List Nat
  | [] => []
  | c :: cs =>
    match radixDigit r c with
    | some d => d :: leadingDigits r cs
    | none => []

/-- The integer that a list of radix-`r` digit values denotes. -/
def digitsValue (r : Nat) (ds : List Nat) : Nat :=
  ds.foldl (fun acc d => acc * r + d) 0

/-- The sign step of `parseInt`: a leading `-` or `+` is consumed and fixes the sign. -/
def stripSign (s : List Char) : ℤ × List Char :=
  match s with
  | c :: rest => if c == '-' then (-1, rest) else if c == '+' then (1, rest) else (1, s)
  | [] => (1, s)

/-- The radix step of `parseInt` without a radix argument: a leading `0x` or `0X` is consumed
and selects radix 16, otherwise the radix is 10. -/
def stripRadix (s : List Char) : Nat × List Char :=
  match s with
  | c :: d :: rest => if c == '0' && (d == 'x' || d == 'X') then (16, rest) else (10, s)
  | _ => (10, s)

/-- The global function `parseInt(s)` without a radix argument: leading white space is
dropped, then an optional sign, then a `0x`/`0X` marker selecting radix 16, then the longest
run of digits is read; no digit gives `NaN`. -/
def parseInt (s : String) : JsNum :=
  let signed := stripSign (s.data.dropWhile isStrWhiteSpaceChar)
  let radixed := stripRadix signed.2
  let z := leadingDigits radixed.1 radixed.2
  if z.isEmpty then JsNum.nan
  else JsNum.num ((signed.1 * (digitsValue radixed.1 z : ℤ) : ℤ) : ℚ)

/-! ## Data model -/

/-- An applicant skill `{name}`. -/
structure Skill where
  name : String
deriving DecidableEq

/-- A work-experience entry `{startDate, endDate, isCurrent}`. -/
structure WorkExperience where
  startDate : Option String
  endDate : Option String
  isCurrent : Bool
deriving DecidableEq

/-- An education entry `{degree, fieldOfStudy}`, of the applicant or of the job. -/
structure Education where
  degree : Option String
  fieldOfStudy : Option String
deriving DecidableEq

/-- The applicant's `preferences`. -/
structure Preferences where
  locations : Option (List String)
  willingToRelocate : Option Bool
  remoteWork : Option Bool
  jobTypes : Option (List String)
deriving DecidableEq

/-- The argument `applicantProfile`. -/
structure Profile where
  skills : Option (List Skill)
  workExperience : Option (List WorkExperience)
  education : Option (List Education)
  preferences : Option Preferences
deriving DecidableEq

/-- The job's `experience` record; `minYears` is finite when present. -/
structure JobExperience where
  minYears : Option ℚ
deriving DecidableEq

/-- The argument `jobRequirements`. -/
structure JobRequirements where
  requiredSkills : Option (List String)
  preferredSkills : Option (List String)
  experience : Option JobExperience
  education : Option Education
  location : Option String
  remote : Option Bool
  jobType : Option String
deriving DecidableEq

/-- The tag `type` of a skills detail record. -/
inductive SkillType where
  | required
  | preferred
deriving DecidableEq

/-- A record of `scoreComponents.skills.details`. -/
structure SkillDetail where
  skill : String
  type : SkillType
  matched : Bool
deriving DecidableEq

/-- The record of `scoreComponents.experience.details`. -/
structure ExperienceDetail where
  required : ℚ
  actual : JsNum
  matched : Bool
deriving DecidableEq

/-- The record of `scoreComponents.education.details`. -/
structure EducationDetail where
  requiredDegree : String
  requiredField : String
  degreeMatch : Bool
  fieldMatch : Bool
deriving DecidableEq

/-- The record of `scoreComponents.location.details`. -/
structure LocationDetail where
  jobLocation : String
  remote : Bool
  matched : Bool
  reason : String
deriving DecidableEq

/-- The record of `scoreComponents.jobType.details`. -/
structure JobTypeDetail where
  jobType : String
  matched : Bool
  reason : Option String
deriving DecidableEq

/-- One entry `{score, maxScore, details}` of `scoreComponents`. -/
structure Component (α : Type) where
  score : JsNum
  maxScore : ℚ
  details : List α
deriving DecidableEq

/-- The object `scoreComponents`, its keys in insertion order. -/
structure ScoreComponents where
  skills : Component SkillDetail
  experience : Component ExperienceDetail
  education : Component EducationDetail
  location : Component LocationDetail
  jobType : Component JobTypeDetail
deriving DecidableEq

/-- The object that `calculateMatchScore` returns. -/
structure MatchResult where
  score : JsNum
  components : ScoreComponents
  matchingSkills : List String
deriving DecidableEq

/-! ## The five factors -/

/-- One `forEach` loop over the job's skills of one kind: the counter of matched skills and
the detail records pushed so far, started from `st`. -/
def checkSkills (applicantSkills : List String) (ty : SkillType) (skills : List String)
    (st : Nat × List SkillDetail) : Nat × List SkillDetail :=
  skills.foldl (fun st skill =>
    let matched := applicantSkills.any (fun s => fuzzyMatch s skill)
    if matched then (st.1 + 1, st.2 ++ [{ skill := skill, type := ty, matched := true }])
    else (st.1, st.2 ++ [{ skill := skill, type := ty, matched := false }])) st

/-- The block `Calculate skills match`: the entry `scoreComponents.skills`. -/
def skillsComponent (p : Profile) (j : JobRequirements) : Component SkillDetail :=
  match p.skills, j.requiredSkills with
  | some skills, some required =>
    let applicantSkills := skills.map (fun s => toLowerCase s.name)
    let requiredSkills := required.map toLowerCase
    let preferredSkills :=
      match j.preferredSkills with
      | some ps => ps.map toLowerCase
      | none => []
    let afterRequired := checkSkills applicantSkills SkillType.required requiredSkills (0, [])
    let afterPreferred :=
      checkSkills applicantSkills SkillType.preferred preferredSkills (0, afterRequired.2)
    let matchedRequired := afterRequired.1
    let matchedPreferred := afterPreferred.1
    let requiredWeight : ℚ := 30
    let preferredWeight : ℚ := 10
    let score1 : ℚ :=
      if requiredSkills.length > 0 then
        0 + ((matchedRequired : ℚ) / (requiredSkills.length : ℚ)) * requiredWeight
      else 0 + requiredWeight
    let score2 : ℚ :=
      if preferredSkills.length > 0 then
        score1 + ((matchedPreferred : ℚ) / (preferredSkills.length : ℚ)) * preferredWeight
      else score1 + preferredWeight
    { score := JsNum.num score2, maxScore := 40, details := afterPreferred.2 }
  | _, _ => { score := JsNum.num 0, maxScore := 40, details := [] }

/-- The year of a date string: `parseInt(date.split('-')[0])`. -/
def yearOf (date : String) : JsNum :=
  parseInt (splitHead date)

/-- The body of the loop over `applicantProfile.workExperience`: the new value of `totalYears`
after the entry `job`. -/
def addEntryYears (currentYear : ℤ) (total : JsNum) (job : WorkExperience) : JsNum :=
  match job.startDate with
  | some start =>
    if start != "" then
      let startYear := yearOf start
      let endYear :=
        if job.isCurrent then JsNum.num (currentYear : ℚ)
        else
          match job.endDate with
          | some stop => if stop != "" then yearOf stop else startYear
          | none => startYear
      total.add (endYear.sub startYear)
    else total
  | none => total

/-- The loop `Calculate total years of experience`: the final value of `totalYears`. -/
def totalYears (currentYear : ℤ) (workExperience : List WorkExperience) : JsNum :=
  workExperience.foldl (addEntryYears currentYear) (JsNum.num 0)

/-- The block `Calculate experience match`: the entry `scoreComponents.experience`. -/
def experienceComponent (currentYear : ℤ) (p : Profile) (j : JobRequirements) :
    Component ExperienceDetail :=
  match p.workExperience, j.experience with
  | some workExperience, some experience =>
    let requiredYears : ℚ := experience.minYears.getD 0
    let total := totalYears currentYear workExperience
    if total.ge (JsNum.num requiredYears) then
      { score := JsNum.num 25, maxScore := 25,
        details := [{ required := requiredYears, actual := total, matched := true }] }
    else if requiredYears > 0 then
      let ratio := JsNum.min (total.div (JsNum.num requiredYears)) (JsNum.num 1)
      { score := ratio.mul (JsNum.num 25), maxScore := 25,
        details := [{ required := requiredYears, actual := total, matched := false }] }
    else
      { score := JsNum.num 25, maxScore := 25,
        details := [{ required := 0, actual := total, matched := true }] }
  | _, _ => { score := JsNum.num 0, maxScore := 25, details := [] }

/-- The test of one education entry against one requirement: both strings truthy and
fuzzily equal. -/
def educationHit (required own : Option String) : Bool :=
  match required, own with
  | some r, some o => r != "" && o != "" && fuzzyMatch o r
  | _, _ => false

/-- The loop `Check for degree and field match`: the final `(degreeMatch, fieldMatch)`. -/
def educationScan (requiredDegree requiredField : Option String) (education : List Education) :
    Bool × Bool :=
  education.foldl (fun m edu =>
    let degree := edu.degree.map toLowerCase
    let field := edu.fieldOfStudy.map toLowerCase
    (if educationHit requiredDegree degree then true else m.1,
     if educationHit requiredField field then true else m.2)) (false, false)

/-- The expression `x || 'None'` on an optional string. -/
def orNone : Option String → String
  | some s => if s != "" then s else "None"
  | none => "None"

/-- The block `Calculate education match`: the entry `scoreComponents.education`. -/
def educationComponent (p : Profile) (j : JobRequirements) : Component EducationDetail :=
  match p.education, j.education with
  | some education, some required =>
    let requiredDegree := required.degree.map toLowerCase
    let requiredField := required.fieldOfStudy.map toLowerCase
    let m := educationScan requiredDegree requiredField education
    let degreeMatch := m.1
    let fieldMatch := m.2
    let maxScore : ℚ := 20
    let score : ℚ :=
      if truthy requiredDegree && truthy requiredField then
        if degreeMatch && fieldMatch then maxScore
        else if degreeMatch then maxScore * (7 / 10)
        else if fieldMatch then maxScore * (3 / 10)
        else 0
      else if truthy requiredDegree then
        if degreeMatch then maxScore else 0
      else if truthy requiredField then
        if fieldMatch then maxScore else 0
      else maxScore
    { score := JsNum.num score, maxScore := maxScore,
      details := [{ requiredDegree := orNone requiredDegree, requiredField := orNone requiredField,
                    degreeMatch := degreeMatch, fieldMatch := fieldMatch }] }
  | _, _ => { score := JsNum.num 0, maxScore := 20, details := [] }

/-- The location block once its guard has passed, for preferences `prefs` and the truthy job
location `location`. -/
def locationMatched (prefs : Preferences) (j : JobRequirements) (location : String) :
    Component LocationDetail :=
  let jobLocation := toLowerCase location
  let applicantLocations :=
    match prefs.locations with
    | some ls => ls.map toLowerCase
    | none => []
  let willingToRelocate := prefs.willingToRelocate.getD false
  let remoteWork := prefs.remoteWork.getD false
  let jobRemote := j.remote.getD false
  let locationMatch :=
    if applicantLocations.length > 0 then
      applicantLocations.any (fun loc => fuzzyMatch loc jobLocation)
    else false
  let maxScore : ℚ := 10
  if jobRemote && remoteWork then
    { score := JsNum.num maxScore, maxScore := maxScore,
      details := [{ jobLocation := jobLocation, remote := true, matched := true,
                    reason := "Remote job match" }] }
  else if locationMatch then
    { score := JsNum.num maxScore, maxScore := maxScore,
      details := [{ jobLocation := jobLocation, remote := false, matched := true,
                    reason := "Location match" }] }
  else if willingToRelocate then
    { score := JsNum.num (maxScore * (7 / 10)), maxScore := maxScore,
      details := [{ jobLocation := jobLocation, remote := false, matched := false,
                    reason := "Willing to relocate" }] }
  else
    { score := JsNum.num 0, maxScore := maxScore,
      details := [{ jobLocation := jobLocation, remote := jobRemote, matched := false,
                    reason := "No location match" }] }

/-- The block `Calculate location match`: the entry `scoreComponents.location`. -/
def locationComponent (p : Profile) (j : JobRequirements) : Component LocationDetail :=
  match p.preferences, j.location with
  | some prefs, some location =>
    if location != "" then locationMatched prefs j location
    else { score := JsNum.num 0, maxScore := 10, details := [] }
  | _, _ => { score := JsNum.num 0, maxScore := 10, details := [] }

/-- The job-type block once its guard has passed. -/
def jobTypeMatched (prefs : Preferences) (jobTypeRaw : String) : Component JobTypeDetail :=
  let jobType := toLowerCase jobTypeRaw
  let applicantJobTypes :=
    match prefs.jobTypes with
    | some ts => ts.map toLowerCase
    | none => []
  let jobTypeMatch := applicantJobTypes.any (fun type => fuzzyMatch type jobType)
  let maxScore : ℚ := 5
  if jobTypeMatch then
    { score := JsNum.num maxScore, maxScore := maxScore,
      details := [{ jobType := jobType, matched := true, reason := none }] }
  else if applicantJobTypes.length = 0 then
    { score := JsNum.num (maxScore * (1 / 2)), maxScore := maxScore,
      details := [{ jobType := jobType, matched := false,
                    reason := some "No preferences specified" }] }
  else
    { score := JsNum.num 0, maxScore := maxScore,
      details := [{ jobType := jobType, matched := false, reason := some "Job type mismatch" }] }

/-- The block `Calculate job type match`: the entry `scoreComponents.jobType`. -/
def jobTypeComponent (p : Profile) (j : JobRequirements) : Component JobTypeDetail :=
  match p.preferences, j.jobType with
  | some prefs, some jobType =>
    if jobType != "" then jobTypeMatched prefs jobType
    else { score := JsNum.num 0, maxScore := 5, details := [] }
  | _, _ => { score := JsNum.num 0, maxScore := 5, details := [] }

/-! ## The total score and the result -/

/-- The object `scoreComponents` after the five blocks have run. -/
def scoreComponents (currentYear : ℤ) (p : Profile) (j : JobRequirements) : ScoreComponents :=
  { skills := skillsComponent p j
    experience := experienceComponent currentYear p j
    education := educationComponent p j
    location := locationComponent p j
    jobType := jobTypeComponent p j }

/-- The sequence `Object.values(scoreComponents)`, each entry cut down to the two fields the
summing loop reads. -/
def ScoreComponents.values (c : ScoreComponents) : List (JsNum × ℚ) :=
  [(c.skills.score, c.skills.maxScore), (c.experience.score, c.experience.maxScore),
   (c.education.score, c.education.maxScore), (c.location.score, c.location.maxScore),
   (c.jobType.score, c.jobType.maxScore)]

/-- The loop `Calculate total score`: the final `(totalScore, totalMaxScore)`. -/
def totals (c : ScoreComponents) : JsNum × ℚ :=
  c.values.foldl (fun acc component => (acc.1.add component.1, acc.2 + component.2))
    (JsNum.num 0, 0)

/-- The value `matchPercentage`: `Math.round((totalScore / totalMaxScore) * 100)`, the
quotient and the product being binary64 operations. -/
def matchPercentage (c : ScoreComponents) : JsNum :=
  JsNum.round (((totals c).1.divDouble (JsNum.num (totals c).2)).mulDouble (JsNum.num 100))

/-- The binary64 value of `(totalScore / 100) * 100` for a numeric total. -/
def percentageOf (t : ℚ) : ℚ :=
  roundToDouble (roundToDouble (t / 100) * 100)

/-- The method `calculateMatchScore(applicantProfile, jobRequirements)`, run in the calendar
year `currentYear`. -/
def calculateMatchScore (currentYear : ℤ) (applicantProfile : Profile)
    (jobRequirements : JobRequirements) : MatchResult :=
  let c := scoreComponents currentYear applicantProfile jobRequirements
  { score := matchPercentage c
    components := c
    matchingSkills := (c.skills.details.filter (fun detail => detail.matched)).map
      (fun detail => detail.skill) }

/-! ## The specification's wording, as definitions -/

/-- Specification, skills factor: a job skill is matched if some applicant skill name,
lower-cased, equals the lower-cased job skill, contains it, or is contained in it. -/
def SpecSkillMatches (applicant : List Skill) (jobSkill : String) : Prop :=
  ∃ a ∈ applicant, toLowerCase a.name = toLowerCase jobSkill ∨
    (toLowerCase jobSkill).data <:+: (toLowerCase a.name).data ∨
    (toLowerCase a.name).data <:+: (toLowerCase jobSkill).data

instance SpecSkillMatches.decidable (applicant : List Skill) (jobSkill : String) :
    Decidable (SpecSkillMatches applicant jobSkill) := by
  unfold SpecSkillMatches; infer_instance

/-- Specification: `requiredScore = (matchedRequiredCount / totalRequired) * 30`, or the full
30 when there is no required skill. -/
def specRequiredScore (applicant : List Skill) (required : List String) : ℚ :=
  if required.length = 0 then 30
  else ((required.countP (fun s => decide (SpecSkillMatches applicant s)) : ℚ)
    / (required.length : ℚ)) * 30

/-- Specification: `preferredScore = (matchedPreferredCount / totalPreferred) * 10`, or the
full 10 when the preferred skills are empty or absent. -/
def specPreferredScore (applicant : List Skill) (preferred : Option (List String)) : ℚ :=
  match preferred with
  | none => 10
  | some ps =>
    if ps.length = 0 then 10
    else ((ps.countP (fun s => decide (SpecSkillMatches applicant s)) : ℚ) / (ps.length : ℚ)) * 10

/-- A decimal digit `0` to `9`. -/
def isDecimalDigit (c : Char) : Bool :=
  48 ≤ c.toNat && c.toNat ≤ 57

/-- The number that a string of decimal digits denotes. -/
def decimalValue (cs : List Char) : Nat :=
  cs.foldl (fun n c => 10 * n + (c.toNat - 48)) 0

/-- Specification: the date begins with a numeric year, that is, the text before its first
hyphen is a non-empty run of decimal digits (as in `YYYY-MM` and `YYYY`). -/
def decimalYear (date : String) : Bool :=
  !(splitHead date).data.isEmpty && (splitHead date).data.all isDecimalDigit

/-- Specification: the year of a date, the integer before the first hyphen. -/
def specYear (date : String) : ℤ :=
  (decimalValue (splitHead date).data : ℤ)

/-- A date field is absent, empty, or begins with a numeric year. -/
def dateFieldOk : Option String → Bool
  | some d => d == "" || decimalYear d
  | none => true

/-- Both dates of a work-experience entry, where present, begin with a numeric year. -/
def wellFormedDates (w : WorkExperience) : Bool :=
  dateFieldOk w.startDate && dateFieldOk w.endDate

/-- Every work-experience entry of the profile has well-formed dates. -/
def wellFormedProfile (p : Profile) : Bool :=
  match p.workExperience with
  | some ws => ws.all wellFormedDates
  | none => true

/-- Specification: the years one entry contributes. With a non-empty start date it is
`endYear - startYear`, where `endYear` is the current calendar year if `isCurrent`, else the
year of a non-empty end date, else the start year; without a start date it is 0. -/
def specEntryYears (currentYear : ℤ) (w : WorkExperience) : ℤ :=
  match w.startDate with
  | none => 0
  | some start =>
    if start = "" then 0
    else
      let endYear : ℤ :=
        if w.isCurrent then currentYear
        else
          match w.endDate with
          | some stop => if stop = "" then specYear start else specYear stop
          | none => specYear start
      endYear - specYear start

/-- Specification: the applicant's total years, the sum of the entries' contributions. -/
def specTotalYears (currentYear : ℤ) (ws : List WorkExperience) : ℤ :=
  (ws.map (specEntryYears currentYear)).sum

/-- A number lies in the closed interval from `lo` to `hi` (so it is not `NaN`). -/
def JsNum.within (lo hi : ℚ) (x : JsNum) : Prop :=
  ∃ q, x = JsNum.num q ∧ lo ≤ q ∧ q ≤ hi

/-- Specification: `0 <= score <= 100` and every component score within `[0, maxScore]`. -/
def MatchResult.inBounds (r : MatchResult) : Prop :=
  JsNum.within 0 100 r.score
    ∧ JsNum.within 0 r.components.skills.maxScore r.components.skills.score
    ∧ JsNum.within 0 r.components.experience.maxScore r.components.experience.score
    ∧ JsNum.within 0 r.components.education.maxScore r.components.education.score
    ∧ JsNum.within 0 r.components.location.maxScore r.components.location.score
    ∧ JsNum.within 0 r.components.jobType.maxScore r.components.jobType.score

/-- Specification: one detail record per job skill of one kind, in job order, tagged with the
kind and with the fuzzy-match decision. -/
def specSkillDetails (applicant : List Skill) (ty : SkillType) (jobSkills : List String) :
    List SkillDetail :=
  jobSkills.map (fun s =>
    { skill := toLowerCase s, type := ty, matched := decide (SpecSkillMatches applicant s) })

/-- An entry from which the loop reads a year that does not parse: its start date is
non-empty and either the start year is `NaN` or, the entry not being current, its non-empty
end date has a year that is `NaN`. -/
def entryUnparsable (w : WorkExperience) : Bool :=
  match w.startDate with
  | some start =>
    start != "" &&
      (yearOf start == JsNum.nan ||
        (!w.isCurrent &&
          match w.endDate with
          | some stop => stop != "" && yearOf stop == JsNum.nan
          | none => false))
  | none => false

/-- Specification, glossary: two strings match fuzzily when, compared without regard to
letter case, they are equal or one contains the other. -/
def SpecFuzzyMatch (a b : String) : Prop :=
  toLowerCase a = toLowerCase b ∨ (toLowerCase b).data <:+: (toLowerCase a).data ∨
    (toLowerCase a).data <:+: (toLowerCase b).data

instance SpecFuzzyMatch.decidable (a b : String) : Decidable (SpecFuzzyMatch a b) := by
  unfold SpecFuzzyMatch; infer_instance

/-- Specification, education factor: the requirement is specified (a non-empty string) and
some applicant entry carries a non-empty value that matches it fuzzily. -/
def SpecEducationMatches (required : Option String) (own : List (Option String)) : Prop :=
  ∃ r o, required = some r ∧ r ≠ "" ∧ some o ∈ own ∧ o ≠ "" ∧ SpecFuzzyMatch o r

/-- Specification: the education scoring table, by whether the degree and the field are
specified and whether each matches. -/
def specEducationScore (degreeSpecified fieldSpecified degreeMatch fieldMatch : Bool) : ℚ :=
  match degreeSpecified, fieldSpecified with
  | true, true =>
    if degreeMatch && fieldMatch then 20
    else if degreeMatch then 14
    else if fieldMatch then 6
    else 0
  | true, false => if degreeMatch then 20 else 0
  | false, true => if fieldMatch then 20 else 0
  | false, false => 20

/-- Specification, location factor: some preferred location of the applicant matches the
job location fuzzily. -/
def SpecLocationMatches (prefs : Preferences) (location : String) : Prop :=
  ∃ l ∈ prefs.locations.getD [], SpecFuzzyMatch l location

instance SpecLocationMatches.decidable (prefs : Preferences) (location : String) :
    Decidable (SpecLocationMatches prefs location) := by
  unfold SpecLocationMatches; infer_instance

/-- Specification, job-type factor: some preferred job type of the applicant matches the
job type fuzzily. -/
def SpecJobTypeMatches (prefs : Preferences) (jobType : String) : Prop :=
  ∃ t ∈ prefs.jobTypes.getD [], SpecFuzzyMatch t jobType

instance SpecJobTypeMatches.decidable (prefs : Preferences) (jobType : String) :
    Decidable (SpecJobTypeMatches prefs jobType) := by
  unfold SpecJobTypeMatches; infer_instance

/-- The skills block as a function of the three lower-cased lists alone: the lists
`applicantSkills`, `requiredSkills` and `preferredSkills` of the source, each absent when the
field it is mapped from is absent. -/
def skillsOnLowered (applicant required preferred : Option (List String)) :
    Component SkillDetail :=
  match applicant, required with
  | some applicantSkills, some requiredSkills =>
    let preferredSkills := preferred.getD []
    let afterRequired := checkSkills applicantSkills SkillType.required requiredSkills (0, [])
    let afterPreferred :=
      checkSkills applicantSkills SkillType.preferred preferredSkills (0, afterRequired.2)
    let score1 : ℚ :=
      if requiredSkills.length > 0 then
        0 + ((afterRequired.1 : ℚ) / (requiredSkills.length : ℚ)) * 30
      else 0 + 30
    let score2 : ℚ :=
      if preferredSkills.length > 0 then
        score1 + ((afterPreferred.1 : ℚ) / (preferredSkills.length : ℚ)) * 10
      else score1 + 10
    { score := JsNum.num score2, maxScore := 40, details := afterPreferred.2 }
  | _, _ => { score := JsNum.num 0, maxScore := 40, details := [] }

/-- The years the loop adds for one entry, that is the loop body run from a total of 0:
`endYear - startYear`, or 0 for an entry without a non-empty start date. -/
def entryYears (currentYear : ℤ) (job : WorkExperience) : JsNum :=
  addEntryYears currentYear (JsNum.num 0) job

/-- Specification: what the education details show for a requirement, its lower-case form,
or the literal `None` when the requirement is absent or empty. -/
def specRequirementLabel : Option String → String
  | some s => if s = "" then "None" else toLowerCase s
  | none => "None"

/-! ## Concrete inputs -/

/-- A profile with every optional field absent. -/
def emptyProfile : Profile :=
  { skills := none, workExperience := none, education := none, preferences := none }

/-- A job with every optional field absent. -/
def emptyJob : JobRequirements :=
  { requiredSkills := none, preferredSkills := none, experience := none, education := none,
    location := none, remote := none, jobType := none }

/-- The applicant of the skills scenario: skills JavaScript and React. -/
def scenarioSkillsProfile : Profile :=
  { emptyProfile with skills := some [{ name := "JavaScript" }, { name := "React" }] }

/-- The job of the skills scenario: required javascript and Node.js, preferred TypeScript. -/
def scenarioSkillsJob : JobRequirements :=
  { emptyJob with requiredSkills := some ["javascript", "Node.js"],
                  preferredSkills := some ["TypeScript"] }

/-- A job that lists no required skill and one preferred skill. -/
def noRequiredSkillsJob : JobRequirements :=
  { emptyJob with requiredSkills := some [], preferredSkills := some ["TypeScript"] }

/-- A work history whose single entry ends the year before it starts. -/
def reversedDatesHistory : List WorkExperience :=
  [{ startDate := some "2022-06", endDate := some "2021-03", isCurrent := false }]

/-- A profile with the work history `reversedDatesHistory` and nothing else. -/
def reversedDatesProfile : Profile :=
  { emptyProfile with workExperience := some reversedDatesHistory }

/-- A job that asks for five years of experience and nothing else. -/
def fiveYearsJob : JobRequirements :=
  { emptyJob with experience := some { minYears := some 5 } }

/-- A work history whose single entry is a current job begun in 2020. -/
def currentJobHistory : List WorkExperience :=
  [{ startDate := some "2020-01", endDate := none, isCurrent := true }]

/-- A profile with the work history `currentJobHistory` and nothing else. -/
def currentJobProfile : Profile :=
  { emptyProfile with workExperience := some currentJobHistory }

/-- A job that asks for four years of experience and nothing else. -/
def fourYearsJob : JobRequirements :=
  { emptyJob with experience := some { minYears := some 4 } }

/-- A job that asks for eight years of experience and nothing else. -/
def eightYearsJob : JobRequirements :=
  { emptyJob with experience := some { minYears := some 8 } }

/-- The work history of the experience scenario: one job from 2019-01 to 2022-01. -/
def scenarioHistory : List WorkExperience :=
  [{ startDate := some "2019-01", endDate := some "2022-01", isCurrent := false }]

/-- The applicant of the experience scenario. -/
def scenarioExperienceProfile : Profile :=
  { emptyProfile with workExperience := some scenarioHistory }

/-- An applicant whose preferences list no job type. -/
def noJobTypesProfile : Profile :=
  { emptyProfile with
    preferences := some { locations := none, willingToRelocate := none, remoteWork := none,
                          jobTypes := some [] } }

/-- A job that states its job type and nothing else. -/
def fullTimeJob : JobRequirements :=
  { emptyJob with jobType := some "Full-time" }

/-- A profile whose work history is present and empty. -/
def emptyHistoryProfile : Profile :=
  { emptyProfile with workExperience := some [] }

/-- A work history that begins with an entry whose start date has no numeric year, followed
by the entry of the experience scenario. -/
def malformedHistory : List WorkExperience :=
  { startDate := some "June 2019", endDate := some "2021-03", isCurrent := false }
    :: scenarioHistory

/-- A profile with the work history `malformedHistory` and nothing else. -/
def malformedProfile : Profile :=
  { emptyProfile with workExperience := some malformedHistory }

/-- A job whose experience record carries no `minYears`. -/
def noMinYearsJob : JobRequirements :=
  { emptyJob with experience := some { minYears := none } }

/-- A job that asks for zero years of experience. -/
def zeroYearsJob : JobRequirements :=
  { emptyJob with experience := some { minYears := some 0 } }

/-- The job of the education scenario: a Bachelor's degree in Computer Science. -/
def scenarioEducationJob : JobRequirements :=
  { emptyJob with
    education := some { degree := some "Bachelor's", fieldOfStudy := some "Computer Science" } }

/-- The applicant of the education scenario: a Bachelor of Science in Computer Science. -/
def scenarioEducationProfile : Profile :=
  { emptyProfile with
    education := some [{ degree := some "Bachelor of Science",
                         fieldOfStudy := some "Computer Science" }] }

/-- A job that asks for a Bachelor degree in Physics. -/
def bachelorPhysicsJob : JobRequirements :=
  { emptyJob with
    education := some { degree := some "Bachelor", fieldOfStudy := some "Physics" } }

/-- A job that asks for a Bachelor degree in Computer Science. -/
def bachelorComputingJob : JobRequirements :=
  { emptyJob with
    education := some { degree := some "Bachelor", fieldOfStudy := some "Computer Science" } }

/-- An applicant whose degree matches in one education entry and whose field matches in
another. -/
def twoEntriesProfile : Profile :=
  { emptyProfile with
    education := some [{ degree := some "Bachelor of Science", fieldOfStudy := some "History" },
                       { degree := some "Diploma", fieldOfStudy := some "Computer Science" }] }

/-- An applicant whose single education entry was left blank. -/
def blankEducationProfile : Profile :=
  { emptyProfile with education := some [{ degree := some "", fieldOfStudy := some "" }] }

/-- An applicant open to remote work who prefers Boston and would not relocate. -/
def remoteWorkerProfile : Profile :=
  { emptyProfile with
    preferences := some { locations := some ["Boston"], willingToRelocate := some false,
                          remoteWork := some true, jobTypes := none } }

/-- A remote job located in Austin. -/
def remoteAustinJob : JobRequirements :=
  { emptyJob with location := some "Austin", remote := some true }

/-- A remote job whose location is the empty string. -/
def remoteNoLocationJob : JobRequirements :=
  { emptyJob with location := some "", remote := some true }

/-- An applicant who prefers Boston, would relocate, and is not open to remote work. -/
def relocatingProfile : Profile :=
  { emptyProfile with
    preferences := some { locations := some ["Boston"], willingToRelocate := some true,
                          remoteWork := some false, jobTypes := some ["Part-time"] } }

/-- An on-site job located in Austin. -/
def onSiteAustinJob : JobRequirements :=
  { emptyJob with location := some "Austin", remote := some false }

/-- An applicant who lists the one skill React. -/
def reactProfile : Profile :=
  { emptyProfile with skills := some [{ name := "React" }] }

/-- A job that requires React twice, in two spellings, and prefers React Native and Go. -/
def duplicateSkillsJob : JobRequirements :=
  { emptyJob with requiredSkills := some ["React", "REACT"],
                  preferredSkills := some ["react native", "Go"] }

/-- An applicant whose only skill has the empty name. -/
def blankSkillProfile : Profile :=
  { emptyProfile with skills := some [{ name := "" }] }

/-- The skills scenario written in other letter cases. -/
def shoutedSkillsProfile : Profile :=
  { emptyProfile with skills := some [{ name := "JAVASCRIPT" }, { name := "react" }] }

/-- The job of the skills scenario written in other letter cases. -/
def shoutedSkillsJob : JobRequirements :=
  { emptyJob with requiredSkills := some ["JavaScript", "NODE.JS"],
                  preferredSkills := some ["typescript"] }

/-- A profile whose skills sequence is present and empty. -/
def emptySkillsProfile : Profile :=
  { emptyProfile with skills := some [] }

/-- A work history whose single entry runs from December 2019 to January 2020. -/
def yearBoundaryHistory : List WorkExperience :=
  [{ startDate := some "2019-12", endDate := some "2020-01", isCurrent := false }]

/-- A work history whose single entry runs from January 2019 to December 2019. -/
def sameYearHistory : List WorkExperience :=
  [{ startDate := some "2019-01", endDate := some "2019-12", isCurrent := false }]

/-- A job that asks for a Master degree and names no field of study. -/
def masterJob : JobRequirements :=
  { emptyJob with education := some { degree := some "Master", fieldOfStudy := none } }

/-- An applicant without skills, with the work history of the experience scenario, a Bachelor
of Science in Computer Science, a preference for Austin and no preferred job type. -/
def halfPointProfile : Profile :=
  { skills := none
    workExperience := some scenarioHistory
    education := some [{ degree := some "Bachelor of Science",
                         fieldOfStudy := some "Computer Science" }]
    preferences := some { locations := some ["Austin"], willingToRelocate := none,
                          remoteWork := none, jobTypes := some [] } }

/-- A full-time job in Austin that asks for three years of experience and a Bachelor degree
in Computer Science, and lists no skills. -/
def halfPointJob : JobRequirements :=
  { requiredSkills := none, preferredSkills := none
    experience := some { minYears := some 3 }
    education := some { degree := some "Bachelor", fieldOfStudy := some "Computer Science" }
    location := some "Austin", remote := none, jobType := some "Full-time" }

/-- An applicant with one year of experience, who prefers Boston, would relocate and lists no
job type; no skills and no education are given. -/
def juniorRelocatingProfile : Profile :=
  { skills := none
    workExperience := some yearBoundaryHistory
    education := none
    preferences := some { locations := some ["Boston"], willingToRelocate := some true,
                          remoteWork := none, jobTypes := some [] } }

/-- A full-time job in Austin that asks for five years of experience. -/
def fiveYearsAustinJob : JobRequirements :=
  { emptyJob with experience := some { minYears := some 5 }, location := some "Austin",
                  jobType := some "Full-time" }

/-! ## Auxiliary facts -/

theorem roundHalfEven_spec (q : ℚ) :
    |q - roundHalfEven q| < 1 / 2
      ∨ (|q - roundHalfEven q| = 1 / 2 ∧ roundHalfEven q % 2 = 0) := by
  have h0 : 0 ≤ q - ⌊q⌋ := by linarith [Int.floor_le q]
  have h1 : q - ⌊q⌋ < 1 := by linarith [Int.lt_floor_add_one q]
  unfold roundHalfEven
  by_cases ha : q - ⌊q⌋ < 1 / 2
  · rw [if_pos ha]
    left
    rw [abs_of_nonneg h0]
    exact ha
  · rw [if_neg ha]
    by_cases hb : 1 / 2 < q - ⌊q⌋
    · rw [if_pos hb]
      left
      push_cast
      rw [abs_lt]
      constructor <;> linarith
    · rw [if_neg hb]
      have he : q - ⌊q⌋ = 1 / 2 := le_antisymm (not_lt.1 hb) (not_lt.1 ha)
      by_cases hc : ⌊q⌋ % 2 = 0
      · rw [if_pos hc]
        right
        exact ⟨by rw [abs_of_nonneg h0]; exact he, hc⟩
      · rw [if_neg hc]
        right
        refine ⟨?_, by omega⟩
        push_cast
        have h2 : q - (⌊q⌋ + 1) = -(1 / 2) := by linarith
        rw [h2, abs_neg]
        norm_num

theorem roundHalfEven_unique (q : ℚ) (n : ℤ)
    (h : |q - n| < 1 / 2 ∨ (|q - n| = 1 / 2 ∧ n % 2 = 0)) : roundHalfEven q = n := by
  have hs := roundHalfEven_spec q
  generalize roundHalfEven q = r at hs
  have key : ∀ a b : ℚ, |q - a| < 1 / 2 → |q - b| ≤ 1 / 2 → |a - b| < 1 := by
    intro a b h1 h2
    rw [abs_lt] at h1 ⊢
    rw [abs_le] at h2
    constructor <;> linarith
  have fin : |(r : ℚ) - n| < 1 → r = n := by
    intro h1
    have h2 : |r - n| < 1 := by exact_mod_cast h1
    have h3 := Int.abs_lt_one_iff.1 h2
    omega
  rcases hs with hs | ⟨hs, hse⟩
  · refine fin (key r n hs ?_)
    rcases h with h | ⟨h, -⟩
    · exact h.le
    · exact h.le
  · rcases h with h | ⟨h, hne⟩
    · have h1 := key n r h hs.le
      rw [abs_sub_comm] at h1
      exact fin h1
    · have h1 : |(r : ℚ) - n| ≤ 1 := by
        have ha := abs_le.1 hs.le
        have hb := abs_le.1 h.le
        rw [abs_le]
        constructor <;> linarith
      have h2 : |r - n| ≤ 1 := by exact_mod_cast h1
      have h3 := abs_le.1 h2
      omega

theorem roundHalfEven_intCast (n : ℤ) : roundHalfEven (n : ℚ) = n :=
  roundHalfEven_unique _ n (Or.inl (by simp))

theorem roundHalfEven_zero : roundHalfEven 0 = 0 := by
  have h := roundHalfEven_intCast 0
  simpa using h

theorem roundHalfEven_neg (q : ℚ) : roundHalfEven (-q) = -roundHalfEven q := by
  apply roundHalfEven_unique
  have h : -q - ((-roundHalfEven q : ℤ) : ℚ) = -(q - roundHalfEven q) := by
    push_cast; ring
  rw [h, abs_neg]
  rcases roundHalfEven_spec q with hs | ⟨hs, hse⟩
  · exact Or.inl hs
  · exact Or.inr ⟨hs, by omega⟩

theorem roundHalfEven_near (q : ℚ) : |q - roundHalfEven q| ≤ 1 / 2 := by
  rcases roundHalfEven_spec q with hs | ⟨hs, -⟩
  · exact hs.le
  · exact hs.le

theorem roundHalfEven_mono (x y : ℚ) (h : x ≤ y) : roundHalfEven x ≤ roundHalfEven y := by
  by_contra hlt
  have h1 : roundHalfEven y + 1 ≤ roundHalfEven x := by omega
  have h2 : ((roundHalfEven y : ℤ) : ℚ) + 1 ≤ roundHalfEven x := by exact_mod_cast h1
  have hx := abs_le.1 (roundHalfEven_near x)
  have hy := abs_le.1 (roundHalfEven_near y)
  have hxy : x = y := le_antisymm h (by linarith)
  rw [hxy] at hlt
  exact hlt le_rfl

theorem binaryExponent_neg (q : ℚ) : binaryExponent (-q) = binaryExponent q := by
  unfold binaryExponent
  rw [abs_neg]

theorem binaryExponent_ge (q : ℚ) : -1022 ≤ binaryExponent q :=
  le_max_right _ _

theorem abs_lt_zpow_binaryExponent (q : ℚ) : |q| < 2 ^ (binaryExponent q + 1) := by
  have h1 : |q| < ((2 : ℕ) : ℚ) ^ (Int.log 2 |q| + 1) :=
    Int.lt_zpow_succ_log_self (by norm_num) _
  rw [Nat.cast_ofNat] at h1
  refine lt_of_lt_of_le h1 (zpow_le_zpow_right₀ (by norm_num) ?_)
  have := le_max_left (Int.log 2 |q|) (-1022)
  unfold binaryExponent
  omega

theorem zpow_binaryExponent_le (q : ℚ) (hq : q ≠ 0) (h : -1022 < binaryExponent q) :
    2 ^ binaryExponent q ≤ |q| := by
  have hlog : binaryExponent q = Int.log 2 |q| := by
    unfold binaryExponent at h ⊢
    rcases max_cases (Int.log 2 |q|) (-1022) with ⟨h1, -⟩ | ⟨h1, -⟩
    · exact h1
    · rw [h1] at h; omega
  rw [hlog]
  have h1 : ((2 : ℕ) : ℚ) ^ Int.log 2 |q| ≤ |q| :=
    Int.zpow_log_le_self (by norm_num) (abs_pos.2 hq)
  rwa [Nat.cast_ofNat] at h1

theorem binaryExponent_mono (x y : ℚ) (hx : x ≠ 0) (h : |x| ≤ |y|) :
    binaryExponent x ≤ binaryExponent y := by
  unfold binaryExponent
  exact max_le_max (Int.log_mono_right (abs_pos.2 hx) h) le_rfl

theorem binaryExponent_eq (q : ℚ) (e : ℤ) (he : -1022 ≤ e) (h1 : 2 ^ e ≤ |q|)
    (h2 : |q| < 2 ^ (e + 1)) : binaryExponent q = e := by
  have hpos : 0 < |q| := lt_of_lt_of_le (by positivity) h1
  have ha : e ≤ Int.log 2 |q| := by
    rw [← Int.zpow_le_iff_le_log (by norm_num) hpos, Nat.cast_ofNat]
    exact h1
  have hb : Int.log 2 |q| < e + 1 := by
    rw [← Int.lt_zpow_iff_log_lt (by norm_num) hpos, Nat.cast_ofNat]
    exact h2
  unfold binaryExponent
  rw [max_eq_left (by omega)]
  omega

theorem binaryExponent_le (q : ℚ) (k : ℤ) (hk : -1022 ≤ k) (hq : q ≠ 0)
    (h : |q| < 2 ^ (k + 1)) : binaryExponent q ≤ k := by
  have hpos : 0 < |q| := abs_pos.2 hq
  have hb : Int.log 2 |q| < k + 1 := by
    rw [← Int.lt_zpow_iff_log_lt (by norm_num) hpos, Nat.cast_ofNat]
    exact h
  unfold binaryExponent
  exact max_le (by omega) hk

theorem roundToDouble_zero : roundToDouble 0 = 0 := by
  unfold roundToDouble
  rw [zero_div, roundHalfEven_zero]
  simp

theorem roundToDouble_neg (q : ℚ) : roundToDouble (-q) = -roundToDouble q := by
  unfold roundToDouble
  rw [binaryExponent_neg, neg_div, roundHalfEven_neg]
  push_cast
  ring

/-- The value of `roundToDouble` from the binade of the argument and the nearest multiple of
the unit in the last place. -/
theorem roundToDouble_eq (q : ℚ) (e m : ℤ) (he : -1022 ≤ e) (h1 : 2 ^ e ≤ |q|)
    (h2 : |q| < 2 ^ (e + 1)) (hm : |q / 2 ^ (e - 52) - m| < 1 / 2) :
    roundToDouble q = m * 2 ^ (e - 52) := by
  unfold roundToDouble
  rw [binaryExponent_eq q e he h1 h2, roundHalfEven_unique _ m (Or.inl hm)]

/-- The error of `roundToDouble` is at most half a unit in the last place. -/
theorem roundToDouble_near (q : ℚ) :
    |q - roundToDouble q| ≤ 2 ^ (binaryExponent q - 53) := by
  unfold roundToDouble
  have hu : (0 : ℚ) < 2 ^ (binaryExponent q - 52) := by positivity
  have h := roundHalfEven_near (q / 2 ^ (binaryExponent q - 52))
  have h2 : q - roundHalfEven (q / 2 ^ (binaryExponent q - 52)) * 2 ^ (binaryExponent q - 52)
      = (q / 2 ^ (binaryExponent q - 52) - roundHalfEven (q / 2 ^ (binaryExponent q - 52)))
        * 2 ^ (binaryExponent q - 52) := by
    field_simp
    ring
  rw [h2, abs_mul, abs_of_pos hu]
  have h3 : (2 : ℚ) ^ (binaryExponent q - 53) = 1 / 2 * 2 ^ (binaryExponent q - 52) := by
    rw [show binaryExponent q - 53 = (binaryExponent q - 52) + (-1) by ring,
      zpow_add₀ (by norm_num)]
    norm_num
    ring
  rw [h3]
  exact mul_le_mul_of_nonneg_right h hu.le

theorem roundToDouble_nonneg (q : ℚ) (h : 0 ≤ q) : 0 ≤ roundToDouble q := by
  unfold roundToDouble
  have hu : (0 : ℚ) < 2 ^ (binaryExponent q - 52) := by positivity
  have h1 : roundHalfEven 0 ≤ roundHalfEven (q / 2 ^ (binaryExponent q - 52)) :=
    roundHalfEven_mono _ _ (div_nonneg h hu.le)
  rw [roundHalfEven_zero] at h1
  have h2 : (0 : ℚ) ≤ roundHalfEven (q / 2 ^ (binaryExponent q - 52)) := by exact_mod_cast h1
  exact mul_nonneg h2 hu.le

theorem roundToDouble_le_zpow (q : ℚ) : roundToDouble q ≤ 2 ^ (binaryExponent q + 1) := by
  unfold roundToDouble
  have hu : (0 : ℚ) < 2 ^ (binaryExponent q - 52) := by positivity
  have hq : q < 2 ^ (binaryExponent q + 1) :=
    lt_of_le_of_lt (le_abs_self q) (abs_lt_zpow_binaryExponent q)
  have hs : (2 : ℚ) ^ (binaryExponent q + 1)
      = ((2 ^ 53 : ℤ) : ℚ) * 2 ^ (binaryExponent q - 52) := by
    rw [show binaryExponent q + 1 = 53 + (binaryExponent q - 52) by ring,
      zpow_add₀ (by norm_num)]
    norm_num
  have h1 : roundHalfEven (q / 2 ^ (binaryExponent q - 52))
      ≤ roundHalfEven (((2 ^ 53 : ℤ) : ℚ)) := by
    apply roundHalfEven_mono
    rw [div_le_iff₀ hu, ← hs]
    exact hq.le
  rw [roundHalfEven_intCast] at h1
  rw [hs]
  have h2 : ((roundHalfEven (q / 2 ^ (binaryExponent q - 52)) : ℤ) : ℚ)
      ≤ ((2 ^ 53 : ℤ) : ℚ) := by exact_mod_cast h1
  exact mul_le_mul_of_nonneg_right h2 hu.le

theorem zpow_le_roundToDouble (q : ℚ) (h : 2 ^ binaryExponent q ≤ q) :
    2 ^ binaryExponent q ≤ roundToDouble q := by
  unfold roundToDouble
  have hu : (0 : ℚ) < 2 ^ (binaryExponent q - 52) := by positivity
  have hs : (2 : ℚ) ^ binaryExponent q
      = ((2 ^ 52 : ℤ) : ℚ) * 2 ^ (binaryExponent q - 52) := by
    rw [show binaryExponent q = 52 + (binaryExponent q - 52) by ring,
      zpow_add₀ (by norm_num)]
    norm_num
  have h1 : roundHalfEven (((2 ^ 52 : ℤ) : ℚ))
      ≤ roundHalfEven (q / 2 ^ (binaryExponent q - 52)) := by
    apply roundHalfEven_mono
    rw [le_div_iff₀ hu, ← hs]
    exact h
  rw [roundHalfEven_intCast] at h1
  have h2 : ((2 ^ 52 : ℤ) : ℚ)
      ≤ ((roundHalfEven (q / 2 ^ (binaryExponent q - 52)) : ℤ) : ℚ) := by exact_mod_cast h1
  calc (2 : ℚ) ^ binaryExponent q = ((2 ^ 52 : ℤ) : ℚ) * 2 ^ (binaryExponent q - 52) := hs
    _ ≤ _ := mul_le_mul_of_nonneg_right h2 hu.le

theorem roundToDouble_mono_of_nonneg (x y : ℚ) (hx : 0 ≤ x) (h : x ≤ y) :
    roundToDouble x ≤ roundToDouble y := by
  rcases eq_or_lt_of_le hx with h0 | hpos
  · rw [← h0, roundToDouble_zero]
    exact roundToDouble_nonneg y (le_trans hx h)
  · have hypos : 0 < y := lt_of_lt_of_le hpos h
    have habs : |x| ≤ |y| := by rw [abs_of_pos hpos, abs_of_pos hypos]; exact h
    have hE := binaryExponent_mono x y hpos.ne' habs
    rcases eq_or_lt_of_le hE with heq | hlt
    · unfold roundToDouble
      rw [heq]
      have hu : (0 : ℚ) < 2 ^ (binaryExponent y - 52) := by positivity
      have h1 := roundHalfEven_mono (x / 2 ^ (binaryExponent y - 52))
        (y / 2 ^ (binaryExponent y - 52)) (div_le_div_of_nonneg_right h hu.le)
      have h2 : ((roundHalfEven (x / 2 ^ (binaryExponent y - 52)) : ℤ) : ℚ)
          ≤ ((roundHalfEven (y / 2 ^ (binaryExponent y - 52)) : ℤ) : ℚ) := by
        exact_mod_cast h1
      exact mul_le_mul_of_nonneg_right h2 hu.le
    · have hy : (2 : ℚ) ^ binaryExponent y ≤ y := by
        have := zpow_binaryExponent_le y hypos.ne'
          (lt_of_le_of_lt (binaryExponent_ge x) hlt)
        rwa [abs_of_pos hypos] at this
      calc roundToDouble x ≤ 2 ^ (binaryExponent x + 1) := roundToDouble_le_zpow x
        _ ≤ 2 ^ binaryExponent y := zpow_le_zpow_right₀ (by norm_num) (by omega)
        _ ≤ roundToDouble y := zpow_le_roundToDouble y hy

/-- Rounding to binary64 is monotone. -/
theorem roundToDouble_mono (x y : ℚ) (h : x ≤ y) : roundToDouble x ≤ roundToDouble y := by
  rcases le_total 0 x with hx | hx
  · exact roundToDouble_mono_of_nonneg x y hx h
  · rcases le_total y 0 with hy | hy
    · have h1 := roundToDouble_mono_of_nonneg (-y) (-x) (by linarith) (by linarith)
      rw [roundToDouble_neg, roundToDouble_neg] at h1
      linarith
    · have h1 := roundToDouble_nonneg y hy
      have h2 := roundToDouble_nonneg (-x) (by linarith)
      rw [roundToDouble_neg] at h2
      linarith

theorem roundToDouble_one : roundToDouble 1 = 1 := by
  rw [roundToDouble_eq 1 0 (2 ^ 52) (by norm_num) (by norm_num) (by norm_num) (by norm_num)]
  norm_num

theorem roundToDouble_hundred : roundToDouble 100 = 100 := by
  rw [roundToDouble_eq 100 6 (100 * 2 ^ 46) (by norm_num) (by norm_num) (by norm_num)
    (by norm_num)]
  norm_num

theorem percentageOf_zero : percentageOf 0 = 0 := by
  unfold percentageOf
  rw [zero_div, roundToDouble_zero, zero_mul, roundToDouble_zero]

theorem percentageOf_mono (t u : ℚ) (h : t ≤ u) : percentageOf t ≤ percentageOf u := by
  unfold percentageOf
  apply roundToDouble_mono
  have h1 := roundToDouble_mono (t / 100) (u / 100) (by linarith)
  linarith

theorem percentageOf_hundred : percentageOf 100 = 100 := by
  unfold percentageOf
  rw [show (100 : ℚ) / 100 = 1 by norm_num, roundToDouble_one, one_mul, roundToDouble_hundred]

theorem percentageOf_within (t : ℚ) (h0 : 0 ≤ t) (h1 : t ≤ 100) :
    0 ≤ percentageOf t ∧ percentageOf t ≤ 100 := by
  have ha := percentageOf_mono 0 t h0
  have hb := percentageOf_mono t 100 h1
  rw [percentageOf_zero] at ha
  rw [percentageOf_hundred] at hb
  exact ⟨ha, hb⟩

theorem roundToDouble_near_of_le (q : ℚ) (k : ℤ) (hk : -1022 ≤ k) (h : |q| < 2 ^ (k + 1)) :
    |q - roundToDouble q| ≤ 2 ^ (k - 53) := by
  by_cases hq : q = 0
  · rw [hq, roundToDouble_zero]
    simp
    positivity
  · exact le_trans (roundToDouble_near q)
      (zpow_le_zpow_right₀ (by norm_num) (by have := binaryExponent_le q k hk hq h; omega))

/-- For a total within `[0, 100]` the binary64 percentage is within `2 ^ -45` of the total. -/
theorem percentageOf_near (t : ℚ) (h0 : 0 ≤ t) (h1 : t ≤ 100) :
    |percentageOf t - t| ≤ 1 / 2 ^ 45 := by
  have hx0 : 0 ≤ t / 100 := by positivity
  have hx1 : t / 100 ≤ 1 := by linarith
  have hy0 : 0 ≤ roundToDouble (t / 100) := roundToDouble_nonneg _ hx0
  have hy1 : roundToDouble (t / 100) ≤ 1 := by
    have := roundToDouble_mono _ _ hx1
    rwa [roundToDouble_one] at this
  have e1 : |t / 100 - roundToDouble (t / 100)| ≤ 2 ^ ((0 : ℤ) - 53) :=
    roundToDouble_near_of_le _ 0 (by norm_num) (by
      rw [abs_of_nonneg hx0]; norm_num; linarith)
  have e2 : |roundToDouble (t / 100) * 100 - roundToDouble (roundToDouble (t / 100) * 100)|
      ≤ 2 ^ ((6 : ℤ) - 53) :=
    roundToDouble_near_of_le _ 6 (by norm_num) (by
      rw [abs_of_nonneg (by positivity)]; norm_num; linarith)
  unfold percentageOf
  rw [abs_le] at e1 e2 ⊢
  norm_num at e1 e2 ⊢
  constructor <;> linarith

/-- The binary64 percentage of a positive total, from the binades and the nearest multiples of
the unit in the last place of the quotient and of the product. -/
theorem percentageOf_eval (t : ℚ) (e1 m1 e2 m2 : ℤ) (ht : 0 < t) (hm : 0 < m1)
    (he1 : -1022 ≤ e1) (h1 : 2 ^ e1 ≤ t / 100) (h1u : t / 100 < 2 ^ (e1 + 1))
    (hm1 : t / 100 / 2 ^ (e1 - 52) - m1 < 1 / 2) (hm1l : m1 - t / 100 / 2 ^ (e1 - 52) < 1 / 2)
    (he2 : -1022 ≤ e2) (h2 : 2 ^ e2 ≤ (m1 : ℚ) * 2 ^ (e1 - 52) * 100)
    (h2u : (m1 : ℚ) * 2 ^ (e1 - 52) * 100 < 2 ^ (e2 + 1))
    (hm2 : (m1 : ℚ) * 2 ^ (e1 - 52) * 100 / 2 ^ (e2 - 52) - m2 < 1 / 2)
    (hm2l : m2 - (m1 : ℚ) * 2 ^ (e1 - 52) * 100 / 2 ^ (e2 - 52) < 1 / 2) :
    percentageOf t = m2 * 2 ^ (e2 - 52) := by
  have hx : 0 < t / 100 := by positivity
  have hm0 : (0 : ℚ) < m1 := by exact_mod_cast hm
  have hy : (0 : ℚ) < m1 * 2 ^ (e1 - 52) * 100 := by positivity
  unfold percentageOf
  rw [roundToDouble_eq (t / 100) e1 m1 he1 (by rwa [abs_of_pos hx]) (by rwa [abs_of_pos hx])
    (by rw [abs_lt]; constructor <;> linarith)]
  exact roundToDouble_eq _ e2 m2 he2 (by rwa [abs_of_pos hy]) (by rwa [abs_of_pos hy])
    (by rw [abs_lt]; constructor <;> linarith)

theorem percentageOf_neg (t : ℚ) : percentageOf (-t) = -percentageOf t := by
  unfold percentageOf
  rw [neg_div, roundToDouble_neg, neg_mul, roundToDouble_neg]

theorem percentageOf_five_halves : percentageOf (5 / 2) = 5 / 2 := by
  rw [percentageOf_eval _ (-6) 7205759403792794 (1) 5629499534213120 (by norm_num) (by norm_num)
    (by norm_num) (by norm_num) (by norm_num) (by norm_num) (by norm_num)
    (by norm_num) (by norm_num) (by norm_num) (by norm_num) (by norm_num)]
  norm_num

theorem percentageOf_twenty_five_quarters : percentageOf (25 / 4) = 25 / 4 := by
  rw [percentageOf_eval _ (-4) 4503599627370496 (2) 7036874417766400 (by norm_num) (by norm_num)
    (by norm_num) (by norm_num) (by norm_num) (by norm_num) (by norm_num)
    (by norm_num) (by norm_num) (by norm_num) (by norm_num) (by norm_num)]
  norm_num

theorem percentageOf_twenty_five_halves : percentageOf (25 / 2) = 25 / 2 := by
  rw [percentageOf_eval _ (-3) 4503599627370496 (3) 7036874417766400 (by norm_num) (by norm_num)
    (by norm_num) (by norm_num) (by norm_num) (by norm_num) (by norm_num)
    (by norm_num) (by norm_num) (by norm_num) (by norm_num) (by norm_num)]
  norm_num

theorem percentageOf_seventy_five_quarters : percentageOf (75 / 4) = 75 / 4 := by
  rw [percentageOf_eval _ (-3) 6755399441055744 (4) 5277655813324800 (by norm_num) (by norm_num)
    (by norm_num) (by norm_num) (by norm_num) (by norm_num) (by norm_num)
    (by norm_num) (by norm_num) (by norm_num) (by norm_num) (by norm_num)]
  norm_num

theorem percentageOf_thirty : percentageOf (30) = 30 := by
  rw [percentageOf_eval _ (-2) 5404319552844595 (4) 8444249301319680 (by norm_num) (by norm_num)
    (by norm_num) (by norm_num) (by norm_num) (by norm_num) (by norm_num)
    (by norm_num) (by norm_num) (by norm_num) (by norm_num) (by norm_num)]
  norm_num

theorem percentageOf_fifty_seven_and_half : percentageOf (115 / 2) = 8092405580431359 / 140737488355328 := by
  rw [percentageOf_eval _ (-1) 5179139571476070 (5) 8092405580431359 (by norm_num) (by norm_num)
    (by norm_num) (by norm_num) (by norm_num) (by norm_num) (by norm_num)
    (by norm_num) (by norm_num) (by norm_num) (by norm_num) (by norm_num)]
  norm_num

theorem percentageOf_fourteen_and_half : percentageOf (29 / 2) = 8162774324609023 / 562949953421312 := by
  rw [percentageOf_eval _ (-3) 5224175567749775 (3) 8162774324609023 (by norm_num) (by norm_num)
    (by norm_num) (by norm_num) (by norm_num) (by norm_num) (by norm_num)
    (by norm_num) (by norm_num) (by norm_num) (by norm_num) (by norm_num)]
  norm_num

/-- The containment test decides the infix relation on character lists. -/
theorem includesChars_iff (s t : List Char) : includesChars s t = true ↔ t <:+: s := by
  induction s with
  | nil => simp [includesChars, List.isEmpty_iff]
  | cons c s ih =>
    simp only [includesChars, Bool.or_eq_true, ih, List.infix_cons_iff,
      List.isPrefixOf_iff_prefix]

theorem includes_iff (s t : String) : includes s t = true ↔ t.data <:+: s.data :=
  includesChars_iff _ _

/-- The fuzzy test holds exactly for equal strings and for containment either way. -/
theorem fuzzyMatch_iff (a b : String) :
    fuzzyMatch a b = true ↔ a = b ∨ b.data <:+: a.data ∨ a.data <:+: b.data := by
  simp [fuzzyMatch, includes_iff, or_assoc]

theorem any_fuzzyMatch_eq (applicant : List Skill) (jobSkill : String) :
    (applicant.map (fun s => toLowerCase s.name)).any
      (fun s => fuzzyMatch s (toLowerCase jobSkill))
      = decide (SpecSkillMatches applicant jobSkill) := by
  rw [Bool.eq_iff_iff]
  simp [SpecSkillMatches, fuzzyMatch_iff]

/-- One loop over job skills adds the number of matched skills to the counter and appends one record per skill. -/
theorem checkSkills_eq (applicantSkills : List String) (ty : SkillType) (skills : List String)
    (st : Nat × List SkillDetail) :
    checkSkills applicantSkills ty skills st =
      (st.1 + skills.countP (fun skill => applicantSkills.any (fun s => fuzzyMatch s skill)),
       st.2 ++ skills.map (fun skill =>
         { skill := skill, type := ty,
           matched := applicantSkills.any (fun s => fuzzyMatch s skill) })) := by
  unfold checkSkills
  induction skills generalizing st with
  | nil => simp
  | cons x xs ih =>
    rw [List.foldl_cons, ih]
    by_cases h : applicantSkills.any (fun s => fuzzyMatch s x) = true
    · simp [h, List.countP_cons, Nat.add_assoc, Nat.add_comm]
    · simp [h, List.countP_cons]

/-- The skills entry when the factor runs, in the terms of the specification. -/
theorem skillsComponent_run (p : Profile) (j : JobRequirements) (skills : List Skill)
    (required : List String) (hs : p.skills = some skills)
    (hr : j.requiredSkills = some required) :
    skillsComponent p j =
      { score := JsNum.num (specRequiredScore skills required
          + specPreferredScore skills j.preferredSkills),
        maxScore := 40,
        details := specSkillDetails skills SkillType.required required
          ++ specSkillDetails skills SkillType.preferred (j.preferredSkills.getD []) } := by
  have hany : ∀ s : String, (skills.map (fun s => toLowerCase s.name)).any
      (fun a => fuzzyMatch a (toLowerCase s)) = decide (SpecSkillMatches skills s) :=
    any_fuzzyMatch_eq skills
  unfold skillsComponent
  rw [hs, hr]
  cases hp : j.preferredSkills with
  | none =>
    simp only [checkSkills_eq, List.countP_map, List.length_map, List.map_map,
      Function.comp_def, hany, specRequiredScore, specPreferredScore, specSkillDetails,
      Option.getD_none, List.map_nil, List.countP_nil, List.length_nil]
    by_cases h0 : required.length = 0
    · simp [h0]
    · have : required.length > 0 := Nat.pos_of_ne_zero h0
      simp [h0, this]
  | some ps =>
    simp only [checkSkills_eq, List.countP_map, List.length_map, List.map_map,
      Function.comp_def, hany, specRequiredScore, specPreferredScore, specSkillDetails,
      Option.getD_some]
    by_cases h0 : required.length = 0 <;> by_cases h1 : ps.length = 0
    · simp [h0, h1]
    · have : ps.length > 0 := Nat.pos_of_ne_zero h1
      simp [h0, h1, this]
    · have : required.length > 0 := Nat.pos_of_ne_zero h0
      simp [h0, h1, this]
    · have : required.length > 0 := Nat.pos_of_ne_zero h0
      have : ps.length > 0 := Nat.pos_of_ne_zero h1
      simp [h0, h1, *]

/-- The skills entry when the factor is skipped keeps its initial value. -/
theorem skillsComponent_skipped (p : Profile) (j : JobRequirements)
    (h : p.skills = none ∨ j.requiredSkills = none) :
    skillsComponent p j = { score := JsNum.num 0, maxScore := 40, details := [] } := by
  unfold skillsComponent
  rcases h with h | h
  · rw [h]
  · rw [h]; cases p.skills <;> rfl

theorem ratio_bounds (matched total : Nat) (w : ℚ) (hw : 0 ≤ w) (h : matched ≤ total) :
    0 ≤ ((matched : ℚ) / (total : ℚ)) * w ∧ ((matched : ℚ) / (total : ℚ)) * w ≤ w := by
  have h0 : (0 : ℚ) ≤ (matched : ℚ) / (total : ℚ) := by positivity
  have h1 : (matched : ℚ) / (total : ℚ) ≤ 1 := by
    apply div_le_one_of_le₀
    · exact_mod_cast h
    · positivity
  constructor
  · positivity
  · calc ((matched : ℚ) / (total : ℚ)) * w ≤ 1 * w := by gcongr
      _ = w := one_mul w

theorem specRequiredScore_bounds (applicant : List Skill) (required : List String) :
    0 ≤ specRequiredScore applicant required ∧ specRequiredScore applicant required ≤ 30 := by
  unfold specRequiredScore
  split
  · norm_num
  · exact ratio_bounds _ _ 30 (by norm_num) (List.countP_le_length _)

theorem specPreferredScore_bounds (applicant : List Skill) (preferred : Option (List String)) :
    0 ≤ specPreferredScore applicant preferred ∧ specPreferredScore applicant preferred ≤ 10 := by
  unfold specPreferredScore
  cases preferred with
  | none => norm_num
  | some ps =>
    simp only
    split
    · norm_num
    · exact ratio_bounds _ _ 10 (by norm_num) (List.countP_le_length _)

theorem isDecimalDigit_iff (c : Char) : isDecimalDigit c = true ↔ 48 ≤ c.toNat ∧ c.toNat ≤ 57 := by
  simp [isDecimalDigit]

theorem radixDigit_ten (c : Char) (h : isDecimalDigit c = true) :
    radixDigit 10 c = some (c.toNat - 48) := by
  rw [isDecimalDigit_iff] at h
  have h2 : c.toNat - 48 < 10 := by omega
  simp [radixDigit, h.1, h.2, Option.filter, h2]

theorem leadingDigits_ten (cs : List Char) (h : cs.all isDecimalDigit = true) :
    leadingDigits 10 cs = cs.map (fun c => c.toNat - 48) := by
  induction cs with
  | nil => rfl
  | cons c cs ih =>
    simp only [List.all_cons, Bool.and_eq_true] at h
    simp [leadingDigits, radixDigit_ten c h.1, ih h.2]

theorem digitsValue_map (cs : List Char) :
    digitsValue 10 (cs.map (fun c => c.toNat - 48)) = decimalValue cs := by
  unfold digitsValue decimalValue
  rw [List.foldl_map]
  congr 1
  funext n c
  omega

theorem not_white_of_digit (c : Char) (h : isDecimalDigit c = true) :
    isStrWhiteSpaceChar c = false := by
  rw [isDecimalDigit_iff] at h
  simp only [isStrWhiteSpaceChar, Bool.or_eq_false_iff, beq_eq_false_iff_ne, ne_eq,
    Bool.and_eq_false_iff, decide_eq_false_iff_not]
  omega

theorem ne_of_toNat_ne (c d : Char) (h : c.toNat ≠ d.toNat) : (c == d) = false := by
  rw [beq_eq_false_iff_ne]
  rintro rfl
  exact h rfl

theorem stripSign_digit (c : Char) (cs : List Char) (hc : isDecimalDigit c = true) :
    stripSign (c :: cs) = (1, c :: cs) := by
  have hc2 := (isDecimalDigit_iff c).1 hc
  have hminus : (c == '-') = false := ne_of_toNat_ne _ _ (by
    have : ('-' : Char).toNat = 45 := by decide
    omega)
  have hplus : (c == '+') = false := ne_of_toNat_ne _ _ (by
    have : ('+' : Char).toNat = 43 := by decide
    omega)
  simp [stripSign, hminus, hplus]

theorem stripRadix_digits (cs : List Char) (h : cs.all isDecimalDigit = true) :
    stripRadix cs = (10, cs) := by
  match cs, h with
  | [], _ => rfl
  | [_], _ => rfl
  | c :: d :: rest, h =>
    simp only [List.all_cons, Bool.and_eq_true] at h
    have hd := (isDecimalDigit_iff d).1 h.2.1
    have hx : (d == 'x') = false := ne_of_toNat_ne _ _ (by
      have : ('x' : Char).toNat = 120 := by decide
      omega)
    have hX : (d == 'X') = false := ne_of_toNat_ne _ _ (by
      have : ('X' : Char).toNat = 88 := by decide
      omega)
    simp [stripRadix, hx, hX]

/-- On a non-empty string of decimal digits `parseInt` returns the number it denotes. -/
theorem parseInt_decimal (s : String) (hne : s.data.isEmpty = false)
    (hall : s.data.all isDecimalDigit = true) :
    parseInt s = JsNum.num ((decimalValue s.data : ℤ) : ℚ) := by
  obtain ⟨cs⟩ := s
  cases cs with
  | nil => simp at hne
  | cons c cs =>
    have hall2 := hall
    simp only [List.all_cons, Bool.and_eq_true] at hall
    obtain ⟨hc, hcs⟩ := hall
    have hw := not_white_of_digit c hc
    unfold parseInt
    simp only [List.dropWhile_cons, hw, Bool.false_eq_true, if_false, stripSign_digit c cs hc,
      stripRadix_digits (c :: cs) hall2, leadingDigits_ten (c :: cs) hall2, digitsValue_map]
    simp

/-- The year the code reads from a date that begins with a numeric year. -/
theorem yearOf_decimal (date : String) (h : decimalYear date = true) :
    yearOf date = JsNum.num (specYear date : ℚ) := by
  unfold decimalYear at h
  simp only [Bool.and_eq_true, Bool.not_eq_true'] at h
  exact parseInt_decimal (splitHead date) h.1 h.2

theorem addEntryYears_wellFormed (currentYear : ℤ) (a : ℚ) (w : WorkExperience)
    (h : wellFormedDates w = true) :
    addEntryYears currentYear (JsNum.num a) w
      = JsNum.num (a + (specEntryYears currentYear w : ℚ)) := by
  obtain ⟨startDate, endDate, isCurrent⟩ := w
  simp only [wellFormedDates, Bool.and_eq_true] at h
  obtain ⟨hs, he⟩ := h
  cases startDate with
  | none => simp [addEntryYears, specEntryYears]
  | some start =>
    by_cases h0 : start = ""
    · simp [addEntryYears, specEntryYears, h0]
    · have hstart : yearOf start = JsNum.num (specYear start : ℚ) := by
        apply yearOf_decimal
        simpa [dateFieldOk, h0] using hs
      cases isCurrent with
      | true =>
        simp [addEntryYears, specEntryYears, h0, hstart, JsNum.add, JsNum.sub]
      | false =>
        cases endDate with
        | none => simp [addEntryYears, specEntryYears, h0, hstart, JsNum.add, JsNum.sub]
        | some stop =>
          by_cases h1 : stop = ""
          · simp [addEntryYears, specEntryYears, h0, h1, hstart, JsNum.add, JsNum.sub]
          · have hstop : yearOf stop = JsNum.num (specYear stop : ℚ) := by
              apply yearOf_decimal
              simpa [dateFieldOk, h1] using he
            simp [addEntryYears, specEntryYears, h0, h1, hstart, hstop, JsNum.add, JsNum.sub]

theorem foldl_addEntryYears_wellFormed (currentYear : ℤ) (ws : List WorkExperience)
    (h : ∀ w ∈ ws, wellFormedDates w = true) (a : ℚ) :
    ws.foldl (addEntryYears currentYear) (JsNum.num a)
      = JsNum.num (a + (specTotalYears currentYear ws : ℚ)) := by
  induction ws generalizing a with
  | nil => simp [specTotalYears]
  | cons w ws ih =>
    rw [List.foldl_cons, addEntryYears_wellFormed currentYear a w (h w (List.mem_cons_self _ _)),
      ih (fun x hx => h x (List.mem_cons_of_mem _ hx))]
    simp [specTotalYears, add_assoc]

/-- The loop over a work history with well-formed dates returns the sum of the contributions. -/
theorem totalYears_wellFormed (currentYear : ℤ) (ws : List WorkExperience)
    (h : ∀ w ∈ ws, wellFormedDates w = true) :
    totalYears currentYear ws = JsNum.num (specTotalYears currentYear ws : ℚ) := by
  unfold totalYears
  rw [foldl_addEntryYears_wellFormed currentYear ws h 0]
  simp

theorem skillsComponent_maxScore (p : Profile) (j : JobRequirements) :
    (skillsComponent p j).maxScore = 40 := by
  unfold skillsComponent
  split <;> rfl

theorem experienceComponent_maxScore (currentYear : ℤ) (p : Profile) (j : JobRequirements) :
    (experienceComponent currentYear p j).maxScore = 25 := by
  unfold experienceComponent
  split
  · simp only
    split_ifs <;> rfl
  · rfl

theorem educationComponent_maxScore (p : Profile) (j : JobRequirements) :
    (educationComponent p j).maxScore = 20 := by
  unfold educationComponent
  split <;> rfl

theorem locationComponent_maxScore (p : Profile) (j : JobRequirements) :
    (locationComponent p j).maxScore = 10 := by
  unfold locationComponent locationMatched
  split
  · simp only
    split_ifs <;> rfl
  · rfl

theorem jobTypeComponent_maxScore (p : Profile) (j : JobRequirements) :
    (jobTypeComponent p j).maxScore = 5 := by
  unfold jobTypeComponent jobTypeMatched
  split
  · simp only
    split_ifs <;> rfl
  · rfl

theorem totals_maxScore (currentYear : ℤ) (p : Profile) (j : JobRequirements) :
    (totals (scoreComponents currentYear p j)).2 = 100 := by
  show 0 + (skillsComponent p j).maxScore + (experienceComponent currentYear p j).maxScore
    + (educationComponent p j).maxScore + (locationComponent p j).maxScore
    + (jobTypeComponent p j).maxScore = 100
  rw [skillsComponent_maxScore, experienceComponent_maxScore, educationComponent_maxScore,
    locationComponent_maxScore, jobTypeComponent_maxScore]
  norm_num

theorem totals_score (c : ScoreComponents) :
    (totals c).1 = (((((JsNum.num 0).add c.skills.score).add c.experience.score).add
      c.education.score).add c.location.score).add c.jobType.score := rfl

theorem skillsComponent_within (p : Profile) (j : JobRequirements) :
    JsNum.within 0 40 (skillsComponent p j).score := by
  cases hs : p.skills with
  | none =>
    rw [skillsComponent_skipped p j (Or.inl hs)]
    exact ⟨0, rfl, le_refl _, by norm_num⟩
  | some skills =>
    cases hr : j.requiredSkills with
    | none =>
      rw [skillsComponent_skipped p j (Or.inr hr)]
      exact ⟨0, rfl, le_refl _, by norm_num⟩
    | some required =>
      rw [skillsComponent_run p j skills required hs hr]
      have h1 := specRequiredScore_bounds skills required
      have h2 := specPreferredScore_bounds skills j.preferredSkills
      exact ⟨_, rfl, by linarith, by linarith⟩

theorem educationComponent_within (p : Profile) (j : JobRequirements) :
    JsNum.within 0 20 (educationComponent p j).score := by
  unfold educationComponent
  split
  · simp only
    refine ⟨_, rfl, ?_, ?_⟩ <;> split_ifs <;> norm_num
  · exact ⟨0, rfl, le_refl _, by norm_num⟩

theorem locationComponent_within (p : Profile) (j : JobRequirements) :
    JsNum.within 0 10 (locationComponent p j).score := by
  unfold locationComponent locationMatched
  split
  · simp only
    split_ifs <;> exact ⟨_, rfl, by norm_num, by norm_num⟩
  · exact ⟨0, rfl, le_refl _, by norm_num⟩

theorem jobTypeComponent_within (p : Profile) (j : JobRequirements) :
    JsNum.within 0 5 (jobTypeComponent p j).score := by
  unfold jobTypeComponent jobTypeMatched
  split
  · simp only
    split_ifs <;> exact ⟨_, rfl, by norm_num, by norm_num⟩
  · exact ⟨0, rfl, le_refl _, by norm_num⟩

/-- The experience score, by the branch taken: skipped, full, or the ratio branch. -/
theorem experienceComponent_score_cases (currentYear : ℤ) (p : Profile) (j : JobRequirements) :
    (experienceComponent currentYear p j).score = JsNum.num 0
    ∨ (experienceComponent currentYear p j).score = JsNum.num 25
    ∨ ∃ ws e, p.workExperience = some ws ∧ j.experience = some e ∧ 0 < e.minYears.getD 0
        ∧ (totalYears currentYear ws).ge (JsNum.num (e.minYears.getD 0)) = false
        ∧ (experienceComponent currentYear p j).score
          = (JsNum.min ((totalYears currentYear ws).div (JsNum.num (e.minYears.getD 0)))
              (JsNum.num 1)).mul (JsNum.num 25) := by
  unfold experienceComponent
  cases hw : p.workExperience with
  | none => left; rfl
  | some ws =>
    cases he : j.experience with
    | none => left; rfl
    | some e =>
      simp only
      by_cases h1 : (totalYears currentYear ws).ge (JsNum.num (e.minYears.getD 0)) = true
      · right; left; simp [h1]
      · by_cases h2 : e.minYears.getD 0 > 0
        · right; right
          refine ⟨ws, e, rfl, rfl, h2, by simpa using h1, ?_⟩
          simp [h1, h2]
        · right; left; simp [h1, h2]

theorem partialRatio_within (t r : ℚ) (ht : 0 ≤ t) (hr : 0 < r)
    (hlt : (JsNum.num t).ge (JsNum.num r) = false) :
    JsNum.within 0 25 ((JsNum.min ((JsNum.num t).div (JsNum.num r)) (JsNum.num 1)).mul
      (JsNum.num 25)) := by
  simp only [JsNum.ge, decide_eq_false_iff_not, not_le] at hlt
  have h0 : 0 ≤ t / r := div_nonneg ht hr.le
  have h1 : t / r ≤ 1 := (div_le_one hr).2 hlt.le
  refine ⟨t / r * 25, ?_, by positivity, by linarith⟩
  simp [JsNum.min, JsNum.div, JsNum.mul, h1]

theorem experienceComponent_within (currentYear : ℤ) (p : Profile) (j : JobRequirements)
    (h : ∀ ws e, p.workExperience = some ws → j.experience = some e → 0 < e.minYears.getD 0 →
      ∃ t, totalYears currentYear ws = JsNum.num t ∧ 0 ≤ t) :
    JsNum.within 0 25 (experienceComponent currentYear p j).score := by
  rcases experienceComponent_score_cases currentYear p j with h0 | h0 | ⟨ws, e, hw, he, hr, hlt, h0⟩
  · rw [h0]; exact ⟨0, rfl, le_refl _, by norm_num⟩
  · rw [h0]; exact ⟨25, rfl, by norm_num, le_refl _⟩
  · obtain ⟨t, ht, ht0⟩ := h ws e hw he hr
    rw [h0, ht]
    rw [ht] at hlt
    exact partialRatio_within t _ ht0 hr hlt

theorem experienceComponent_num_of_wellFormed (currentYear : ℤ) (p : Profile)
    (j : JobRequirements) (h : wellFormedProfile p = true) :
    ∃ b, (experienceComponent currentYear p j).score = JsNum.num b := by
  rcases experienceComponent_score_cases currentYear p j with h0 | h0 | ⟨ws, e, hw, -, -, -, h0⟩
  · exact ⟨0, h0⟩
  · exact ⟨25, h0⟩
  · have hwf : ∀ w ∈ ws, wellFormedDates w = true := by
      simpa [wellFormedProfile, hw] using h
    rw [h0, totalYears_wellFormed currentYear ws hwf]
    exact ⟨_, rfl⟩

/-- The rounded percentage when the five component scores are numbers. -/
theorem matchPercentage_of_nums (currentYear : ℤ) (p : Profile) (j : JobRequirements)
    (a b c d e : ℚ)
    (ha : (skillsComponent p j).score = JsNum.num a)
    (hb : (experienceComponent currentYear p j).score = JsNum.num b)
    (hc : (educationComponent p j).score = JsNum.num c)
    (hd : (locationComponent p j).score = JsNum.num d)
    (he : (jobTypeComponent p j).score = JsNum.num e) :
    matchPercentage (scoreComponents currentYear p j)
      = JsNum.num ((⌊percentageOf (a + b + c + d + e) + 1 / 2⌋ : ℤ) : ℚ) := by
  unfold matchPercentage
  rw [totals_maxScore, totals_score]
  simp only [scoreComponents, ha, hb, hc, hd, he, JsNum.add, JsNum.divDouble, JsNum.mulDouble,
    JsNum.round, percentageOf, zero_add]

theorem floor_within (q : ℚ) (h0 : 0 ≤ q) (h1 : q ≤ 100) :
    JsNum.within 0 100 (JsNum.num ((⌊q + 1 / 2⌋ : ℤ) : ℚ)) := by
  refine ⟨_, rfl, ?_, ?_⟩
  · have : (0 : ℤ) ≤ ⌊q + 1 / 2⌋ := Int.floor_nonneg.2 (by linarith)
    exact_mod_cast this
  · have : ⌊q + 1 / 2⌋ ≤ (100 : ℤ) := by
      have h2 : ⌊q + 1 / 2⌋ < (100 : ℤ) + 1 := Int.floor_lt.2 (by push_cast; linarith)
      omega
    exact_mod_cast this

theorem addEntryYears_year_irrelevant (y1 y2 : ℤ) (total : JsNum) (w : WorkExperience)
    (h : w.isCurrent = true → truthy w.startDate = false) :
    addEntryYears y1 total w = addEntryYears y2 total w := by
  obtain ⟨startDate, endDate, isCurrent⟩ := w
  cases isCurrent with
  | false => simp [addEntryYears]
  | true =>
    have h2 := h rfl
    cases startDate with
    | none => rfl
    | some start =>
      have h3 : start = "" := by simpa [truthy] using h2
      simp [addEntryYears, h3]

theorem totalYears_year_irrelevant (y1 y2 : ℤ) (ws : List WorkExperience)
    (h : ∀ w ∈ ws, w.isCurrent = true → truthy w.startDate = false) :
    totalYears y1 ws = totalYears y2 ws := by
  unfold totalYears
  exact List.foldl_ext _ _ _ (fun a w hw => addEntryYears_year_irrelevant y1 y2 a w (h w hw))

theorem experienceComponent_year_irrelevant (y1 y2 : ℤ) (p : Profile) (j : JobRequirements)
    (h : ∀ ws, p.workExperience = some ws →
      ∀ w ∈ ws, w.isCurrent = true → truthy w.startDate = false) :
    experienceComponent y1 p j = experienceComponent y2 p j := by
  unfold experienceComponent
  cases hw : p.workExperience with
  | none => rfl
  | some ws =>
    cases he : j.experience with
    | none => rfl
    | some e =>
      simp only
      rw [totalYears_year_irrelevant y1 y2 ws (h ws hw)]

theorem totalYears_reversed : totalYears 2024 reversedDatesHistory = JsNum.num (-1) := by
  rw [totalYears_wellFormed _ _ (by decide)]
  have h : specTotalYears 2024 reversedDatesHistory = -1 := by decide
  rw [h]; norm_num

theorem experience_reversed :
    (experienceComponent 2024 reversedDatesProfile fourYearsJob).score
      = JsNum.num (-25 / 4) := by
  simp only [experienceComponent, reversedDatesProfile, fourYearsJob, emptyProfile, emptyJob,
    totalYears_reversed, Option.getD_some, JsNum.ge, JsNum.div, JsNum.min, JsNum.mul]
  norm_num

theorem totalYears_scenario : totalYears 2024 scenarioHistory = JsNum.num 3 := by
  rw [totalYears_wellFormed _ _ (by decide)]
  have h : specTotalYears 2024 scenarioHistory = 3 := by decide
  rw [h]; norm_num

theorem totalYears_current (y : ℤ) :
    totalYears y currentJobHistory = JsNum.num ((y : ℚ) - 2020) := by
  rw [totalYears_wellFormed _ _ (by decide)]
  have h : specTotalYears y currentJobHistory = y - 2020 := by
    simp [specTotalYears, specEntryYears, currentJobHistory]
    decide
  rw [h]; norm_num

theorem experience_current_2024 :
    (experienceComponent 2024 currentJobProfile eightYearsJob).score
      = JsNum.num (25 / 2) := by
  simp only [experienceComponent, currentJobProfile, eightYearsJob, emptyProfile, emptyJob,
    totalYears_current, Option.getD_some, JsNum.ge, JsNum.div, JsNum.min, JsNum.mul]
  norm_num

theorem experience_current_2026 :
    (experienceComponent 2026 currentJobProfile eightYearsJob).score
      = JsNum.num (75 / 4) := by
  simp only [experienceComponent, currentJobProfile, eightYearsJob, emptyProfile, emptyJob,
    totalYears_current, Option.getD_some, JsNum.ge, JsNum.div, JsNum.min, JsNum.mul]
  norm_num

theorem JsNum.nan_add (x : JsNum) : JsNum.nan.add x = JsNum.nan := by
  cases x <;> rfl

theorem JsNum.add_nan (x : JsNum) : x.add JsNum.nan = JsNum.nan := by
  cases x <;> rfl

theorem JsNum.sub_nan (x : JsNum) : x.sub JsNum.nan = JsNum.nan := by
  cases x <;> rfl

theorem JsNum.nan_sub (x : JsNum) : JsNum.nan.sub x = JsNum.nan := by
  cases x <;> rfl

theorem JsNum.add_zero_num (x : JsNum) : x.add (JsNum.num 0) = x := by
  cases x with
  | nan => rfl
  | num a => simp [JsNum.add]

/-- The experience entry when the factor runs, branch by branch. -/
theorem experienceComponent_run (currentYear : ℤ) (p : Profile) (j : JobRequirements)
    (ws : List WorkExperience) (e : JobExperience)
    (hw : p.workExperience = some ws) (he : j.experience = some e) :
    experienceComponent currentYear p j =
      if (totalYears currentYear ws).ge (JsNum.num (e.minYears.getD 0)) = true then
        { score := JsNum.num 25, maxScore := 25,
          details := [{ required := e.minYears.getD 0, actual := totalYears currentYear ws,
                        matched := true }] }
      else if e.minYears.getD 0 > 0 then
        { score := (JsNum.min ((totalYears currentYear ws).div (JsNum.num (e.minYears.getD 0)))
            (JsNum.num 1)).mul (JsNum.num 25),
          maxScore := 25,
          details := [{ required := e.minYears.getD 0, actual := totalYears currentYear ws,
                        matched := false }] }
      else
        { score := JsNum.num 25, maxScore := 25,
          details := [{ required := 0, actual := totalYears currentYear ws,
                        matched := true }] } := by
  unfold experienceComponent
  rw [hw, he]

theorem addEntryYears_nan (currentYear : ℤ) (w : WorkExperience) :
    addEntryYears currentYear JsNum.nan w = JsNum.nan := by
  unfold addEntryYears
  cases w.startDate with
  | none => rfl
  | some start =>
    simp only
    split
    · exact JsNum.nan_add _
    · rfl

theorem foldl_addEntryYears_nan (currentYear : ℤ) (ws : List WorkExperience) :
    ws.foldl (addEntryYears currentYear) JsNum.nan = JsNum.nan := by
  induction ws with
  | nil => rfl
  | cons w ws ih => rw [List.foldl_cons, addEntryYears_nan, ih]

theorem addEntryYears_unparsable (currentYear : ℤ) (total : JsNum) (w : WorkExperience)
    (h : entryUnparsable w = true) :
    addEntryYears currentYear total w = JsNum.nan := by
  obtain ⟨startDate, endDate, isCurrent⟩ := w
  cases startDate with
  | none => simp [entryUnparsable] at h
  | some start =>
    simp only [entryUnparsable, Bool.and_eq_true, Bool.or_eq_true, bne_iff_ne, ne_eq,
      beq_iff_eq, Bool.not_eq_true'] at h
    obtain ⟨h0, h1⟩ := h
    rcases h1 with h1 | ⟨hc, h1⟩
    · simp [addEntryYears, h0, h1, JsNum.sub_nan, JsNum.add_nan]
    · subst hc
      cases endDate with
      | none => simp at h1
      | some stop =>
        simp only [Bool.and_eq_true, bne_iff_ne, ne_eq, beq_iff_eq] at h1
        simp [addEntryYears, h0, h1.1, h1.2, JsNum.nan_sub, JsNum.add_nan]

theorem addEntryYears_parsable (currentYear : ℤ) (a : ℚ) (w : WorkExperience)
    (h : entryUnparsable w = false) :
    ∃ b, addEntryYears currentYear (JsNum.num a) w = JsNum.num b := by
  cases hres : addEntryYears currentYear (JsNum.num a) w with
  | num b => exact ⟨b, rfl⟩
  | nan =>
    exfalso
    obtain ⟨startDate, endDate, isCurrent⟩ := w
    cases startDate with
    | none => simp [addEntryYears] at hres
    | some start =>
      by_cases h0 : start = ""
      · simp [addEntryYears, h0] at hres
      · cases hy : yearOf start with
        | nan => simp [entryUnparsable, h0, hy] at h
        | num s =>
          cases isCurrent with
          | true => simp [addEntryYears, h0, hy, JsNum.sub, JsNum.add] at hres
          | false =>
            cases endDate with
            | none => simp [addEntryYears, h0, hy, JsNum.sub, JsNum.add] at hres
            | some stop =>
              by_cases h2 : stop = ""
              · simp [addEntryYears, h0, h2, hy, JsNum.sub, JsNum.add] at hres
              · cases hz : yearOf stop with
                | nan => simp [entryUnparsable, h0, h2, hy, hz] at h
                | num t => simp [addEntryYears, h0, h2, hy, hz, JsNum.sub, JsNum.add] at hres

/-- The total is `NaN` exactly when the loop reads an unparsable year from some entry. -/
theorem totalYears_nan_iff (currentYear : ℤ) (ws : List WorkExperience) :
    totalYears currentYear ws = JsNum.nan ↔ ∃ w ∈ ws, entryUnparsable w = true := by
  unfold totalYears
  generalize (0 : ℚ) = a
  induction ws generalizing a with
  | nil => simp
  | cons w ws ih =>
    rw [List.foldl_cons]
    by_cases h : entryUnparsable w = true
    · rw [addEntryYears_unparsable currentYear _ w h, foldl_addEntryYears_nan]
      simp [h]
    · have h2 : entryUnparsable w = false := by simpa using h
      obtain ⟨b, hb⟩ := addEntryYears_parsable currentYear a w h2
      rw [hb, ih b]
      simp [h2]

/-- Entries without a non-empty start date leave the total unchanged. -/
theorem totalYears_filter_start (currentYear : ℤ) (ws : List WorkExperience) :
    totalYears currentYear ws
      = totalYears currentYear (ws.filter (fun w => truthy w.startDate)) := by
  unfold totalYears
  generalize JsNum.num 0 = acc
  induction ws generalizing acc with
  | nil => rfl
  | cons w ws ih =>
    by_cases h : truthy w.startDate = true
    · simp only [List.filter_cons, h, if_true, List.foldl_cons]
      exact ih _
    · simp only [List.filter_cons, h, if_false, List.foldl_cons, Bool.false_eq_true]
      rw [← ih]
      congr 1
      unfold addEntryYears
      cases hs : w.startDate with
      | none => rfl
      | some start =>
        have : start = "" := by simpa [truthy, hs] using h
        simp [this]

theorem fuzzyMatch_lower_iff (a b : String) :
    fuzzyMatch (toLowerCase a) (toLowerCase b) = true ↔ SpecFuzzyMatch a b := by
  rw [fuzzyMatch_iff]; rfl

theorem toLowerCase_eq_empty (s : String) : toLowerCase s = "" ↔ s = "" := by
  obtain ⟨cs⟩ := s
  cases cs with
  | nil => simp [toLowerCase]
  | cons c cs =>
    constructor
    · intro h
      have h2 := congrArg String.data h
      simp [toLowerCase] at h2
    · intro h
      have h2 := congrArg String.data h
      simp at h2

theorem truthy_map_toLowerCase (o : Option String) :
    truthy (o.map toLowerCase) = truthy o := by
  cases o with
  | none => rfl
  | some s =>
    simp only [Option.map_some', truthy]
    by_cases h : s = ""
    · subst h; rfl
    · have h2 : toLowerCase s ≠ "" := fun h3 => h ((toLowerCase_eq_empty s).1 h3)
      rw [bne_iff_ne.2 h, bne_iff_ne.2 h2]

theorem educationHit_iff (required own : Option String) :
    educationHit (required.map toLowerCase) (own.map toLowerCase) = true
      ↔ ∃ r o, required = some r ∧ r ≠ "" ∧ own = some o ∧ o ≠ "" ∧ SpecFuzzyMatch o r := by
  cases required with
  | none => simp [educationHit]
  | some r =>
    cases own with
    | none => simp [educationHit]
    | some o =>
      simp only [Option.map_some', educationHit, Bool.and_eq_true, bne_iff_ne, ne_eq,
        fuzzyMatch_lower_iff, toLowerCase_eq_empty, Option.some.injEq]
      constructor
      · rintro ⟨⟨h1, h2⟩, h3⟩
        exact ⟨r, o, rfl, h1, rfl, h2, h3⟩
      · rintro ⟨r2, o2, rfl, h1, rfl, h2, h3⟩
        exact ⟨⟨h1, h2⟩, h3⟩

theorem educationScan_foldl (requiredDegree requiredField : Option String)
    (education : List Education) (m : Bool × Bool) :
    education.foldl (fun m edu =>
      (if educationHit requiredDegree (edu.degree.map toLowerCase) then true else m.1,
       if educationHit requiredField (edu.fieldOfStudy.map toLowerCase) then true else m.2)) m
      = (m.1 || education.any
            (fun edu => educationHit requiredDegree (edu.degree.map toLowerCase)),
         m.2 || education.any
            (fun edu => educationHit requiredField (edu.fieldOfStudy.map toLowerCase))) := by
  induction education generalizing m with
  | nil => simp
  | cons edu rest ih =>
    rw [List.foldl_cons, ih]
    cases h1 : educationHit requiredDegree (edu.degree.map toLowerCase) <;>
      cases h2 : educationHit requiredField (edu.fieldOfStudy.map toLowerCase) <;>
      simp [h1, h2]

/-- The scan of the education entries is an OR over the entries, flag by flag. -/
theorem educationScan_eq (requiredDegree requiredField : Option String)
    (education : List Education) :
    educationScan requiredDegree requiredField education
      = (education.any (fun edu => educationHit requiredDegree (edu.degree.map toLowerCase)),
         education.any
           (fun edu => educationHit requiredField (edu.fieldOfStudy.map toLowerCase))) := by
  unfold educationScan
  rw [educationScan_foldl]
  simp

theorem any_educationHit_iff (required : Option String) (own : List (Option String)) :
    own.any (fun x => educationHit (required.map toLowerCase) (x.map toLowerCase)) = true
      ↔ SpecEducationMatches required own := by
  simp only [List.any_eq_true, educationHit_iff, SpecEducationMatches]
  constructor
  · rintro ⟨x, hx, r, o, h1, h2, rfl, h4, h5⟩
    exact ⟨r, o, h1, h2, hx, h4, h5⟩
  · rintro ⟨r, o, h1, h2, hx, h4, h5⟩
    exact ⟨some o, hx, r, o, h1, h2, rfl, h4, h5⟩

/-- The education entry when the factor runs, in the terms of the specification. -/
theorem educationComponent_run (p : Profile) (j : JobRequirements) (es : List Education)
    (req : Education) (hp : p.education = some es) (hj : j.education = some req) :
    ∃ dm fm : Bool,
      (dm = true ↔ SpecEducationMatches req.degree (es.map (fun edu => edu.degree)))
      ∧ (fm = true ↔ SpecEducationMatches req.fieldOfStudy
          (es.map (fun edu => edu.fieldOfStudy)))
      ∧ educationComponent p j =
        { score := JsNum.num (specEducationScore (truthy req.degree) (truthy req.fieldOfStudy)
            dm fm),
          maxScore := 20,
          details := [{ requiredDegree := orNone (req.degree.map toLowerCase),
                        requiredField := orNone (req.fieldOfStudy.map toLowerCase),
                        degreeMatch := dm, fieldMatch := fm }] } := by
  refine ⟨es.any (fun edu => educationHit (req.degree.map toLowerCase)
      (edu.degree.map toLowerCase)),
    es.any (fun edu => educationHit (req.fieldOfStudy.map toLowerCase)
      (edu.fieldOfStudy.map toLowerCase)), ?_, ?_, ?_⟩
  · rw [← any_educationHit_iff]; simp [List.any_map, Function.comp_def]
  · rw [← any_educationHit_iff]; simp [List.any_map, Function.comp_def]
  · unfold educationComponent
    rw [hp, hj]
    simp only [educationScan_eq, truthy_map_toLowerCase]
    congr 2
    cases truthy req.degree <;> cases truthy req.fieldOfStudy <;>
      (simp only [specEducationScore, Bool.and_self, Bool.and_true, Bool.and_false,
        Bool.false_eq_true, if_true, if_false]
       try (split_ifs <;> norm_num))

theorem any_locations_iff (prefs : Preferences) (location : String) :
    ((match prefs.locations with
      | some ls => ls.map toLowerCase
      | none => []).any (fun loc => fuzzyMatch loc (toLowerCase location))) = true
      ↔ SpecLocationMatches prefs location := by
  unfold SpecLocationMatches
  cases prefs.locations with
  | none => simp
  | some ls => simp [List.any_map, fuzzyMatch_lower_iff]

theorem any_jobTypes_iff (prefs : Preferences) (jobType : String) :
    ((match prefs.jobTypes with
      | some ts => ts.map toLowerCase
      | none => []).any (fun type => fuzzyMatch type (toLowerCase jobType))) = true
      ↔ SpecJobTypeMatches prefs jobType := by
  unfold SpecJobTypeMatches
  cases prefs.jobTypes with
  | none => simp
  | some ts => simp [List.any_map, fuzzyMatch_lower_iff]

/-- The location entry when the factor runs, as the first matching rule. -/
theorem locationComponent_run (p : Profile) (j : JobRequirements) (prefs : Preferences)
    (location : String) (hp : p.preferences = some prefs) (hl : j.location = some location)
    (hne : location ≠ "") :
    locationComponent p j =
      if j.remote = some true ∧ prefs.remoteWork = some true then
        { score := JsNum.num 10, maxScore := 10,
          details := [{ jobLocation := toLowerCase location, remote := true, matched := true,
                        reason := "Remote job match" }] }
      else if SpecLocationMatches prefs location then
        { score := JsNum.num 10, maxScore := 10,
          details := [{ jobLocation := toLowerCase location, remote := false, matched := true,
                        reason := "Location match" }] }
      else if prefs.willingToRelocate = some true then
        { score := JsNum.num 7, maxScore := 10,
          details := [{ jobLocation := toLowerCase location, remote := false, matched := false,
                        reason := "Willing to relocate" }] }
      else
        { score := JsNum.num 0, maxScore := 10,
          details := [{ jobLocation := toLowerCase location, remote := j.remote.getD false,
                        matched := false, reason := "No location match" }] } := by
  have hmatch := any_locations_iff prefs location
  have hlen : ((match prefs.locations with
      | some ls => ls.map toLowerCase
      | none => []).length > 0) ∨ ¬ SpecLocationMatches prefs location := by
    unfold SpecLocationMatches
    cases prefs.locations with
    | none => right; simp
    | some ls =>
      cases ls with
      | nil => right; simp
      | cons l ls => left; simp
  unfold locationComponent
  rw [hp, hl]
  simp only [bne_iff_ne, ne_eq, hne, not_false_eq_true, if_true, locationMatched]
  have hrem : (j.remote.getD false && prefs.remoteWork.getD false) = true
      ↔ (j.remote = some true ∧ prefs.remoteWork = some true) := by
    cases j.remote with
    | none => simp
    | some a =>
      cases prefs.remoteWork with
      | none => simp
      | some b => simp
  have hrel : prefs.willingToRelocate.getD false = true
      ↔ prefs.willingToRelocate = some true := by
    cases prefs.willingToRelocate <;> simp
  by_cases h1 : j.remote = some true ∧ prefs.remoteWork = some true
  · rw [if_pos (hrem.2 h1), if_pos h1]
  · rw [if_neg (fun h => h1 (hrem.1 h)), if_neg h1]
    by_cases h2 : SpecLocationMatches prefs location
    · have hlen2 : (match prefs.locations with
          | some ls => ls.map toLowerCase
          | none => []).length > 0 := by
        rcases hlen with h | h
        · exact h
        · exact absurd h2 h
      rw [if_pos h2]
      simp only [hlen2, if_true, hmatch.2 h2]
    · rw [if_neg h2]
      have hno : (if (match prefs.locations with
          | some ls => ls.map toLowerCase
          | none => []).length > 0 then
            (match prefs.locations with
              | some ls => ls.map toLowerCase
              | none => []).any (fun loc => fuzzyMatch loc (toLowerCase location))
          else false) = false := by
        split
        · exact Bool.eq_false_iff.2 (fun h => h2 (hmatch.1 h))
        · rfl
      simp only [hno, Bool.false_eq_true, if_false]
      by_cases h3 : prefs.willingToRelocate = some true
      · rw [if_pos (hrel.2 h3), if_pos h3]
        norm_num
      · rw [if_neg (fun h => h3 (hrel.1 h)), if_neg h3]

theorem locationComponent_skipped (p : Profile) (j : JobRequirements)
    (h : p.preferences = none ∨ j.location = none ∨ j.location = some "") :
    locationComponent p j = { score := JsNum.num 0, maxScore := 10, details := [] } := by
  unfold locationComponent
  rcases h with h | h | h
  · rw [h]
  · rw [h]; cases p.preferences <;> rfl
  · rw [h]; cases p.preferences <;> rfl

/-- The job-type entry when the factor runs. -/
theorem jobTypeComponent_run (p : Profile) (j : JobRequirements) (prefs : Preferences)
    (jobType : String) (hp : p.preferences = some prefs) (ht : j.jobType = some jobType)
    (hne : jobType ≠ "") :
    jobTypeComponent p j =
      if SpecJobTypeMatches prefs jobType then
        { score := JsNum.num 5, maxScore := 5,
          details := [{ jobType := toLowerCase jobType, matched := true, reason := none }] }
      else if prefs.jobTypes.getD [] = [] then
        { score := JsNum.num (5 / 2), maxScore := 5,
          details := [{ jobType := toLowerCase jobType, matched := false,
                        reason := some "No preferences specified" }] }
      else
        { score := JsNum.num 0, maxScore := 5,
          details := [{ jobType := toLowerCase jobType, matched := false,
                        reason := some "Job type mismatch" }] } := by
  have hmatch := any_jobTypes_iff prefs jobType
  have hlen : ((match prefs.jobTypes with
      | some ts => ts.map toLowerCase
      | none => []).length = 0) ↔ prefs.jobTypes.getD [] = [] := by
    cases prefs.jobTypes with
    | none => simp
    | some ts => cases ts <;> simp
  unfold jobTypeComponent
  rw [hp, ht]
  simp only [bne_iff_ne, ne_eq, hne, not_false_eq_true, if_true, jobTypeMatched]
  by_cases h1 : SpecJobTypeMatches prefs jobType
  · rw [if_pos (hmatch.2 h1), if_pos h1]
  · rw [if_neg (fun h => h1 (hmatch.1 h)), if_neg h1]
    by_cases h2 : prefs.jobTypes.getD [] = []
    · rw [if_pos (hlen.2 h2), if_pos h2]
      norm_num
    · rw [if_neg (fun h => h2 (hlen.1 h)), if_neg h2]

theorem jobTypeComponent_skipped (p : Profile) (j : JobRequirements)
    (h : p.preferences = none ∨ j.jobType = none ∨ j.jobType = some "") :
    jobTypeComponent p j = { score := JsNum.num 0, maxScore := 5, details := [] } := by
  unfold jobTypeComponent
  rcases h with h | h | h
  · rw [h]
  · rw [h]; cases p.preferences <;> rfl
  · rw [h]; cases p.preferences <;> rfl

theorem experienceComponent_skipped (currentYear : ℤ) (p : Profile) (j : JobRequirements)
    (h : p.workExperience = none ∨ j.experience = none) :
    experienceComponent currentYear p j
      = { score := JsNum.num 0, maxScore := 25, details := [] } := by
  unfold experienceComponent
  rcases h with h | h
  · rw [h]
  · rw [h]; cases p.workExperience <;> rfl

theorem educationComponent_skipped (p : Profile) (j : JobRequirements)
    (h : p.education = none ∨ j.education = none) :
    educationComponent p j = { score := JsNum.num 0, maxScore := 20, details := [] } := by
  unfold educationComponent
  rcases h with h | h
  · rw [h]
  · rw [h]; cases p.education <;> rfl

theorem totalYears_malformed : totalYears 2024 malformedHistory = JsNum.nan :=
  (totalYears_nan_iff 2024 malformedHistory).2
    ⟨{ startDate := some "June 2019", endDate := some "2021-03", isCurrent := false },
      List.mem_cons_self _ _, by decide⟩

theorem matchPercentage_experience_nan (currentYear : ℤ) (p : Profile) (j : JobRequirements)
    (h : (experienceComponent currentYear p j).score = JsNum.nan) :
    matchPercentage (scoreComponents currentYear p j) = JsNum.nan := by
  unfold matchPercentage
  rw [totals_score]
  simp only [scoreComponents, h, JsNum.add_nan, JsNum.nan_add, JsNum.divDouble,
    JsNum.mulDouble, JsNum.round]

theorem educationComponent_scenario :
    educationComponent scenarioEducationProfile scenarioEducationJob =
      { score := JsNum.num 6, maxScore := 20,
        details := [{ requiredDegree := "bachelor's", requiredField := "computer science",
                      degreeMatch := false, fieldMatch := true }] } := by
  have hscan : educationScan (some "bachelor's") (some "computer science")
      [{ degree := some "Bachelor of Science", fieldOfStudy := some "Computer Science" }]
      = (false, true) := by decide
  have hd : toLowerCase "Bachelor's" = "bachelor's" := by decide
  have hf : toLowerCase "Computer Science" = "computer science" := by decide
  simp only [educationComponent, scenarioEducationProfile, scenarioEducationJob, emptyProfile,
    emptyJob, Option.map_some', hd, hf, hscan]
  simp [truthy, orNone]
  norm_num

theorem educationComponent_blank :
    educationComponent blankEducationProfile bachelorComputingJob =
      { score := JsNum.num 0, maxScore := 20,
        details := [{ requiredDegree := "bachelor", requiredField := "computer science",
                      degreeMatch := false, fieldMatch := false }] } := by
  have hscan : educationScan (some "bachelor") (some "computer science")
      [{ degree := some "", fieldOfStudy := some "" }] = (false, false) := by decide
  have hd : toLowerCase "Bachelor" = "bachelor" := by decide
  have hf : toLowerCase "Computer Science" = "computer science" := by decide
  simp only [educationComponent, blankEducationProfile, bachelorComputingJob, emptyProfile,
    emptyJob, Option.map_some', hd, hf, hscan]
  simp [truthy, orNone]

/-- The skills entry depends on the inputs only through the lower-cased lists. -/
theorem skillsComponent_eq_onLowered (p : Profile) (j : JobRequirements) :
    skillsComponent p j =
      skillsOnLowered (p.skills.map (List.map (fun s => toLowerCase s.name)))
        (j.requiredSkills.map (List.map toLowerCase))
        (j.preferredSkills.map (List.map toLowerCase)) := by
  unfold skillsComponent skillsOnLowered
  cases p.skills with
  | none => rfl
  | some skills =>
    cases j.requiredSkills with
    | none => rfl
    | some required =>
      cases j.preferredSkills with
      | none => rfl
      | some ps => rfl

theorem specSkillMatches_append (skills more : List Skill) (jobSkill : String)
    (h : SpecSkillMatches skills jobSkill) : SpecSkillMatches (skills ++ more) jobSkill := by
  obtain ⟨a, ha, hm⟩ := h
  exact ⟨a, List.mem_append_left _ ha, hm⟩

theorem specSkillMatches_of_blank (skills : List Skill) (jobSkill : String)
    (h : ∃ a ∈ skills, a.name = "") : SpecSkillMatches skills jobSkill := by
  obtain ⟨a, ha, hn⟩ := h
  refine ⟨a, ha, Or.inr (Or.inr ?_)⟩
  rw [hn]
  exact List.nil_infix

theorem share_mono (k1 k2 n : Nat) (w : ℚ) (hw : 0 ≤ w) (h : k1 ≤ k2) :
    ((k1 : ℚ) / (n : ℚ)) * w ≤ ((k2 : ℚ) / (n : ℚ)) * w := by
  have h1 : (k1 : ℚ) ≤ (k2 : ℚ) := by exact_mod_cast h
  have h2 : (k1 : ℚ) / (n : ℚ) ≤ (k2 : ℚ) / (n : ℚ) :=
    div_le_div_of_nonneg_right h1 (by positivity)
  exact mul_le_mul_of_nonneg_right h2 hw

theorem specRequiredScore_mono (skills more : List Skill) (required : List String) :
    specRequiredScore skills required ≤ specRequiredScore (skills ++ more) required := by
  unfold specRequiredScore
  split
  · exact le_refl _
  · apply share_mono _ _ _ 30 (by norm_num)
    apply List.countP_mono_left
    intro x _ hx
    simp only [decide_eq_true_eq] at hx ⊢
    exact specSkillMatches_append skills more x hx

theorem specPreferredScore_mono (skills more : List Skill) (preferred : Option (List String)) :
    specPreferredScore skills preferred ≤ specPreferredScore (skills ++ more) preferred := by
  unfold specPreferredScore
  cases preferred with
  | none => exact le_refl _
  | some ps =>
    simp only
    split
    · exact le_refl _
    · apply share_mono _ _ _ 10 (by norm_num)
      apply List.countP_mono_left
      intro x _ hx
      simp only [decide_eq_true_eq] at hx ⊢
      exact specSkillMatches_append skills more x hx

theorem specSkillDetails_mono (skills more : List Skill) (ty : SkillType)
    (jobSkills : List String) :
    List.Forall₂ (fun d d2 : SkillDetail =>
        d2.skill = d.skill ∧ d2.type = d.type ∧ (d.matched = true → d2.matched = true))
      (specSkillDetails skills ty jobSkills)
      (specSkillDetails (skills ++ more) ty jobSkills) := by
  unfold specSkillDetails
  rw [List.forall₂_map_left_iff, List.forall₂_map_right_iff, List.forall₂_same]
  intro x _
  refine ⟨rfl, rfl, fun h => ?_⟩
  simp only [decide_eq_true_eq] at h ⊢
  exact specSkillMatches_append skills more x h

/-- The matching skills when the skills factor runs: the matched required skills, then the
matched preferred skills, each in lower case. -/
theorem matchingSkills_run (skills : List Skill) (required preferred : List String) :
    ((specSkillDetails skills SkillType.required required
        ++ specSkillDetails skills SkillType.preferred preferred).filter
          (fun d => d.matched)).map (fun d => d.skill)
      = (required.filter (fun s => decide (SpecSkillMatches skills s))).map toLowerCase
        ++ (preferred.filter (fun s => decide (SpecSkillMatches skills s))).map toLowerCase := by
  simp [specSkillDetails, List.filter_map, Function.comp_def]

theorem experienceComponent_congr (currentYear : ℤ) (p1 p2 : Profile) (j : JobRequirements)
    (h : p1.workExperience = p2.workExperience) :
    experienceComponent currentYear p1 j = experienceComponent currentYear p2 j := by
  unfold experienceComponent
  rw [h]

theorem educationComponent_congr (p1 p2 : Profile) (j : JobRequirements)
    (h : p1.education = p2.education) :
    educationComponent p1 j = educationComponent p2 j := by
  unfold educationComponent
  rw [h]

theorem locationComponent_congr (p1 p2 : Profile) (j : JobRequirements)
    (h : p1.preferences = p2.preferences) :
    locationComponent p1 j = locationComponent p2 j := by
  unfold locationComponent
  rw [h]

theorem jobTypeComponent_congr (p1 p2 : Profile) (j : JobRequirements)
    (h : p1.preferences = p2.preferences) :
    jobTypeComponent p1 j = jobTypeComponent p2 j := by
  unfold jobTypeComponent
  rw [h]

theorem jsAdd_zero_left (x : JsNum) : (JsNum.num 0).add x = x := by
  cases x with
  | nan => rfl
  | num a => simp [JsNum.add]

theorem jsAdd_assoc (x y z : JsNum) : (x.add y).add z = x.add (y.add z) := by
  cases x <;> cases y <;> cases z <;> simp [JsNum.add, add_assoc]

/-- The loop body adds the entry's years to the running total. -/
theorem addEntryYears_eq_add (currentYear : ℤ) (total : JsNum) (w : WorkExperience) :
    addEntryYears currentYear total w = total.add (entryYears currentYear w) := by
  unfold entryYears addEntryYears
  cases w.startDate with
  | none => exact (JsNum.add_zero_num total).symm
  | some start =>
    simp only
    split
    · rw [jsAdd_zero_left]
    · exact (JsNum.add_zero_num total).symm

theorem foldl_addEntryYears_eq_add (currentYear : ℤ) (ws : List WorkExperience)
    (total : JsNum) :
    ws.foldl (addEntryYears currentYear) total
      = total.add (ws.foldl (addEntryYears currentYear) (JsNum.num 0)) := by
  induction ws generalizing total with
  | nil => exact (JsNum.add_zero_num total).symm
  | cons w ws ih =>
    rw [List.foldl_cons, List.foldl_cons, ih, ih (addEntryYears currentYear (JsNum.num 0) w),
      addEntryYears_eq_add currentYear total w, jsAdd_assoc]
    rfl

/-- The total over a concatenation is the sum of the two totals. -/
theorem totalYears_append (currentYear : ℤ) (xs ys : List WorkExperience) :
    totalYears currentYear (xs ++ ys)
      = (totalYears currentYear xs).add (totalYears currentYear ys) := by
  unfold totalYears
  rw [List.foldl_append, foldl_addEntryYears_eq_add]

theorem totalYears_parsable (currentYear : ℤ) (ws : List WorkExperience)
    (h : ∀ w ∈ ws, entryUnparsable w = false) :
    ∃ a, totalYears currentYear ws = JsNum.num a := by
  cases ht : totalYears currentYear ws with
  | num a => exact ⟨a, rfl⟩
  | nan =>
    obtain ⟨w, hw, hbad⟩ := (totalYears_nan_iff currentYear ws).1 ht
    rw [h w hw] at hbad
    cases hbad

theorem totalYears_nonneg (currentYear : ℤ) (ws : List WorkExperience)
    (h : ∀ w ∈ ws, ∃ c, entryYears currentYear w = JsNum.num c ∧ 0 ≤ c) :
    ∃ t, totalYears currentYear ws = JsNum.num t ∧ 0 ≤ t := by
  induction ws with
  | nil => exact ⟨0, rfl, le_refl _⟩
  | cons w ws ih =>
    obtain ⟨c, hc, hc0⟩ := h w (List.mem_cons_self _ _)
    obtain ⟨t, ht, ht0⟩ := ih (fun x hx => h x (List.mem_cons_of_mem _ hx))
    have happ := totalYears_append currentYear [w] ws
    have hone : totalYears currentYear [w] = JsNum.num c := hc
    rw [List.singleton_append] at happ
    rw [happ, hone, ht]
    exact ⟨c + t, rfl, add_nonneg hc0 ht0⟩

theorem orNone_map_toLowerCase (o : Option String) :
    orNone (o.map toLowerCase) = specRequirementLabel o := by
  cases o with
  | none => rfl
  | some s =>
    simp only [Option.map_some', orNone, specRequirementLabel]
    by_cases h : s = ""
    · subst h; rfl
    · have h2 : toLowerCase s ≠ "" := fun h3 => h ((toLowerCase_eq_empty s).1 h3)
      rw [if_pos (bne_iff_ne.2 h2), if_neg h]

/-- The result is the same when the five components are. -/
theorem calculateMatchScore_congr (y1 y2 : ℤ) (p1 p2 : Profile) (j1 j2 : JobRequirements)
    (h1 : skillsComponent p1 j1 = skillsComponent p2 j2)
    (h2 : experienceComponent y1 p1 j1 = experienceComponent y2 p2 j2)
    (h3 : educationComponent p1 j1 = educationComponent p2 j2)
    (h4 : locationComponent p1 j1 = locationComponent p2 j2)
    (h5 : jobTypeComponent p1 j1 = jobTypeComponent p2 j2) :
    calculateMatchScore y1 p1 j1 = calculateMatchScore y2 p2 j2 := by
  unfold calculateMatchScore scoreComponents
  rw [h1, h2, h3, h4, h5]

theorem skillsComponent_run_ne_skipped (p : Profile) (j : JobRequirements)
    (skills : List Skill) (required : List String)
    (hs : p.skills = some skills) (hr : j.requiredSkills = some required) :
    skillsComponent p j ≠ { score := JsNum.num 0, maxScore := 40, details := [] } := by
  rw [skillsComponent_run p j skills required hs hr]
  intro h
  cases required with
  | nil =>
    have hscore := congrArg Component.score h
    simp only [specRequiredScore, List.length_nil, if_true] at hscore
    injection hscore with hscore
    have := (specPreferredScore_bounds skills j.preferredSkills).1
    linarith
  | cons r rs =>
    have hdet := congrArg (fun c => c.details.length) h
    simp [specSkillDetails] at hdet

theorem experienceComponent_run_ne_skipped (currentYear : ℤ) (p : Profile)
    (j : JobRequirements) (ws : List WorkExperience) (e : JobExperience)
    (hw : p.workExperience = some ws) (he : j.experience = some e) :
    experienceComponent currentYear p j
      ≠ { score := JsNum.num 0, maxScore := 25, details := [] } := by
  rw [experienceComponent_run currentYear p j ws e hw he]
  intro h
  have hdet := congrArg (fun c => c.details.length) h
  split_ifs at hdet <;> simp at hdet

theorem educationComponent_run_ne_skipped (p : Profile) (j : JobRequirements)
    (es : List Education) (req : Education)
    (hp : p.education = some es) (hj : j.education = some req) :
    educationComponent p j ≠ { score := JsNum.num 0, maxScore := 20, details := [] } := by
  obtain ⟨dm, fm, -, -, hrun⟩ := educationComponent_run p j es req hp hj
  rw [hrun]
  intro h
  have hdet := congrArg (fun c => c.details.length) h
  simp at hdet

theorem skillsComponent_noRequired :
    (skillsComponent emptySkillsProfile noRequiredSkillsJob).score = JsNum.num 30 := by
  rw [skillsComponent_run emptySkillsProfile noRequiredSkillsJob [] [] rfl rfl]
  have h : List.countP (fun s => decide (SpecSkillMatches [] s)) ["TypeScript"] = 0 := by
    decide
  simp only [specRequiredScore, specPreferredScore, noRequiredSkillsJob, emptyJob, h]
  norm_num

/-- The score when the five component scores are numbers whose sum, within `[0, 100]`, is
less than `1 / 2 - 2 ^ -45` away from an integer: that integer. -/
theorem matchPercentage_near_integer (currentYear : ℤ) (p : Profile) (j : JobRequirements)
    (a b c d e : ℚ)
    (ha : (skillsComponent p j).score = JsNum.num a)
    (hb : (experienceComponent currentYear p j).score = JsNum.num b)
    (hc : (educationComponent p j).score = JsNum.num c)
    (hd : (locationComponent p j).score = JsNum.num d)
    (he : (jobTypeComponent p j).score = JsNum.num e)
    (h0 : 0 ≤ a + b + c + d + e) (h1 : a + b + c + d + e ≤ 100) (n : ℤ)
    (hn : |a + b + c + d + e - n| < 1 / 2 - 1 / 2 ^ 45) :
    matchPercentage (scoreComponents currentYear p j) = JsNum.num (n : ℚ) := by
  rw [matchPercentage_of_nums currentYear p j a b c d e ha hb hc hd he]
  have hz := abs_le.1 (percentageOf_near _ h0 h1)
  have ht := abs_lt.1 hn
  have hf : ⌊percentageOf (a + b + c + d + e) + 1 / 2⌋ = n := by
    rw [Int.floor_eq_iff]
    constructor <;> linarith
  rw [hf]

theorem totalYears_yearBoundary : totalYears 2024 yearBoundaryHistory = JsNum.num 1 := by
  rw [totalYears_wellFormed _ _ (by decide)]
  have h : specTotalYears 2024 yearBoundaryHistory = 1 := by decide
  rw [h]; norm_num

/-- The component scores of `halfPointProfile` against `halfPointJob`: 0, 25, 20, 10 and
2.5. -/
theorem halfPoint_scores :
    (skillsComponent halfPointProfile halfPointJob).score = JsNum.num 0
      ∧ (experienceComponent 2024 halfPointProfile halfPointJob).score = JsNum.num 25
      ∧ (educationComponent halfPointProfile halfPointJob).score = JsNum.num 20
      ∧ (locationComponent halfPointProfile halfPointJob).score = JsNum.num 10
      ∧ (jobTypeComponent halfPointProfile halfPointJob).score = JsNum.num (5 / 2) := by
  refine ⟨rfl, ?_, ?_, ?_, ?_⟩
  · simp only [experienceComponent, halfPointProfile, halfPointJob, totalYears_scenario,
      Option.getD_some, JsNum.ge, JsNum.div, JsNum.min, JsNum.mul]
    norm_num
  · have hscan : educationScan (some "bachelor") (some "computer science")
        [{ degree := some "Bachelor of Science", fieldOfStudy := some "Computer Science" }]
        = (true, true) := by decide
    have hd : toLowerCase "Bachelor" = "bachelor" := by decide
    have hf : toLowerCase "Computer Science" = "computer science" := by decide
    simp only [educationComponent, halfPointProfile, halfPointJob, Option.map_some', hd, hf,
      hscan]
    simp [truthy]
  · rw [locationComponent_run halfPointProfile halfPointJob
      { locations := some ["Austin"], willingToRelocate := none, remoteWork := none,
        jobTypes := some [] } "Austin" rfl rfl (by decide)]
    rw [if_neg (by decide), if_pos (by decide)]
  · rw [jobTypeComponent_run halfPointProfile halfPointJob
      { locations := some ["Austin"], willingToRelocate := none, remoteWork := none,
        jobTypes := some [] } "Full-time" rfl rfl (by decide)]
    rw [if_neg (by decide), if_pos (by decide)]

/-- The component scores of `juniorRelocatingProfile` against `fiveYearsAustinJob`: 0, 5, 0, 7
and 2.5. -/
theorem juniorRelocating_scores :
    (skillsComponent juniorRelocatingProfile fiveYearsAustinJob).score = JsNum.num 0
      ∧ (experienceComponent 2024 juniorRelocatingProfile fiveYearsAustinJob).score
          = JsNum.num 5
      ∧ (educationComponent juniorRelocatingProfile fiveYearsAustinJob).score = JsNum.num 0
      ∧ (locationComponent juniorRelocatingProfile fiveYearsAustinJob).score = JsNum.num 7
      ∧ (jobTypeComponent juniorRelocatingProfile fiveYearsAustinJob).score
          = JsNum.num (5 / 2) := by
  refine ⟨rfl, ?_, rfl, ?_, ?_⟩
  · simp only [experienceComponent, juniorRelocatingProfile, fiveYearsAustinJob, emptyJob,
      totalYears_yearBoundary, Option.getD_some, JsNum.ge, JsNum.div, JsNum.min, JsNum.mul]
    norm_num
  · rw [locationComponent_run juniorRelocatingProfile fiveYearsAustinJob
      { locations := some ["Boston"], willingToRelocate := some true, remoteWork := none,
        jobTypes := some [] } "Austin" rfl rfl (by decide)]
    rw [if_neg (by decide), if_neg (by decide), if_pos rfl]
  · rw [jobTypeComponent_run juniorRelocatingProfile fiveYearsAustinJob
      { locations := some ["Boston"], willingToRelocate := some true, remoteWork := none,
        jobTypes := some [] } "Full-time" rfl rfl (by decide)]
    rw [if_neg (by decide), if_pos (by decide)]

/-! ## The claims -/

/-- C1, as amended: for every profile and job such that, whenever the experience factor runs
with `minYears > 0`, the total years of experience is a number that is not negative, the
result satisfies `0 <= score <= 100` and each of the five components has
`0 <= score <= maxScore`. -/
theorem score_bounds_of_nonneg_years (currentYear : ℤ) (p : Profile) (j : JobRequirements)
    (h : ∀ ws e, p.workExperience = some ws → j.experience = some e → 0 < e.minYears.getD 0 →
      ∃ t, totalYears currentYear ws = JsNum.num t ∧ 0 ≤ t) :
    (calculateMatchScore currentYear p j).inBounds := by
  obtain ⟨a, ha, ha0, ha1⟩ := skillsComponent_within p j
  obtain ⟨b, hb, hb0, hb1⟩ := experienceComponent_within currentYear p j h
  obtain ⟨c, hc, hc0, hc1⟩ := educationComponent_within p j
  obtain ⟨d, hd, hd0, hd1⟩ := locationComponent_within p j
  obtain ⟨e, he, he0, he1⟩ := jobTypeComponent_within p j
  refine ⟨?_, ?_, ?_, ?_, ?_, ?_⟩
  · show JsNum.within 0 100 (matchPercentage (scoreComponents currentYear p j))
    rw [matchPercentage_of_nums currentYear p j a b c d e ha hb hc hd he]
    have hp := percentageOf_within (a + b + c + d + e) (by linarith) (by linarith)
    exact floor_within _ hp.1 hp.2
  · show JsNum.within 0 (skillsComponent p j).maxScore (skillsComponent p j).score
    rw [skillsComponent_maxScore]; exact ⟨a, ha, ha0, ha1⟩
  · show JsNum.within 0 (experienceComponent currentYear p j).maxScore
      (experienceComponent currentYear p j).score
    rw [experienceComponent_maxScore]; exact ⟨b, hb, hb0, hb1⟩
  · show JsNum.within 0 (educationComponent p j).maxScore (educationComponent p j).score
    rw [educationComponent_maxScore]; exact ⟨c, hc, hc0, hc1⟩
  · show JsNum.within 0 (locationComponent p j).maxScore (locationComponent p j).score
    rw [locationComponent_maxScore]; exact ⟨d, hd, hd0, hd1⟩
  · show JsNum.within 0 (jobTypeComponent p j).maxScore (jobTypeComponent p j).score
    rw [jobTypeComponent_maxScore]; exact ⟨e, he, he0, he1⟩

/-- Witness of C1 as amended: the experience scenario (3 years against 5 required) is within
all the bounds. -/
theorem score_bounds_of_nonneg_years_witness :
    (calculateMatchScore 2024 scenarioExperienceProfile fiveYearsJob).inBounds :=
  score_bounds_of_nonneg_years 2024 scenarioExperienceProfile fiveYearsJob (by
    intro ws e hws _ _
    have hws2 : scenarioHistory = ws := Option.some.inj hws
    subst hws2
    exact ⟨3, totalYears_scenario, by norm_num⟩)

/-- Counterexample to C1 as stated: a work-experience entry from 2022-06 to 2021-03 against
`minYears = 4` gives total years -1, `experience.score = -6.25` and `score = -6`, outside the
claimed bounds. -/
theorem score_bounds_counterexample :
    (calculateMatchScore 2024 reversedDatesProfile fourYearsJob).components.experience.score
        = JsNum.num (-25 / 4)
      ∧ (calculateMatchScore 2024 reversedDatesProfile fourYearsJob).score = JsNum.num (-6)
      ∧ ¬ (calculateMatchScore 2024 reversedDatesProfile fourYearsJob).inBounds := by
  have hexp := experience_reversed
  refine ⟨hexp, ?_, ?_⟩
  · show matchPercentage (scoreComponents 2024 reversedDatesProfile fourYearsJob) = _
    rw [matchPercentage_of_nums 2024 reversedDatesProfile fourYearsJob 0 (-25 / 4) 0 0 0
      rfl hexp rfl rfl rfl]
    have ht : (0 : ℚ) + -25 / 4 + 0 + 0 + 0 = -(25 / 4) := by norm_num
    rw [ht, percentageOf_neg, percentageOf_twenty_five_quarters]
    have hf : ⌊-(25 / 4 : ℚ) + 1 / 2⌋ = -6 := by
      rw [Int.floor_eq_iff]; norm_num
    rw [hf]; norm_num
  · rintro ⟨-, -, ⟨q, hq, hq0, -⟩, -⟩
    have hq2 : (experienceComponent 2024 reversedDatesProfile fourYearsJob).score
        = JsNum.num q := hq
    rw [hexp] at hq2
    injection hq2 with hq2
    rw [← hq2] at hq0
    norm_num at hq0

/-- C2, as amended: the result is a function of the two arguments and of the calendar year
of the call; for every profile in which no work-experience entry has `isCurrent = true`
together with a non-empty `startDate`, it does not depend on the year either, so any two
calls with identical inputs return identical results. -/
theorem result_independent_of_year (y1 y2 : ℤ) (p : Profile) (j : JobRequirements)
    (h : ∀ ws, p.workExperience = some ws →
      ∀ w ∈ ws, w.isCurrent = true → truthy w.startDate = false) :
    calculateMatchScore y1 p j = calculateMatchScore y2 p j := by
  unfold calculateMatchScore scoreComponents
  rw [experienceComponent_year_irrelevant y1 y2 p j h]

/-- Witness of C2 as amended: the experience scenario, whose one entry is not current, scores
the same in 2024 and in 2025. -/
theorem result_independent_of_year_witness :
    calculateMatchScore 2024 scenarioExperienceProfile fiveYearsJob
      = calculateMatchScore 2025 scenarioExperienceProfile fiveYearsJob :=
  result_independent_of_year 2024 2025 scenarioExperienceProfile fiveYearsJob (by
    intro ws hws w hw hcur
    have hws2 : scenarioHistory = ws := Option.some.inj hws
    subst hws2
    simp only [scenarioHistory, List.mem_singleton] at hw
    subst hw
    cases hcur)

/-- Counterexample to C2 as stated: for a current job begun in 2020 and `minYears = 8`, the
same two arguments give score 13 when the call is made in 2024 and score 19 in 2026. -/
theorem determinism_counterexample :
    (calculateMatchScore 2024 currentJobProfile eightYearsJob).score = JsNum.num 13
      ∧ (calculateMatchScore 2026 currentJobProfile eightYearsJob).score = JsNum.num 19
      ∧ calculateMatchScore 2024 currentJobProfile eightYearsJob
          ≠ calculateMatchScore 2026 currentJobProfile eightYearsJob := by
  have h1 : (calculateMatchScore 2024 currentJobProfile eightYearsJob).score
      = JsNum.num 13 := by
    show matchPercentage (scoreComponents 2024 currentJobProfile eightYearsJob) = _
    rw [matchPercentage_of_nums 2024 currentJobProfile eightYearsJob 0 (25 / 2) 0 0 0
      rfl experience_current_2024 rfl rfl rfl]
    have ht : (0 : ℚ) + 25 / 2 + 0 + 0 + 0 = 25 / 2 := by norm_num
    rw [ht, percentageOf_twenty_five_halves]
    have hf : ⌊(25 / 2 : ℚ) + 1 / 2⌋ = 13 := by
      rw [Int.floor_eq_iff]; norm_num
    rw [hf]; norm_num
  have h2 : (calculateMatchScore 2026 currentJobProfile eightYearsJob).score
      = JsNum.num 19 := by
    show matchPercentage (scoreComponents 2026 currentJobProfile eightYearsJob) = _
    rw [matchPercentage_of_nums 2026 currentJobProfile eightYearsJob 0 (75 / 4) 0 0 0
      rfl experience_current_2026 rfl rfl rfl]
    have ht : (0 : ℚ) + 75 / 4 + 0 + 0 + 0 = 75 / 4 := by norm_num
    rw [ht, percentageOf_seventy_five_quarters]
    have hf : ⌊(75 / 4 : ℚ) + 1 / 2⌋ = 19 := by
      rw [Int.floor_eq_iff]; norm_num
    rw [hf]; norm_num
  refine ⟨h1, h2, fun h => ?_⟩
  rw [h, h2] at h1
  injection h1 with h1
  norm_num at h1

/-- C3: `calculateMatchScore` is total on well-formed inputs. For every profile and job of the
documented shapes (dates that begin with a numeric year), whichever optional fields are
absent, the call returns a result whose `score` is an integer and whose five component
scores are numbers: no lookup fails and no `NaN` is produced. -/
theorem total_on_wellFormed (currentYear : ℤ) (p : Profile) (j : JobRequirements)
    (h : wellFormedProfile p = true) :
    ∃ (n : ℤ) (a b c d e : ℚ),
      (calculateMatchScore currentYear p j).score = JsNum.num (n : ℚ)
      ∧ (calculateMatchScore currentYear p j).components.skills.score = JsNum.num a
      ∧ (calculateMatchScore currentYear p j).components.experience.score = JsNum.num b
      ∧ (calculateMatchScore currentYear p j).components.education.score = JsNum.num c
      ∧ (calculateMatchScore currentYear p j).components.location.score = JsNum.num d
      ∧ (calculateMatchScore currentYear p j).components.jobType.score = JsNum.num e := by
  obtain ⟨a, ha, -, -⟩ := skillsComponent_within p j
  obtain ⟨b, hb⟩ := experienceComponent_num_of_wellFormed currentYear p j h
  obtain ⟨c, hc, -, -⟩ := educationComponent_within p j
  obtain ⟨d, hd, -, -⟩ := locationComponent_within p j
  obtain ⟨e, he, -, -⟩ := jobTypeComponent_within p j
  exact ⟨_, a, b, c, d, e, matchPercentage_of_nums currentYear p j a b c d e ha hb hc hd he,
    ha, hb, hc, hd, he⟩

/-- Witness of C3: the inputs with every optional field absent, and the experience scenario. -/
theorem total_on_wellFormed_witness :
    (∃ (n : ℤ) (a b c d e : ℚ),
      (calculateMatchScore 2024 emptyProfile emptyJob).score = JsNum.num (n : ℚ)
      ∧ (calculateMatchScore 2024 emptyProfile emptyJob).components.skills.score = JsNum.num a
      ∧ (calculateMatchScore 2024 emptyProfile emptyJob).components.experience.score
          = JsNum.num b
      ∧ (calculateMatchScore 2024 emptyProfile emptyJob).components.education.score
          = JsNum.num c
      ∧ (calculateMatchScore 2024 emptyProfile emptyJob).components.location.score = JsNum.num d
      ∧ (calculateMatchScore 2024 emptyProfile emptyJob).components.jobType.score = JsNum.num e)
    ∧ wellFormedProfile scenarioExperienceProfile = true
    ∧ ∃ (n : ℤ) (a b c d e : ℚ),
      (calculateMatchScore 2024 scenarioExperienceProfile fiveYearsJob).score
          = JsNum.num (n : ℚ)
      ∧ (calculateMatchScore 2024 scenarioExperienceProfile fiveYearsJob).components.skills.score
          = JsNum.num a
      ∧ (calculateMatchScore 2024 scenarioExperienceProfile
          fiveYearsJob).components.experience.score = JsNum.num b
      ∧ (calculateMatchScore 2024 scenarioExperienceProfile
          fiveYearsJob).components.education.score = JsNum.num c
      ∧ (calculateMatchScore 2024 scenarioExperienceProfile
          fiveYearsJob).components.location.score = JsNum.num d
      ∧ (calculateMatchScore 2024 scenarioExperienceProfile
          fiveYearsJob).components.jobType.score = JsNum.num e :=
  ⟨total_on_wellFormed 2024 emptyProfile emptyJob (by decide), by decide,
    total_on_wellFormed 2024 scenarioExperienceProfile fiveYearsJob (by decide)⟩

/-- C4, as amended: the score is `Math.round`, which rounds to the nearest integer with halves
rounded up, of the binary64 value of `(totalScore / 100) * 100`, where `totalScore` is the
sum of the five component scores (taken in the order skills, experience, education,
location, jobType) and 100 is the total `maxScore`. When the component scores are numbers
whose sum lies within `[0, 100]`, that binary64 value is within `2 ^ -45` of the sum, so the
score is the integer nearest to the sum whenever the sum is less than `1 / 2 - 2 ^ -45` away
from it, in particular when the sum is an integer. A sum that ends in one half can go either
way: when the only non-zero component is `jobType = 2.5` the score is 3. -/
theorem score_is_rounded_percentage (currentYear : ℤ) (p : Profile) (j : JobRequirements) :
    (calculateMatchScore currentYear p j).score
        = JsNum.round ((((((((JsNum.num 0).add
            (calculateMatchScore currentYear p j).components.skills.score).add
            (calculateMatchScore currentYear p j).components.experience.score).add
            (calculateMatchScore currentYear p j).components.education.score).add
            (calculateMatchScore currentYear p j).components.location.score).add
            (calculateMatchScore currentYear p j).components.jobType.score).divDouble
              (JsNum.num 100)).mulDouble (JsNum.num 100))
      ∧ (∀ q : ℚ, JsNum.round (JsNum.num q) = JsNum.num ((⌊q + 1 / 2⌋ : ℤ) : ℚ))
      ∧ (∀ a b c d e : ℚ,
          (calculateMatchScore currentYear p j).components.skills.score = JsNum.num a →
          (calculateMatchScore currentYear p j).components.experience.score = JsNum.num b →
          (calculateMatchScore currentYear p j).components.education.score = JsNum.num c →
          (calculateMatchScore currentYear p j).components.location.score = JsNum.num d →
          (calculateMatchScore currentYear p j).components.jobType.score = JsNum.num e →
          0 ≤ a + b + c + d + e → a + b + c + d + e ≤ 100 →
          (∃ z : ℚ, |z - (a + b + c + d + e)| ≤ 1 / 2 ^ 45
            ∧ (calculateMatchScore currentYear p j).score
                = JsNum.num ((⌊z + 1 / 2⌋ : ℤ) : ℚ))
          ∧ ∀ n : ℤ, |a + b + c + d + e - n| < 1 / 2 - 1 / 2 ^ 45 →
              (calculateMatchScore currentYear p j).score = JsNum.num (n : ℚ))
      ∧ ((calculateMatchScore currentYear p j).components.skills.score = JsNum.num 0 →
          (calculateMatchScore currentYear p j).components.experience.score = JsNum.num 0 →
          (calculateMatchScore currentYear p j).components.education.score = JsNum.num 0 →
          (calculateMatchScore currentYear p j).components.location.score = JsNum.num 0 →
          (calculateMatchScore currentYear p j).components.jobType.score = JsNum.num (5 / 2) →
          (calculateMatchScore currentYear p j).score = JsNum.num 3) := by
  refine ⟨?_, fun _ => rfl, ?_, ?_⟩
  · show matchPercentage (scoreComponents currentYear p j) = _
    unfold matchPercentage
    rw [totals_maxScore, totals_score]
    rfl
  · intro a b c d e ha hb hc hd he h0 h1
    exact ⟨⟨percentageOf (a + b + c + d + e), percentageOf_near _ h0 h1,
        matchPercentage_of_nums currentYear p j a b c d e ha hb hc hd he⟩,
      fun n hn => matchPercentage_near_integer currentYear p j a b c d e ha hb hc hd he
        h0 h1 n hn⟩
  · intro ha hb hc hd he
    have h := matchPercentage_of_nums currentYear p j 0 0 0 0 (5 / 2) ha hb hc hd he
    have ht : (0 : ℚ) + 0 + 0 + 0 + 5 / 2 = 5 / 2 := by norm_num
    have hf : ⌊(5 / 2 : ℚ) + 1 / 2⌋ = 3 := by
      rw [Int.floor_eq_iff]; norm_num
    rw [ht, percentageOf_five_halves, hf] at h
    show matchPercentage (scoreComponents currentYear p j) = _
    rw [h]; norm_num

/-- Witness of C4 as amended: an applicant without job-type preferences against a full-time
job has the single non-zero component `jobType = 2.5`, and the score 3; an applicant with
an empty skills sequence against a job with no required skill and one preferred skill has the
sum 30 and the score 30. -/
theorem score_is_rounded_percentage_witness :
    (calculateMatchScore 2024 noJobTypesProfile fullTimeJob).components.jobType.score
        = JsNum.num (5 / 2)
      ∧ (calculateMatchScore 2024 noJobTypesProfile fullTimeJob).score = JsNum.num 3
      ∧ (calculateMatchScore 2024 emptySkillsProfile noRequiredSkillsJob).score
          = JsNum.num 30 := by
  have he : (calculateMatchScore 2024 noJobTypesProfile fullTimeJob).components.jobType.score
      = JsNum.num (5 / 2) := by
    show (jobTypeComponent noJobTypesProfile fullTimeJob).score = _
    simp [jobTypeComponent, jobTypeMatched, noJobTypesProfile, fullTimeJob, emptyProfile,
      emptyJob]
    norm_num
  refine ⟨he,
    (score_is_rounded_percentage 2024 noJobTypesProfile fullTimeJob).2.2.2 rfl rfl rfl rfl he,
    ?_⟩
  have h := ((score_is_rounded_percentage 2024 emptySkillsProfile
    noRequiredSkillsJob).2.2.1 30 0 0 0 0 skillsComponent_noRequired rfl rfl rfl rfl
    (by norm_num) (by norm_num)).2 30 (by norm_num)
  simpa using h

/-- Counterexample to C4 as stated: with component scores 0, 25, 20, 10 and 2.5 the sum is
57.5, which rounds to 58 with halves up, but `(57.5 / 100) * 100` is just below 57.5 in
binary64 and the score is 57. -/
theorem rounded_total_counterexample :
    (calculateMatchScore 2024 halfPointProfile halfPointJob).components.skills.score
        = JsNum.num 0
      ∧ (calculateMatchScore 2024 halfPointProfile halfPointJob).components.experience.score
        = JsNum.num 25
      ∧ (calculateMatchScore 2024 halfPointProfile halfPointJob).components.education.score
        = JsNum.num 20
      ∧ (calculateMatchScore 2024 halfPointProfile halfPointJob).components.location.score
        = JsNum.num 10
      ∧ (calculateMatchScore 2024 halfPointProfile halfPointJob).components.jobType.score
        = JsNum.num (5 / 2)
      ∧ JsNum.round (JsNum.num (0 + 25 + 20 + 10 + 5 / 2)) = JsNum.num 58
      ∧ (calculateMatchScore 2024 halfPointProfile halfPointJob).score = JsNum.num 57 := by
  obtain ⟨ha, hb, hc, hd, he⟩ := halfPoint_scores
  refine ⟨ha, hb, hc, hd, he, ?_, ?_⟩
  · have hf : ⌊(0 + 25 + 20 + 10 + 5 / 2 : ℚ) + 1 / 2⌋ = 58 := by
      rw [Int.floor_eq_iff]; norm_num
    simp only [JsNum.round, hf]
    norm_num
  · show matchPercentage (scoreComponents 2024 halfPointProfile halfPointJob) = _
    rw [matchPercentage_of_nums 2024 halfPointProfile halfPointJob 0 25 20 10 (5 / 2)
      ha hb hc hd he]
    have ht : (0 : ℚ) + 25 + 20 + 10 + 5 / 2 = 115 / 2 := by norm_num
    rw [ht, percentageOf_fifty_seven_and_half]
    have hf : ⌊(8092405580431359 / 140737488355328 : ℚ) + 1 / 2⌋ = 57 := by
      rw [Int.floor_eq_iff]; norm_num
    rw [hf]; norm_num

/-- C5: whatever the inputs and whichever factors were skipped, the returned components are
the five factors skills, experience, education, location and jobType with `maxScore` 40, 25,
20, 10 and 5, which sum to 100, the `totalMaxScore` of the summing loop. -/
theorem maxScores_fixed (currentYear : ℤ) (p : Profile) (j : JobRequirements) :
    (calculateMatchScore currentYear p j).components.skills.maxScore = 40
      ∧ (calculateMatchScore currentYear p j).components.experience.maxScore = 25
      ∧ (calculateMatchScore currentYear p j).components.education.maxScore = 20
      ∧ (calculateMatchScore currentYear p j).components.location.maxScore = 10
      ∧ (calculateMatchScore currentYear p j).components.jobType.maxScore = 5
      ∧ (calculateMatchScore currentYear p j).components.values.length = 5
      ∧ (totals (calculateMatchScore currentYear p j).components).2 = 100 :=
  ⟨skillsComponent_maxScore p j, experienceComponent_maxScore currentYear p j,
    educationComponent_maxScore p j, locationComponent_maxScore p j,
    jobTypeComponent_maxScore p j, rfl, totals_maxScore currentYear p j⟩

/-- C6: when `profile.skills` and `job.requiredSkills` are both present, `skills.score` is
`requiredScore + preferredScore`, where `requiredScore` is the matched share of the required
skills times 30 (the full 30 without required skills) and `preferredScore` the matched share
of the preferred skills times 10 (the full 10 when they are empty or absent). -/
theorem skills_score_formula (currentYear : ℤ) (p : Profile) (j : JobRequirements)
    (skills : List Skill) (required : List String)
    (hs : p.skills = some skills) (hr : j.requiredSkills = some required) :
    (calculateMatchScore currentYear p j).components.skills.score =
      JsNum.num (specRequiredScore skills required
        + specPreferredScore skills j.preferredSkills) := by
  show (skillsComponent p j).score = _
  rw [skillsComponent_run p j skills required hs hr]

/-- Witness of C6, the specification's scenario: skills JavaScript and React against required
javascript, Node.js and preferred TypeScript score 15 of 40. -/
theorem skills_score_formula_witness :
    (calculateMatchScore 2024 scenarioSkillsProfile scenarioSkillsJob).components.skills.score
        = JsNum.num 15
      ∧ (calculateMatchScore 2024 scenarioSkillsProfile
          scenarioSkillsJob).components.skills.maxScore = 40 := by
  have h := skills_score_formula 2024 scenarioSkillsProfile scenarioSkillsJob
    [{ name := "JavaScript" }, { name := "React" }] ["javascript", "Node.js"] rfl rfl
  have h1 : List.countP (fun s => decide (SpecSkillMatches
      [{ name := "JavaScript" }, { name := "React" }] s)) ["javascript", "Node.js"] = 1 := by
    decide
  have h2 : List.countP (fun s => decide (SpecSkillMatches
      [{ name := "JavaScript" }, { name := "React" }] s)) ["TypeScript"] = 0 := by
    decide
  refine ⟨?_, rfl⟩
  rw [h]
  simp only [specRequiredScore, specPreferredScore, scenarioSkillsJob, emptyJob, h1, h2]
  norm_num

/-- C7: when the skills factor runs, `skills.details` is one record per required job skill in
job order, then one per preferred job skill in job order, tagged `required` / `preferred`, and
the `matched` flag of a record is true exactly when some applicant skill name, lower-cased,
equals the lower-cased job skill, contains it, or is contained in it. -/
theorem skills_details_layout (currentYear : ℤ) (p : Profile) (j : JobRequirements)
    (skills : List Skill) (required : List String)
    (hs : p.skills = some skills) (hr : j.requiredSkills = some required) :
    (calculateMatchScore currentYear p j).components.skills.details =
      required.map (fun s => { skill := toLowerCase s, type := SkillType.required,
                               matched := decide (SpecSkillMatches skills s) })
      ++ (j.preferredSkills.getD []).map
          (fun s => { skill := toLowerCase s, type := SkillType.preferred,
                      matched := decide (SpecSkillMatches skills s) }) := by
  show (skillsComponent p j).details = _
  rw [skillsComponent_run p j skills required hs hr]
  rfl

/-- Witness of C7: the details of the skills scenario. -/
theorem skills_details_layout_witness :
    (calculateMatchScore 2024 scenarioSkillsProfile scenarioSkillsJob).components.skills.details
      = [{ skill := "javascript", type := SkillType.required, matched := true },
         { skill := "node.js", type := SkillType.required, matched := false },
         { skill := "typescript", type := SkillType.preferred, matched := false }] := by
  rw [skills_details_layout 2024 scenarioSkillsProfile scenarioSkillsJob
    [{ name := "JavaScript" }, { name := "React" }] ["javascript", "Node.js"] rfl rfl]
  decide

/-- C8: `matchingSkills` is the sequence of the `skill` fields of the `skills.details`
records whose `matched` flag is true, in the order of `details`, and it is empty when the
skills factor is skipped. -/
theorem matchingSkills_eq (currentYear : ℤ) (p : Profile) (j : JobRequirements) :
    (calculateMatchScore currentYear p j).matchingSkills =
        ((calculateMatchScore currentYear p j).components.skills.details.filter
          (fun d => d.matched)).map (fun d => d.skill)
      ∧ (p.skills = none ∨ j.requiredSkills = none →
          (calculateMatchScore currentYear p j).matchingSkills = []) := by
  refine ⟨rfl, fun h => ?_⟩
  show ((skillsComponent p j).details.filter (fun d => d.matched)).map (fun d => d.skill) = []
  rw [skillsComponent_skipped p j h]
  rfl

/-- Witness of C8: the skills scenario lists its one matched skill, and a profile without a
skills field lists none. -/
theorem matchingSkills_eq_witness :
    (calculateMatchScore 2024 scenarioSkillsProfile scenarioSkillsJob).matchingSkills
        = ["javascript"]
      ∧ (calculateMatchScore 2024 emptyProfile scenarioSkillsJob).matchingSkills = [] := by
  refine ⟨?_, (matchingSkills_eq 2024 emptyProfile scenarioSkillsJob).2 (Or.inl rfl)⟩
  rw [(matchingSkills_eq 2024 scenarioSkillsProfile scenarioSkillsJob).1]
  decide

/-- C9: if `job.requiredSkills` is empty and the profile's skills sequence is present, the
required-skills sub-score is the full 30: `skills.score = 30 + preferredScore`, hence
`skills.score >= 30`. -/
theorem empty_required_full_subscore (currentYear : ℤ) (p : Profile) (j : JobRequirements)
    (skills : List Skill) (hs : p.skills = some skills) (hr : j.requiredSkills = some []) :
    (calculateMatchScore currentYear p j).components.skills.score =
        JsNum.num (30 + specPreferredScore skills j.preferredSkills)
      ∧ 30 ≤ 30 + specPreferredScore skills j.preferredSkills := by
  constructor
  · show (skillsComponent p j).score = _
    rw [skillsComponent_run p j skills [] hs hr]
    simp [specRequiredScore]
  · have := (specPreferredScore_bounds skills j.preferredSkills).1
    linarith

/-- Witness of C9: no required skill and one unmatched preferred skill give exactly 30. -/
theorem empty_required_full_subscore_witness :
    (calculateMatchScore 2024 scenarioSkillsProfile noRequiredSkillsJob).components.skills.score
      = JsNum.num 30 := by
  have h := (empty_required_full_subscore 2024 scenarioSkillsProfile noRequiredSkillsJob
    [{ name := "JavaScript" }, { name := "React" }] rfl rfl).1
  have h2 : List.countP (fun s => decide (SpecSkillMatches
      [{ name := "JavaScript" }, { name := "React" }] s)) ["TypeScript"] = 0 := by
    decide
  rw [h]
  simp only [specPreferredScore, noRequiredSkillsJob, emptyJob, h2]
  norm_num

/-- C10: for a work-experience list whose present dates all begin with a numeric year, the
total years of experience is the sum, over the entries with a non-empty start date, of
`endYear - startYear`, a year being the integer before the first hyphen and `endYear` the
current calendar year if `isCurrent` (even with an end date), else the year of a non-empty end
date, else the start year; entries without a start date add 0. This total is what the single
record of `experience.details` reports as `actual`. -/
theorem totalYears_eq_sum (currentYear : ℤ) (ws : List WorkExperience)
    (h : ∀ w ∈ ws, wellFormedDates w = true) :
    totalYears currentYear ws = JsNum.num ((ws.map (specEntryYears currentYear)).sum : ℚ)
      ∧ ∀ (p : Profile) (j : JobRequirements) (e : JobExperience),
          p.workExperience = some ws → j.experience = some e →
          (calculateMatchScore currentYear p j).components.experience.details.map
            (fun d => d.actual)
            = [JsNum.num ((ws.map (specEntryYears currentYear)).sum : ℚ)] := by
  have ht := totalYears_wellFormed currentYear ws h
  refine ⟨by simpa [specTotalYears] using ht, ?_⟩
  intro p j e hw he
  show (experienceComponent currentYear p j).details.map (fun d => d.actual) = _
  unfold experienceComponent
  rw [hw, he]
  simp only
  rw [ht]
  split_ifs <;> simp [specTotalYears]

/-- Witness of C10: the entry 2019-01 to 2022-01 counts 3 years. -/
theorem totalYears_eq_sum_witness :
    totalYears 2024 scenarioHistory = JsNum.num 3
      ∧ (calculateMatchScore 2024 scenarioExperienceProfile
          fiveYearsJob).components.experience.details.map (fun d => d.actual)
        = [JsNum.num 3] := by
  have h := totalYears_eq_sum 2024 scenarioHistory (by decide)
  have hs : ((scenarioHistory.map (specEntryYears 2024)).sum : ℤ) = 3 := by decide
  rw [hs] at h
  refine ⟨by simpa using h.1, ?_⟩
  simpa using h.2 scenarioExperienceProfile fiveYearsJob { minYears := some 5 } rfl rfl

/-- C11: when the experience factor runs with `minYears > 0`, `experience.score` is 25 if
`totalYears >= minYears`, and otherwise `min(totalYears / minYears, 1) * 25`, which is
`(totalYears / minYears) * 25`. -/
theorem experience_score_formula (currentYear : ℤ) (p : Profile) (j : JobRequirements)
    (ws : List WorkExperience) (e : JobExperience) (r : ℚ)
    (hw : p.workExperience = some ws) (he : j.experience = some e)
    (hm : e.minYears = some r) (hr : 0 < r) :
    ((totalYears currentYear ws).ge (JsNum.num r) = true →
        (calculateMatchScore currentYear p j).components.experience.score = JsNum.num 25)
      ∧ ((totalYears currentYear ws).ge (JsNum.num r) = false →
        (calculateMatchScore currentYear p j).components.experience.score
            = (JsNum.min ((totalYears currentYear ws).div (JsNum.num r)) (JsNum.num 1)).mul
                (JsNum.num 25)
          ∧ (calculateMatchScore currentYear p j).components.experience.score
            = ((totalYears currentYear ws).div (JsNum.num r)).mul (JsNum.num 25))
      ∧ (∀ t : ℚ, totalYears currentYear ws = JsNum.num t →
        (calculateMatchScore currentYear p j).components.experience.score
          = JsNum.num (if r ≤ t then 25 else t / r * 25)) := by
  have hrun := experienceComponent_run currentYear p j ws e hw he
  have hg : e.minYears.getD 0 = r := by rw [hm]; rfl
  rw [hg] at hrun
  have hscore : (calculateMatchScore currentYear p j).components.experience.score
      = (experienceComponent currentYear p j).score := rfl
  rw [hscore, hrun]
  refine ⟨fun h => by simp [h], fun h => ?_, fun t ht => ?_⟩
  · have hmin : JsNum.min ((totalYears currentYear ws).div (JsNum.num r)) (JsNum.num 1)
        = (totalYears currentYear ws).div (JsNum.num r) := by
      cases ht : totalYears currentYear ws with
      | nan => rfl
      | num t =>
        rw [ht] at h
        simp only [JsNum.ge, decide_eq_false_iff_not, not_le] at h
        have h1 : t / r ≤ 1 := (div_le_one hr).2 h.le
        simp [JsNum.div, JsNum.min, h1]
    simp [h, hr, hmin]
  · rw [ht]
    by_cases h : r ≤ t
    · simp [JsNum.ge, h]
    · have h1 : t / r ≤ 1 := (div_le_one hr).2 (not_le.1 h).le
      simp [JsNum.ge, h, hr, JsNum.div, JsNum.min, JsNum.mul, h1]

/-- Witness of C11, the specification's scenario: one entry from 2019-01 to 2022-01, 3 years,
against `minYears = 5` gives `experience.score = 15`. -/
theorem experience_score_formula_witness :
    (calculateMatchScore 2024 scenarioExperienceProfile fiveYearsJob).components.experience.score
      = JsNum.num 15 := by
  have h := (experience_score_formula 2024 scenarioExperienceProfile fiveYearsJob
    scenarioHistory { minYears := some 5 } 5 rfl rfl rfl (by norm_num)).2.2 3
    totalYears_scenario
  rw [h]
  norm_num

/-- C12: if `job.experience.minYears` is 0 or absent, then for every profile whose
`workExperience` sequence is present, whatever its entries, `experience.score` is the full
25 and the single details record has `matched = true` (with `required = 0` and the computed
total as `actual`). -/
theorem no_required_years_full_score (currentYear : ℤ) (p : Profile) (j : JobRequirements)
    (ws : List WorkExperience) (e : JobExperience)
    (hw : p.workExperience = some ws) (he : j.experience = some e)
    (h0 : e.minYears = none ∨ e.minYears = some 0) :
    (calculateMatchScore currentYear p j).components.experience.score = JsNum.num 25
      ∧ (calculateMatchScore currentYear p j).components.experience.details
          = [{ required := 0, actual := totalYears currentYear ws, matched := true }] := by
  have hrun := experienceComponent_run currentYear p j ws e hw he
  have hg : e.minYears.getD 0 = 0 := by
    rcases h0 with h | h <;> rw [h] <;> rfl
  rw [hg] at hrun
  have hc : (calculateMatchScore currentYear p j).components.experience
      = experienceComponent currentYear p j := rfl
  rw [hc, hrun]
  by_cases h : (totalYears currentYear ws).ge (JsNum.num 0) = true <;> simp [h]

/-- Witness of C12: the empty work history, a history whose entry ends before it starts, and
a history with an unparsable date all score 25 with `matched = true`; the reported total is
0, -1 and `NaN`. -/
theorem no_required_years_full_score_witness :
    ((calculateMatchScore 2024 emptyHistoryProfile noMinYearsJob).components.experience.score
        = JsNum.num 25
      ∧ (calculateMatchScore 2024 emptyHistoryProfile noMinYearsJob).components.experience.details
        = [{ required := 0, actual := JsNum.num 0, matched := true }])
    ∧ ((calculateMatchScore 2024 reversedDatesProfile zeroYearsJob).components.experience.score
        = JsNum.num 25
      ∧ (calculateMatchScore 2024 reversedDatesProfile zeroYearsJob).components.experience.details
        = [{ required := 0, actual := JsNum.num (-1), matched := true }])
    ∧ ((calculateMatchScore 2024 malformedProfile noMinYearsJob).components.experience.score
        = JsNum.num 25
      ∧ (calculateMatchScore 2024 malformedProfile noMinYearsJob).components.experience.details
        = [{ required := 0, actual := JsNum.nan, matched := true }]) := by
  have h1 := no_required_years_full_score 2024 emptyHistoryProfile noMinYearsJob []
    { minYears := none } rfl rfl (Or.inl rfl)
  have h2 := no_required_years_full_score 2024 reversedDatesProfile zeroYearsJob
    reversedDatesHistory { minYears := some 0 } rfl rfl (Or.inr rfl)
  have h3 := no_required_years_full_score 2024 malformedProfile noMinYearsJob
    malformedHistory { minYears := none } rfl rfl (Or.inl rfl)
  rw [totalYears_reversed] at h2
  rw [totalYears_malformed] at h3
  exact ⟨h1, h2, h3⟩

/-- C13, as amended: a work-experience entry with a malformed date is not skipped from the
years-of-experience sum. The total years is `NaN` exactly when some entry has a non-empty
start date and either an unparsable start year or, not being current, a non-empty end date
with an unparsable year. For such a list the call still returns a result, whose
`experience.details` reports `actual = NaN`; `experience.score` and `score` are `NaN` when
`minYears > 0`, and `experience.score` is 25 when `minYears` is 0, negative or absent. Only
the entries without a non-empty start date are skipped. -/
theorem malformed_date_not_skipped (currentYear : ℤ) (ws : List WorkExperience) :
    (totalYears currentYear ws = JsNum.nan ↔ ∃ w ∈ ws, entryUnparsable w = true)
      ∧ (∀ (p : Profile) (j : JobRequirements) (e : JobExperience),
          p.workExperience = some ws → j.experience = some e →
          (∃ w ∈ ws, entryUnparsable w = true) →
          (calculateMatchScore currentYear p j).components.experience.details.map
              (fun d => d.actual) = [JsNum.nan]
            ∧ (0 < e.minYears.getD 0 →
                (calculateMatchScore currentYear p j).components.experience.score = JsNum.nan
                ∧ (calculateMatchScore currentYear p j).score = JsNum.nan)
            ∧ (e.minYears.getD 0 ≤ 0 →
                (calculateMatchScore currentYear p j).components.experience.score
                  = JsNum.num 25))
      ∧ totalYears currentYear ws
          = totalYears currentYear (ws.filter (fun w => truthy w.startDate)) := by
  refine ⟨totalYears_nan_iff currentYear ws, ?_, totalYears_filter_start currentYear ws⟩
  intro p j e hw he hbad
  have hnan := (totalYears_nan_iff currentYear ws).2 hbad
  have hrun := experienceComponent_run currentYear p j ws e hw he
  rw [hnan] at hrun
  have hc : (calculateMatchScore currentYear p j).components.experience
      = experienceComponent currentYear p j := rfl
  refine ⟨?_, fun hpos => ?_, fun hle => ?_⟩
  · rw [hc, hrun]
    simp only [JsNum.ge, Bool.false_eq_true, if_false]
    split_ifs <;> rfl
  · have hs : (experienceComponent currentYear p j).score = JsNum.nan := by
      rw [hrun]
      simp [JsNum.ge, hpos, JsNum.div, JsNum.min, JsNum.mul]
    exact ⟨by rw [hc]; exact hs, matchPercentage_experience_nan currentYear p j hs⟩
  · rw [hc, hrun]
    simp [JsNum.ge, not_lt.2 hle]

/-- Witness of C13 as amended: the history that begins with the start date `June 2019`. -/
theorem malformed_date_not_skipped_witness :
    totalYears 2024 malformedHistory = JsNum.nan
      ∧ (calculateMatchScore 2024 malformedProfile noMinYearsJob).components.experience.score
          = JsNum.num 25 := by
  have h := malformed_date_not_skipped 2024 malformedHistory
  have hbad : ∃ w ∈ malformedHistory, entryUnparsable w = true :=
    ⟨{ startDate := some "June 2019", endDate := some "2021-03", isCurrent := false },
      List.mem_cons_self _ _, by decide⟩
  exact ⟨h.1.2 hbad,
    (h.2.1 malformedProfile noMinYearsJob { minYears := none } rfl rfl hbad).2.2
      (le_refl _)⟩

/-- Counterexample to C13 as stated: with the start date `June 2019` in front of the entry
2019-01 to 2022-01, the total is `NaN` and not the 3 years of the remaining well-formed
entry, and against `minYears = 4` both `experience.score` and `score` are `NaN`. -/
theorem malformed_date_counterexample :
    totalYears 2024 scenarioHistory = JsNum.num 3
      ∧ totalYears 2024 malformedHistory = JsNum.nan
      ∧ (calculateMatchScore 2024 malformedProfile fourYearsJob).components.experience.details.map
          (fun d => d.actual) = [JsNum.nan]
      ∧ (calculateMatchScore 2024 malformedProfile fourYearsJob).components.experience.score
          = JsNum.nan
      ∧ (calculateMatchScore 2024 malformedProfile fourYearsJob).score = JsNum.nan := by
  have hrun := experienceComponent_run 2024 malformedProfile fourYearsJob malformedHistory
    { minYears := some 4 } rfl rfl
  rw [totalYears_malformed] at hrun
  have hs : (experienceComponent 2024 malformedProfile fourYearsJob).score = JsNum.nan := by
    rw [hrun]
    simp [JsNum.ge, JsNum.div, JsNum.min, JsNum.mul]
  refine ⟨totalYears_scenario, totalYears_malformed, ?_, hs,
    matchPercentage_experience_nan 2024 malformedProfile fourYearsJob hs⟩
  show (experienceComponent 2024 malformedProfile fourYearsJob).details.map
    (fun d => d.actual) = _
  rw [hrun]
  simp [JsNum.ge]

/-- C14: when `profile.education` and `job.education` are present, `education.score` follows
the table, where specified means a non-empty string and a requirement matches when the
reported flag (`degreeMatch`, `fieldMatch`) is true, that is when some entry carries a
non-empty value that fuzzily matches it. Both specified: 20 if both match, 14 if only the
degree matches, 6 if only the field matches, 0 if neither; only the degree specified: 20 if
it matches, else 0; only the field specified: 20 if it matches, else 0; neither: 20. -/
theorem education_score_table (currentYear : ℤ) (p : Profile) (j : JobRequirements)
    (es : List Education) (req : Education)
    (hp : p.education = some es) (hj : j.education = some req) :
    ∃ dm fm : Bool,
      (dm = true ↔ SpecEducationMatches req.degree (es.map (fun edu => edu.degree)))
      ∧ (fm = true ↔ SpecEducationMatches req.fieldOfStudy
          (es.map (fun edu => edu.fieldOfStudy)))
      ∧ (calculateMatchScore currentYear p j).components.education.details.map
          (fun d => (d.degreeMatch, d.fieldMatch)) = [(dm, fm)]
      ∧ (calculateMatchScore currentYear p j).components.education.score
          = JsNum.num (specEducationScore (truthy req.degree) (truthy req.fieldOfStudy) dm fm)
      ∧ specEducationScore true true true true = 20
      ∧ specEducationScore true true true false = 14
      ∧ specEducationScore true true false true = 6
      ∧ specEducationScore true true false false = 0
      ∧ (∀ fm2, specEducationScore true false true fm2 = 20
          ∧ specEducationScore true false false fm2 = 0)
      ∧ (∀ dm2, specEducationScore false true dm2 true = 20
          ∧ specEducationScore false true dm2 false = 0)
      ∧ (∀ dm2 fm2, specEducationScore false false dm2 fm2 = 20) := by
  obtain ⟨dm, fm, hdm, hfm, hrun⟩ := educationComponent_run p j es req hp hj
  have hc : (calculateMatchScore currentYear p j).components.education
      = educationComponent p j := rfl
  refine ⟨dm, fm, hdm, hfm, ?_, ?_, rfl, rfl, rfl, rfl, fun _ => ⟨rfl, rfl⟩,
    fun _ => ⟨rfl, rfl⟩, fun _ _ => rfl⟩
  · rw [hc, hrun]; rfl
  · rw [hc, hrun]

/-- Witness of C14: a Bachelor of Science in Computer Science against a Bachelor degree in
Physics matches the degree only and scores 14. -/
theorem education_score_table_witness :
    (calculateMatchScore 2024 scenarioEducationProfile bachelorPhysicsJob).components.education.score
      = JsNum.num 14 := by
  obtain ⟨dm, fm, -, -, hdet, hs, -⟩ := education_score_table 2024 scenarioEducationProfile
    bachelorPhysicsJob
    [{ degree := some "Bachelor of Science", fieldOfStudy := some "Computer Science" }]
    { degree := some "Bachelor", fieldOfStudy := some "Physics" } rfl rfl
  have hflags : (calculateMatchScore 2024 scenarioEducationProfile
      bachelorPhysicsJob).components.education.details.map
        (fun d => (d.degreeMatch, d.fieldMatch)) = [(true, false)] := by decide
  rw [hflags] at hdet
  simp only [List.cons.injEq, Prod.mk.injEq, and_true] at hdet
  rw [hs, ← hdet.1, ← hdet.2]
  rfl

/-- C15, as amended: `degreeMatch` and `fieldMatch` are each an OR over all applicant
education entries. For every job specifying both a degree and a field, if one education
entry has a non-empty degree that fuzzily matches the required degree and some, possibly
different, entry has a non-empty field of study that fuzzily matches the required field, then
`education.score = 20` with `degreeMatch = fieldMatch = true`. -/
theorem education_or_across_entries (currentYear : ℤ) (p : Profile) (j : JobRequirements)
    (es : List Education) (req : Education) (rd rf : String)
    (hp : p.education = some es) (hj : j.education = some req)
    (hd : req.degree = some rd) (hrd : rd ≠ "")
    (hf : req.fieldOfStudy = some rf) (hrf : rf ≠ "")
    (h1 : ∃ e1 ∈ es, ∃ d, e1.degree = some d ∧ d ≠ "" ∧ SpecFuzzyMatch d rd)
    (h2 : ∃ e2 ∈ es, ∃ f, e2.fieldOfStudy = some f ∧ f ≠ "" ∧ SpecFuzzyMatch f rf) :
    (calculateMatchScore currentYear p j).components.education.score = JsNum.num 20
      ∧ (calculateMatchScore currentYear p j).components.education.details.map
          (fun d => (d.degreeMatch, d.fieldMatch)) = [(true, true)] := by
  obtain ⟨dm, fm, hdm, hfm, hrun⟩ := educationComponent_run p j es req hp hj
  have hc : (calculateMatchScore currentYear p j).components.education
      = educationComponent p j := rfl
  have hdt : dm = true := by
    obtain ⟨e1, he1, d, hd1, hd2, hd3⟩ := h1
    exact hdm.2 ⟨rd, d, hd, hrd, List.mem_map.2 ⟨e1, he1, hd1⟩, hd2, hd3⟩
  have hft : fm = true := by
    obtain ⟨e2, he2, f, hf1, hf2, hf3⟩ := h2
    exact hfm.2 ⟨rf, f, hf, hrf, List.mem_map.2 ⟨e2, he2, hf1⟩, hf2, hf3⟩
  have htd : truthy req.degree = true := by rw [hd]; simpa [truthy] using hrd
  have htf : truthy req.fieldOfStudy = true := by rw [hf]; simpa [truthy] using hrf
  rw [hc, hrun, hdt, hft, htd, htf]
  exact ⟨rfl, rfl⟩

/-- Witness of C15 as amended: the degree matches in the first entry and the field in the
second. -/
theorem education_or_across_entries_witness :
    (calculateMatchScore 2024 twoEntriesProfile bachelorComputingJob).components.education.score
        = JsNum.num 20
      ∧ (calculateMatchScore 2024 twoEntriesProfile
          bachelorComputingJob).components.education.details.map
            (fun d => (d.degreeMatch, d.fieldMatch)) = [(true, true)] :=
  education_or_across_entries 2024 twoEntriesProfile bachelorComputingJob
    [{ degree := some "Bachelor of Science", fieldOfStudy := some "History" },
     { degree := some "Diploma", fieldOfStudy := some "Computer Science" }]
    { degree := some "Bachelor", fieldOfStudy := some "Computer Science" }
    "Bachelor" "Computer Science" rfl rfl rfl (by decide) rfl (by decide)
    ⟨{ degree := some "Bachelor of Science", fieldOfStudy := some "History" },
      List.mem_cons_self _ _, "Bachelor of Science", rfl, by decide, by decide⟩
    ⟨{ degree := some "Diploma", fieldOfStudy := some "Computer Science" },
      List.mem_cons_of_mem _ (List.mem_cons_self _ _), "Computer Science", rfl, by decide,
      by decide⟩

/-- Counterexample to C15 as stated: an education entry left blank matches the required
degree and the required field under the fuzzy rule, the empty string being contained in every
string, yet the code reports `degreeMatch = fieldMatch = false` and `education.score = 0`,
because it tests an applicant entry only when its value is non-empty. -/
theorem education_or_counterexample :
    SpecFuzzyMatch "" "Bachelor" ∧ SpecFuzzyMatch "" "Computer Science"
      ∧ (calculateMatchScore 2024 blankEducationProfile
          bachelorComputingJob).components.education.details.map
            (fun d => (d.degreeMatch, d.fieldMatch)) = [(false, false)]
      ∧ (calculateMatchScore 2024 blankEducationProfile
          bachelorComputingJob).components.education.score = JsNum.num 0 := by
  have hc : (calculateMatchScore 2024 blankEducationProfile bachelorComputingJob).components.education
      = educationComponent blankEducationProfile bachelorComputingJob := rfl
  refine ⟨by decide, by decide, ?_, ?_⟩
  · rw [hc, educationComponent_blank]; rfl
  · rw [hc, educationComponent_blank]

/-- C16, as amended: for the job education with degree Bachelor's and field Computer Science
and an applicant with the single entry Bachelor of Science in Computer Science,
`calculateMatchScore` reports `degreeMatch = false` (neither of the lower-cased degrees
contains the other), `fieldMatch = true` and `education.score = 6`, 30% of 20. -/
theorem education_scenario_result :
    (calculateMatchScore 2024 scenarioEducationProfile
        scenarioEducationJob).components.education.details
      = [{ requiredDegree := "bachelor's", requiredField := "computer science",
           degreeMatch := false, fieldMatch := true }]
      ∧ (calculateMatchScore 2024 scenarioEducationProfile
          scenarioEducationJob).components.education.score = JsNum.num 6
      ∧ fuzzyMatch (toLowerCase "Bachelor of Science") (toLowerCase "Bachelor's") = false := by
  have hc : (calculateMatchScore 2024 scenarioEducationProfile
      scenarioEducationJob).components.education
      = educationComponent scenarioEducationProfile scenarioEducationJob := rfl
  refine ⟨?_, ?_, by decide⟩
  · rw [hc, educationComponent_scenario]
  · rw [hc, educationComponent_scenario]

/-- Counterexample to C16 as stated: on the scenario's input the reported `degreeMatch` is
false and `education.score` is not 20. -/
theorem education_scenario_counterexample :
    (calculateMatchScore 2024 scenarioEducationProfile
        scenarioEducationJob).components.education.details.map (fun d => d.degreeMatch)
      = [false]
      ∧ (calculateMatchScore 2024 scenarioEducationProfile
          scenarioEducationJob).components.education.score ≠ JsNum.num 20 := by
  have hc : (calculateMatchScore 2024 scenarioEducationProfile
      scenarioEducationJob).components.education
      = educationComponent scenarioEducationProfile scenarioEducationJob := rfl
  rw [hc, educationComponent_scenario]
  refine ⟨rfl, fun h => ?_⟩
  injection h with h
  norm_num at h

/-- C17: when `profile.preferences` is present and `job.location` is a non-empty string, the
location factor applies the first matching rule of: (1) job remote and applicant open to
remote work: score 10, reason `Remote job match`, matched; (2) some preferred location
fuzzily matches the job location: score 10, reason `Location match`, matched; (3) willing to
relocate: score 7, reason `Willing to relocate`, not matched; (4) otherwise score 0, reason
`No location match`, not matched. With an empty or absent list of preferred locations rule 2
never fires. -/
theorem location_first_matching_rule (currentYear : ℤ) (p : Profile) (j : JobRequirements)
    (prefs : Preferences) (location : String)
    (hp : p.preferences = some prefs) (hl : j.location = some location)
    (hne : location ≠ "") :
    (j.remote = some true ∧ prefs.remoteWork = some true →
        (calculateMatchScore currentYear p j).components.location =
          { score := JsNum.num 10, maxScore := 10,
            details := [{ jobLocation := toLowerCase location, remote := true,
                          matched := true, reason := "Remote job match" }] })
      ∧ (¬ (j.remote = some true ∧ prefs.remoteWork = some true) →
          SpecLocationMatches prefs location →
        (calculateMatchScore currentYear p j).components.location =
          { score := JsNum.num 10, maxScore := 10,
            details := [{ jobLocation := toLowerCase location, remote := false,
                          matched := true, reason := "Location match" }] })
      ∧ (¬ (j.remote = some true ∧ prefs.remoteWork = some true) →
          ¬ SpecLocationMatches prefs location → prefs.willingToRelocate = some true →
        (calculateMatchScore currentYear p j).components.location =
          { score := JsNum.num 7, maxScore := 10,
            details := [{ jobLocation := toLowerCase location, remote := false,
                          matched := false, reason := "Willing to relocate" }] })
      ∧ (¬ (j.remote = some true ∧ prefs.remoteWork = some true) →
          ¬ SpecLocationMatches prefs location → prefs.willingToRelocate ≠ some true →
        (calculateMatchScore currentYear p j).components.location =
          { score := JsNum.num 0, maxScore := 10,
            details := [{ jobLocation := toLowerCase location, remote := j.remote.getD false,
                          matched := false, reason := "No location match" }] })
      ∧ (prefs.locations = none ∨ prefs.locations = some [] →
          ¬ SpecLocationMatches prefs location) := by
  have hc : (calculateMatchScore currentYear p j).components.location
      = locationComponent p j := rfl
  rw [hc, locationComponent_run p j prefs location hp hl hne]
  refine ⟨fun h1 => by rw [if_pos h1], fun h1 h2 => by rw [if_neg h1, if_pos h2],
    fun h1 h2 h3 => by rw [if_neg h1, if_neg h2, if_pos h3],
    fun h1 h2 h3 => by rw [if_neg h1, if_neg h2, if_neg h3], ?_⟩
  rintro (h | h) <;> simp [SpecLocationMatches, h]

/-- Witness of C17: an applicant who prefers Boston, would relocate and is not open to remote
work scores 7 for an on-site job in Austin. -/
theorem location_first_matching_rule_witness :
    (calculateMatchScore 2024 relocatingProfile onSiteAustinJob).components.location =
      { score := JsNum.num 7, maxScore := 10,
        details := [{ jobLocation := "austin", remote := false, matched := false,
                      reason := "Willing to relocate" }] } :=
  (location_first_matching_rule 2024 relocatingProfile onSiteAustinJob
    { locations := some ["Boston"], willingToRelocate := some true, remoteWork := some false,
      jobTypes := some ["Part-time"] } "Austin" rfl rfl (by decide)).2.2.1
    (by decide) (by decide) rfl

/-- C18, as amended: whenever the job is remote, the applicant is open to remote work and
`job.location` is a non-empty string, `location.score` is the full 10 with reason
`Remote job match`, whatever that location string, the applicant's preferred locations and
the relocation flag. When `job.location` is absent or the empty string the location factor is
skipped: score 0 and no details. -/
theorem remote_rule_priority (currentYear : ℤ) (p : Profile) (j : JobRequirements)
    (prefs : Preferences) (hp : p.preferences = some prefs)
    (hr : prefs.remoteWork = some true) (hj : j.remote = some true) :
    (∀ location, j.location = some location → location ≠ "" →
        (calculateMatchScore currentYear p j).components.location =
          { score := JsNum.num 10, maxScore := 10,
            details := [{ jobLocation := toLowerCase location, remote := true,
                          matched := true, reason := "Remote job match" }] })
      ∧ (j.location = none ∨ j.location = some "" →
        (calculateMatchScore currentYear p j).components.location =
          { score := JsNum.num 0, maxScore := 10, details := [] }) := by
  have hc : (calculateMatchScore currentYear p j).components.location
      = locationComponent p j := rfl
  refine ⟨fun location hl hne => ?_, fun h => ?_⟩
  · rw [hc, locationComponent_run p j prefs location hp hl hne, if_pos ⟨hj, hr⟩]
  · rw [hc, locationComponent_skipped p j (Or.inr h)]

/-- Witness of C18 as amended, the specification's scenario: a remote job in Austin and an
applicant open to remote work whose only preferred location is Boston. -/
theorem remote_rule_priority_witness :
    (calculateMatchScore 2024 remoteWorkerProfile remoteAustinJob).components.location =
      { score := JsNum.num 10, maxScore := 10,
        details := [{ jobLocation := "austin", remote := true, matched := true,
                      reason := "Remote job match" }] } :=
  (remote_rule_priority 2024 remoteWorkerProfile remoteAustinJob
    { locations := some ["Boston"], willingToRelocate := some false, remoteWork := some true,
      jobTypes := none } rfl rfl rfl).1 "Austin" rfl (by decide)

/-- Counterexample to C18 as stated: a remote job whose location string is empty, against
an applicant open to remote work, has `location.score = 0` and no details. -/
theorem remote_rule_counterexample :
    remoteNoLocationJob.remote = some true
      ∧ (remoteWorkerProfile.preferences.map (fun prefs => prefs.remoteWork)) = some (some true)
      ∧ (calculateMatchScore 2024 remoteWorkerProfile remoteNoLocationJob).components.location =
          { score := JsNum.num 0, maxScore := 10, details := [] } :=
  ⟨rfl, rfl, rfl⟩

/-- C19: when `profile.preferences` is present and `job.jobType` is a non-empty string,
`jobType.score` is 5 with `matched = true` if some preferred job type fuzzily matches the job
type; it is 2.5 with `matched = false` if the applicant's list of job types is empty or
absent; and it is 0 with `matched = false` if the list is not empty and none matches. -/
theorem jobType_rules (currentYear : ℤ) (p : Profile) (j : JobRequirements)
    (prefs : Preferences) (jobType : String)
    (hp : p.preferences = some prefs) (ht : j.jobType = some jobType) (hne : jobType ≠ "") :
    (SpecJobTypeMatches prefs jobType →
        (calculateMatchScore currentYear p j).components.jobType =
          { score := JsNum.num 5, maxScore := 5,
            details := [{ jobType := toLowerCase jobType, matched := true, reason := none }] })
      ∧ (prefs.jobTypes = none ∨ prefs.jobTypes = some [] →
        (calculateMatchScore currentYear p j).components.jobType =
          { score := JsNum.num (5 / 2), maxScore := 5,
            details := [{ jobType := toLowerCase jobType, matched := false,
                          reason := some "No preferences specified" }] })
      ∧ (¬ SpecJobTypeMatches prefs jobType → prefs.jobTypes.getD [] ≠ [] →
        (calculateMatchScore currentYear p j).components.jobType =
          { score := JsNum.num 0, maxScore := 5,
            details := [{ jobType := toLowerCase jobType, matched := false,
                          reason := some "Job type mismatch" }] }) := by
  have hc : (calculateMatchScore currentYear p j).components.jobType
      = jobTypeComponent p j := rfl
  rw [hc, jobTypeComponent_run p j prefs jobType hp ht hne]
  refine ⟨fun h1 => by rw [if_pos h1], fun h => ?_,
    fun h1 h2 => by rw [if_neg h1, if_neg h2]⟩
  have hempty : prefs.jobTypes.getD [] = [] := by
    rcases h with h | h <;> rw [h] <;> rfl
  have hno : ¬ SpecJobTypeMatches prefs jobType := by
    simp [SpecJobTypeMatches, hempty]
  rw [if_neg hno, if_pos hempty]

/-- Witness of C19, the specification's scenario: an empty list of job types against the job
type Full-time gives 2.5, not matched. -/
theorem jobType_rules_witness :
    (calculateMatchScore 2024 noJobTypesProfile fullTimeJob).components.jobType =
      { score := JsNum.num (5 / 2), maxScore := 5,
        details := [{ jobType := "full-time", matched := false,
                      reason := some "No preferences specified" }] } :=
  (jobType_rules 2024 noJobTypesProfile fullTimeJob
    { locations := none, willingToRelocate := none, remoteWork := none,
      jobTypes := some [] } "Full-time" rfl rfl (by decide)).2.1 (Or.inr rfl)

/-- C20, as amended: a factor whose gating input is missing is skipped. Its component keeps
score 0, empty details and its `maxScore`, and the overall score is still taken against the
total of 100, not renormalised: it is `Math.round` of the binary64 value of the sum of the
other four component scores divided by 100 and multiplied by 100. That is the sum rounded to
the nearest integer whenever the sum, within `[0, 100]`, is less than `1 / 2 - 2 ^ -45` away
from that integer. For the location and job-type factors an empty string counts as
missing. -/
theorem skipped_factor_keeps_total (currentYear : ℤ) (p : Profile) (j : JobRequirements) :
    (p.skills = none ∨ j.requiredSkills = none →
        (calculateMatchScore currentYear p j).components.skills
            = { score := JsNum.num 0, maxScore := 40, details := [] }
          ∧ (calculateMatchScore currentYear p j).score
            = JsNum.round (((((((JsNum.num 0).add
                (calculateMatchScore currentYear p j).components.experience.score).add
                (calculateMatchScore currentYear p j).components.education.score).add
                (calculateMatchScore currentYear p j).components.location.score).add
                (calculateMatchScore currentYear p j).components.jobType.score).divDouble
                  (JsNum.num 100)).mulDouble (JsNum.num 100)))
      ∧ (p.workExperience = none ∨ j.experience = none →
        (calculateMatchScore currentYear p j).components.experience
            = { score := JsNum.num 0, maxScore := 25, details := [] }
          ∧ (calculateMatchScore currentYear p j).score
            = JsNum.round (((((((JsNum.num 0).add
                (calculateMatchScore currentYear p j).components.skills.score).add
                (calculateMatchScore currentYear p j).components.education.score).add
                (calculateMatchScore currentYear p j).components.location.score).add
                (calculateMatchScore currentYear p j).components.jobType.score).divDouble
                  (JsNum.num 100)).mulDouble (JsNum.num 100)))
      ∧ (p.education = none ∨ j.education = none →
        (calculateMatchScore currentYear p j).components.education
            = { score := JsNum.num 0, maxScore := 20, details := [] }
          ∧ (calculateMatchScore currentYear p j).score
            = JsNum.round (((((((JsNum.num 0).add
                (calculateMatchScore currentYear p j).components.skills.score).add
                (calculateMatchScore currentYear p j).components.experience.score).add
                (calculateMatchScore currentYear p j).components.location.score).add
                (calculateMatchScore currentYear p j).components.jobType.score).divDouble
                  (JsNum.num 100)).mulDouble (JsNum.num 100)))
      ∧ (p.preferences = none ∨ j.location = none ∨ j.location = some "" →
        (calculateMatchScore currentYear p j).components.location
            = { score := JsNum.num 0, maxScore := 10, details := [] }
          ∧ (calculateMatchScore currentYear p j).score
            = JsNum.round (((((((JsNum.num 0).add
                (calculateMatchScore currentYear p j).components.skills.score).add
                (calculateMatchScore currentYear p j).components.experience.score).add
                (calculateMatchScore currentYear p j).components.education.score).add
                (calculateMatchScore currentYear p j).components.jobType.score).divDouble
                  (JsNum.num 100)).mulDouble (JsNum.num 100)))
      ∧ (p.preferences = none ∨ j.jobType = none ∨ j.jobType = some "" →
        (calculateMatchScore currentYear p j).components.jobType
            = { score := JsNum.num 0, maxScore := 5, details := [] }
          ∧ (calculateMatchScore currentYear p j).score
            = JsNum.round (((((((JsNum.num 0).add
                (calculateMatchScore currentYear p j).components.skills.score).add
                (calculateMatchScore currentYear p j).components.experience.score).add
                (calculateMatchScore currentYear p j).components.education.score).add
                (calculateMatchScore currentYear p j).components.location.score).divDouble
                  (JsNum.num 100)).mulDouble (JsNum.num 100)))
      ∧ (∀ a b c d e : ℚ,
          (calculateMatchScore currentYear p j).components.skills.score = JsNum.num a →
          (calculateMatchScore currentYear p j).components.experience.score = JsNum.num b →
          (calculateMatchScore currentYear p j).components.education.score = JsNum.num c →
          (calculateMatchScore currentYear p j).components.location.score = JsNum.num d →
          (calculateMatchScore currentYear p j).components.jobType.score = JsNum.num e →
          0 ≤ a + b + c + d + e → a + b + c + d + e ≤ 100 →
          ∀ n : ℤ, |a + b + c + d + e - n| < 1 / 2 - 1 / 2 ^ 45 →
            (calculateMatchScore currentYear p j).score = JsNum.num (n : ℚ)) := by
  have hscore : (calculateMatchScore currentYear p j).score
      = JsNum.round ((((((((JsNum.num 0).add
          (skillsComponent p j).score).add
          (experienceComponent currentYear p j).score).add
          (educationComponent p j).score).add
          (locationComponent p j).score).add
          (jobTypeComponent p j).score).divDouble
            (JsNum.num 100)).mulDouble (JsNum.num 100)) := by
    show matchPercentage (scoreComponents currentYear p j) = _
    unfold matchPercentage
    rw [totals_maxScore, totals_score]
    rfl
  refine ⟨fun h => ?_, fun h => ?_, fun h => ?_, fun h => ?_, fun h => ?_, ?_⟩
  · have hk := skillsComponent_skipped p j h
    refine ⟨hk, ?_⟩
    rw [hscore, hk]
    simp only [JsNum.add_zero_num]
    rfl
  · have hk := experienceComponent_skipped currentYear p j h
    refine ⟨hk, ?_⟩
    rw [hscore, hk]
    simp only [JsNum.add_zero_num]
    rfl
  · have hk := educationComponent_skipped p j h
    refine ⟨hk, ?_⟩
    rw [hscore, hk]
    simp only [JsNum.add_zero_num]
    rfl
  · have hk := locationComponent_skipped p j h
    refine ⟨hk, ?_⟩
    rw [hscore, hk]
    simp only [JsNum.add_zero_num]
    rfl
  · have hk := jobTypeComponent_skipped p j h
    refine ⟨hk, ?_⟩
    rw [hscore, hk]
    simp only [JsNum.add_zero_num]
    rfl
  · intro a b c d e ha hb hc hd he h0 h1 n hn
    exact matchPercentage_near_integer currentYear p j a b c d e ha hb hc hd he h0 h1 n hn

/-- Witness of C20 as amended: with only the job-type factor running, at 2.5, the four other
components are 0 with empty details and the score is 3, that is 2.5 of 100 rounded, not 2.5
of 5. -/
theorem skipped_factor_keeps_total_witness :
    (calculateMatchScore 2024 noJobTypesProfile fullTimeJob).components.skills
        = { score := JsNum.num 0, maxScore := 40, details := [] }
      ∧ (calculateMatchScore 2024 noJobTypesProfile fullTimeJob).components.location
        = { score := JsNum.num 0, maxScore := 10, details := [] }
      ∧ (calculateMatchScore 2024 noJobTypesProfile fullTimeJob).score = JsNum.num 3 := by
  have h := skipped_factor_keeps_total 2024 noJobTypesProfile fullTimeJob
  have h1 := h.1 (Or.inl rfl)
  have h4 := h.2.2.2.1 (Or.inr (Or.inl rfl))
  refine ⟨h1.1, h4.1, ?_⟩
  have he : (calculateMatchScore 2024 noJobTypesProfile fullTimeJob).components.jobType.score
      = JsNum.num (5 / 2) := by
    show (jobTypeComponent noJobTypesProfile fullTimeJob).score = _
    simp [jobTypeComponent, jobTypeMatched, noJobTypesProfile, fullTimeJob, emptyProfile,
      emptyJob]
    norm_num
  have hx : (calculateMatchScore 2024 noJobTypesProfile fullTimeJob).components.experience.score
      = JsNum.num 0 := rfl
  have hd : (calculateMatchScore 2024 noJobTypesProfile fullTimeJob).components.education.score
      = JsNum.num 0 := rfl
  rw [h1.2, he, hx, hd, h4.1]
  have hp : roundToDouble (roundToDouble ((0 + 0 + 0 + 0 + 5 / 2 : ℚ) / 100) * 100) = 5 / 2 := by
    have ht : (0 + 0 + 0 + 0 + 5 / 2 : ℚ) = 5 / 2 := by norm_num
    rw [ht]
    exact percentageOf_five_halves
  have hf : ⌊(5 / 2 : ℚ) + 1 / 2⌋ = 3 := by
    rw [Int.floor_eq_iff]; norm_num
  simp only [JsNum.add, JsNum.divDouble, JsNum.mulDouble, JsNum.round, hp, hf]
  norm_num

/-- Counterexample to C20 as stated: with the skills and education factors skipped and the
other component scores 5, 7 and 2.5, the sum of the other components is 14.5, which rounds to
15 with halves up, but `(14.5 / 100) * 100` is just below 14.5 in binary64 and the score is
14. -/
theorem skipped_factor_counterexample :
    (calculateMatchScore 2024 juniorRelocatingProfile fiveYearsAustinJob).components.skills
        = { score := JsNum.num 0, maxScore := 40, details := [] }
      ∧ (calculateMatchScore 2024 juniorRelocatingProfile fiveYearsAustinJob).components.education
        = { score := JsNum.num 0, maxScore := 20, details := [] }
      ∧ (calculateMatchScore 2024 juniorRelocatingProfile
          fiveYearsAustinJob).components.experience.score = JsNum.num 5
      ∧ (calculateMatchScore 2024 juniorRelocatingProfile
          fiveYearsAustinJob).components.location.score = JsNum.num 7
      ∧ (calculateMatchScore 2024 juniorRelocatingProfile
          fiveYearsAustinJob).components.jobType.score = JsNum.num (5 / 2)
      ∧ JsNum.round (JsNum.num (5 + 7 + 5 / 2)) = JsNum.num 15
      ∧ (calculateMatchScore 2024 juniorRelocatingProfile fiveYearsAustinJob).score
        = JsNum.num 14 := by
  obtain ⟨ha, hb, hc, hd, he⟩ := juniorRelocating_scores
  refine ⟨rfl, rfl, hb, hd, he, ?_, ?_⟩
  · have hf : ⌊(5 + 7 + 5 / 2 : ℚ) + 1 / 2⌋ = 15 := by
      rw [Int.floor_eq_iff]; norm_num
    simp only [JsNum.round, hf]
    norm_num
  · show matchPercentage (scoreComponents 2024 juniorRelocatingProfile fiveYearsAustinJob) = _
    rw [matchPercentage_of_nums 2024 juniorRelocatingProfile fiveYearsAustinJob 0 5 0 7 (5 / 2)
      ha hb hc hd he]
    have ht : (0 : ℚ) + 5 + 0 + 7 + 5 / 2 = 29 / 2 := by norm_num
    rw [ht, percentageOf_fourteen_and_half]
    have hf : ⌊(8162774324609023 / 562949953421312 : ℚ) + 1 / 2⌋ = 14 := by
      rw [Int.floor_eq_iff]; norm_num
    rw [hf]; norm_num

/-- C21, as amended: an absent field that gates a factor is not treated as the empty
sequence. A profile without `skills` (`workExperience`, `education`) yields the same result
as the profile with the empty sequence if and only if the job's `requiredSkills`
(`experience`, `education`) is absent, so that the factor is skipped either way; likewise a
job without `requiredSkills` against the job with the empty list, if and only if the
profile's `skills` is absent. Otherwise the absent field skips the factor and the empty
sequence runs it. The sequences that gate nothing are treated as empty when absent:
`preferredSkills`, `preferences.locations` and `preferences.jobTypes`. -/
theorem absent_versus_empty (currentYear : ℤ) (p : Profile) (j : JobRequirements) :
    (calculateMatchScore currentYear { p with skills := none } j
        = calculateMatchScore currentYear { p with skills := some [] } j
      ↔ j.requiredSkills = none)
    ∧ (calculateMatchScore currentYear { p with workExperience := none } j
        = calculateMatchScore currentYear { p with workExperience := some [] } j
      ↔ j.experience = none)
    ∧ (calculateMatchScore currentYear { p with education := none } j
        = calculateMatchScore currentYear { p with education := some [] } j
      ↔ j.education = none)
    ∧ (calculateMatchScore currentYear p { j with requiredSkills := none }
        = calculateMatchScore currentYear p { j with requiredSkills := some [] }
      ↔ p.skills = none)
    ∧ calculateMatchScore currentYear p { j with preferredSkills := none }
        = calculateMatchScore currentYear p { j with preferredSkills := some [] }
    ∧ (∀ prefs : Preferences,
        calculateMatchScore currentYear
            { p with preferences := some { prefs with locations := none } } j
          = calculateMatchScore currentYear
            { p with preferences := some { prefs with locations := some [] } } j)
    ∧ (∀ prefs : Preferences,
        calculateMatchScore currentYear
            { p with preferences := some { prefs with jobTypes := none } } j
          = calculateMatchScore currentYear
            { p with preferences := some { prefs with jobTypes := some [] } } j) := by
  refine ⟨⟨fun h => ?_, fun h => ?_⟩, ⟨fun h => ?_, fun h => ?_⟩, ⟨fun h => ?_, fun h => ?_⟩,
    ⟨fun h => ?_, fun h => ?_⟩, ?_, fun prefs => ?_, fun prefs => ?_⟩
  · cases hr : j.requiredSkills with
    | none => rfl
    | some required =>
      exfalso
      have hk : skillsComponent { p with skills := none } j
          = skillsComponent { p with skills := some [] } j :=
        congrArg (fun r => r.components.skills) h
      rw [skillsComponent_skipped _ j (Or.inl rfl)] at hk
      exact skillsComponent_run_ne_skipped _ j [] required rfl hr hk.symm
  · exact calculateMatchScore_congr _ _ _ _ _ _
      (by rw [skillsComponent_skipped _ j (Or.inr h), skillsComponent_skipped _ j (Or.inr h)])
      (experienceComponent_congr _ _ _ _ rfl) (educationComponent_congr _ _ _ rfl)
      (locationComponent_congr _ _ _ rfl) (jobTypeComponent_congr _ _ _ rfl)
  · cases he : j.experience with
    | none => rfl
    | some e =>
      exfalso
      have hk : experienceComponent currentYear { p with workExperience := none } j
          = experienceComponent currentYear { p with workExperience := some [] } j :=
        congrArg (fun r => r.components.experience) h
      rw [experienceComponent_skipped currentYear _ j (Or.inl rfl)] at hk
      exact experienceComponent_run_ne_skipped currentYear _ j [] e rfl he hk.symm
  · exact calculateMatchScore_congr _ _ _ _ _ _ rfl
      (by rw [experienceComponent_skipped _ _ j (Or.inr h),
        experienceComponent_skipped _ _ j (Or.inr h)])
      (educationComponent_congr _ _ _ rfl)
      (locationComponent_congr _ _ _ rfl) (jobTypeComponent_congr _ _ _ rfl)
  · cases he : j.education with
    | none => rfl
    | some req =>
      exfalso
      have hk : educationComponent { p with education := none } j
          = educationComponent { p with education := some [] } j :=
        congrArg (fun r => r.components.education) h
      rw [educationComponent_skipped _ j (Or.inl rfl)] at hk
      exact educationComponent_run_ne_skipped _ j [] req rfl he hk.symm
  · exact calculateMatchScore_congr _ _ _ _ _ _ rfl
      (experienceComponent_congr _ _ _ _ rfl)
      (by rw [educationComponent_skipped _ j (Or.inr h),
        educationComponent_skipped _ j (Or.inr h)])
      (locationComponent_congr _ _ _ rfl) (jobTypeComponent_congr _ _ _ rfl)
  · cases hs : p.skills with
    | none => rfl
    | some skills =>
      exfalso
      have hk : skillsComponent p { j with requiredSkills := none }
          = skillsComponent p { j with requiredSkills := some [] } :=
        congrArg (fun r => r.components.skills) h
      rw [skillsComponent_skipped p _ (Or.inr rfl)] at hk
      exact skillsComponent_run_ne_skipped p _ skills [] hs rfl hk.symm
  · exact calculateMatchScore_congr _ _ _ _ _ _
      (by rw [skillsComponent_skipped p _ (Or.inl h), skillsComponent_skipped p _ (Or.inl h)])
      rfl rfl rfl rfl
  · exact calculateMatchScore_congr _ _ _ _ _ _
      (by rw [skillsComponent_eq_onLowered, skillsComponent_eq_onLowered]; rfl)
      rfl rfl rfl rfl
  · exact calculateMatchScore_congr _ _ _ _ _ _ rfl rfl rfl
      (by unfold locationComponent; cases j.location <;> rfl)
      (by unfold jobTypeComponent; cases j.jobType <;> rfl)
  · exact calculateMatchScore_congr _ _ _ _ _ _ rfl rfl rfl
      (by unfold locationComponent; cases j.location <;> rfl)
      (by unfold jobTypeComponent; cases j.jobType <;> rfl)

/-- Witness of C21 as amended: against a job without any requirement, the profile without
`skills` and the profile with the empty `skills` sequence get the same result. -/
theorem absent_versus_empty_witness :
    calculateMatchScore 2024 { emptyProfile with skills := none } emptyJob
      = calculateMatchScore 2024 { emptyProfile with skills := some [] } emptyJob :=
  (absent_versus_empty 2024 emptyProfile emptyJob).1.2 rfl

/-- Counterexample to C21 as stated: against a job with an empty list of required skills and
one preferred skill, the profile without `skills` scores 0 and the profile whose `skills` is
the empty sequence scores 30. -/
theorem absent_versus_empty_counterexample :
    (calculateMatchScore 2024 emptyProfile noRequiredSkillsJob).score = JsNum.num 0
      ∧ (calculateMatchScore 2024 emptySkillsProfile noRequiredSkillsJob).score = JsNum.num 30
      ∧ calculateMatchScore 2024 emptyProfile noRequiredSkillsJob
          ≠ calculateMatchScore 2024 emptySkillsProfile noRequiredSkillsJob := by
  have h1 : (calculateMatchScore 2024 emptyProfile noRequiredSkillsJob).score
      = JsNum.num 0 := by
    show matchPercentage (scoreComponents 2024 emptyProfile noRequiredSkillsJob) = _
    rw [matchPercentage_of_nums 2024 emptyProfile noRequiredSkillsJob 0 0 0 0 0
      rfl rfl rfl rfl rfl]
    have ht : (0 : ℚ) + 0 + 0 + 0 + 0 = 0 := by norm_num
    rw [ht, percentageOf_zero]
    have hf : ⌊(0 : ℚ) + 1 / 2⌋ = 0 := by
      rw [Int.floor_eq_iff]; norm_num
    rw [hf]; norm_num
  have h2 : (calculateMatchScore 2024 emptySkillsProfile noRequiredSkillsJob).score
      = JsNum.num 30 := by
    show matchPercentage (scoreComponents 2024 emptySkillsProfile noRequiredSkillsJob) = _
    rw [matchPercentage_of_nums 2024 emptySkillsProfile noRequiredSkillsJob 30 0 0 0 0
      skillsComponent_noRequired rfl rfl rfl rfl]
    have ht : (30 : ℚ) + 0 + 0 + 0 + 0 = 30 := by norm_num
    rw [ht, percentageOf_thirty]
    have hf : ⌊(30 : ℚ) + 1 / 2⌋ = 30 := by
      rw [Int.floor_eq_iff]; norm_num
    rw [hf]; norm_num
  refine ⟨h1, h2, fun h => ?_⟩
  rw [h, h2] at h1
  injection h1 with h1
  norm_num at h1

/-- C22: skill comparison is case-insensitive. Two pairs of a profile and a job whose
applicant skill names, required skills and preferred skills have, position by position, the
same lower-case forms (and are present or absent alike) get the same `skills.score`, the same
`skills.details` and the same `matchingSkills`. -/
theorem skills_case_insensitive (y1 y2 : ℤ) (p1 p2 : Profile) (j1 j2 : JobRequirements)
    (hs : p1.skills.map (List.map (fun s => toLowerCase s.name))
      = p2.skills.map (List.map (fun s => toLowerCase s.name)))
    (hr : j1.requiredSkills.map (List.map toLowerCase)
      = j2.requiredSkills.map (List.map toLowerCase))
    (hq : j1.preferredSkills.map (List.map toLowerCase)
      = j2.preferredSkills.map (List.map toLowerCase)) :
    (calculateMatchScore y1 p1 j1).components.skills.score
        = (calculateMatchScore y2 p2 j2).components.skills.score
      ∧ (calculateMatchScore y1 p1 j1).components.skills.details
        = (calculateMatchScore y2 p2 j2).components.skills.details
      ∧ (calculateMatchScore y1 p1 j1).matchingSkills
        = (calculateMatchScore y2 p2 j2).matchingSkills := by
  have h : skillsComponent p1 j1 = skillsComponent p2 j2 := by
    rw [skillsComponent_eq_onLowered, skillsComponent_eq_onLowered, hs, hr, hq]
  have hc1 : (calculateMatchScore y1 p1 j1).components.skills = skillsComponent p1 j1 := rfl
  have hc2 : (calculateMatchScore y2 p2 j2).components.skills = skillsComponent p2 j2 := rfl
  have hm1 : (calculateMatchScore y1 p1 j1).matchingSkills
      = ((skillsComponent p1 j1).details.filter (fun d => d.matched)).map
          (fun d => d.skill) := rfl
  have hm2 : (calculateMatchScore y2 p2 j2).matchingSkills
      = ((skillsComponent p2 j2).details.filter (fun d => d.matched)).map
          (fun d => d.skill) := rfl
  rw [hc1, hc2, hm1, hm2, h]
  exact ⟨rfl, rfl, rfl⟩

/-- Witness of C22: the skills scenario and the same scenario in other letter cases. -/
theorem skills_case_insensitive_witness :
    (calculateMatchScore 2024 scenarioSkillsProfile scenarioSkillsJob).components.skills.score
        = (calculateMatchScore 2024 shoutedSkillsProfile shoutedSkillsJob).components.skills.score
      ∧ (calculateMatchScore 2024 scenarioSkillsProfile scenarioSkillsJob).components.skills.details
        = (calculateMatchScore 2024 shoutedSkillsProfile
            shoutedSkillsJob).components.skills.details
      ∧ (calculateMatchScore 2024 scenarioSkillsProfile scenarioSkillsJob).matchingSkills
        = (calculateMatchScore 2024 shoutedSkillsProfile shoutedSkillsJob).matchingSkills :=
  skills_case_insensitive 2024 2024 scenarioSkillsProfile shoutedSkillsProfile
    scenarioSkillsJob shoutedSkillsJob (by decide) (by decide) (by decide)

/-- C23: the total years of experience is additive over work-experience entries, with no
de-duplication of overlaps: the total of `xs ++ ys` is the total of `xs` plus the total of
`ys`, so that listing the same jobs twice doubles their contribution; with parsable dates
all three totals are numbers. An entry contributes the difference of its calendar years
only: 2019-12 to 2020-01 counts 1, and 2019-01 to 2019-12 counts 0. -/
theorem totalYears_additive (currentYear : ℤ) (xs ys : List WorkExperience) :
    totalYears currentYear (xs ++ ys)
        = (totalYears currentYear xs).add (totalYears currentYear ys)
      ∧ ((∀ w ∈ xs, entryUnparsable w = false) → (∀ w ∈ ys, entryUnparsable w = false) →
          ∃ a b : ℚ, totalYears currentYear xs = JsNum.num a
            ∧ totalYears currentYear ys = JsNum.num b
            ∧ totalYears currentYear (xs ++ ys) = JsNum.num (a + b))
      ∧ (∀ a : ℚ, totalYears currentYear xs = JsNum.num a →
          totalYears currentYear (xs ++ xs) = JsNum.num (2 * a))
      ∧ totalYears currentYear yearBoundaryHistory = JsNum.num 1
      ∧ totalYears currentYear sameYearHistory = JsNum.num 0 := by
  have happ := totalYears_append currentYear xs ys
  refine ⟨happ, fun hx hy => ?_, fun a ha => ?_, ?_, ?_⟩
  · obtain ⟨a, ha⟩ := totalYears_parsable currentYear xs hx
    obtain ⟨b, hb⟩ := totalYears_parsable currentYear ys hy
    exact ⟨a, b, ha, hb, by rw [happ, ha, hb]; rfl⟩
  · rw [totalYears_append, ha]
    simp only [JsNum.add]
    congr 1
    ring
  · rw [totalYears_wellFormed _ _ (by decide)]
    have h : specTotalYears currentYear yearBoundaryHistory = 1 :=
      (by decide : specTotalYears 0 yearBoundaryHistory = 1)
    rw [h]; norm_num
  · rw [totalYears_wellFormed _ _ (by decide)]
    have h : specTotalYears currentYear sameYearHistory = 0 :=
      (by decide : specTotalYears 0 sameYearHistory = 0)
    rw [h]; norm_num

/-- Witness of C23: the entry 2019-12 to 2020-01 followed by the entry 2019-01 to 2019-12
totals 1 + 0, and the scenario listed twice totals 6. -/
theorem totalYears_additive_witness :
    (∃ a b : ℚ, totalYears 2024 yearBoundaryHistory = JsNum.num a
        ∧ totalYears 2024 sameYearHistory = JsNum.num b
        ∧ totalYears 2024 (yearBoundaryHistory ++ sameYearHistory) = JsNum.num (a + b))
      ∧ totalYears 2024 (scenarioHistory ++ scenarioHistory) = JsNum.num (2 * 3) :=
  ⟨(totalYears_additive 2024 yearBoundaryHistory sameYearHistory).2.1 (by decide) (by decide),
    (totalYears_additive 2024 scenarioHistory scenarioHistory).2.2.1 3 totalYears_scenario⟩

/-- C24: whenever the experience factor runs, `experience.details` holds exactly one record,
the aggregate comparison; its `actual` is the computed total years, its `required` is
`minYears` (0 when absent), and its `matched` flag is true if and only if `experience.score`
is the full 25. -/
theorem experience_details_single (currentYear : ℤ) (p : Profile) (j : JobRequirements)
    (ws : List WorkExperience) (e : JobExperience)
    (hw : p.workExperience = some ws) (he : j.experience = some e) :
    ∃ d : ExperienceDetail,
      (calculateMatchScore currentYear p j).components.experience.details = [d]
      ∧ d.actual = totalYears currentYear ws
      ∧ (d.required = e.minYears.getD 0 ∨ d.required = 0)
      ∧ (d.matched = true
          ↔ (calculateMatchScore currentYear p j).components.experience.score
              = JsNum.num 25) := by
  have hc : (calculateMatchScore currentYear p j).components.experience
      = experienceComponent currentYear p j := rfl
  rw [hc, experienceComponent_run currentYear p j ws e hw he]
  by_cases h1 : (totalYears currentYear ws).ge (JsNum.num (e.minYears.getD 0)) = true
  · rw [if_pos h1]
    exact ⟨_, rfl, rfl, Or.inl rfl, by simp⟩
  · rw [if_neg h1]
    by_cases h2 : e.minYears.getD 0 > 0
    · rw [if_pos h2]
      refine ⟨_, rfl, rfl, Or.inl rfl, ?_⟩
      simp only [Bool.false_eq_true, false_iff]
      cases ht : totalYears currentYear ws with
      | nan => simp [JsNum.div, JsNum.min, JsNum.mul]
      | num t =>
        rw [ht] at h1
        simp only [JsNum.ge, decide_eq_true_eq, not_le] at h1
        have hlt : t / e.minYears.getD 0 < 1 := (div_lt_one h2).2 h1
        simp only [JsNum.div, JsNum.min, JsNum.mul, hlt.le, if_true]
        intro h
        injection h with h
        linarith
    · rw [if_neg h2]
      exact ⟨_, rfl, rfl, Or.inr rfl, by simp⟩

/-- Witness of C24: in the experience scenario the one record reports 3 actual years against
5 required, not matched, and the score is 15, not 25. -/
theorem experience_details_single_witness :
    ∃ d : ExperienceDetail,
      (calculateMatchScore 2024 scenarioExperienceProfile
          fiveYearsJob).components.experience.details = [d]
      ∧ d.actual = totalYears 2024 scenarioHistory
      ∧ (d.required = (5 : ℚ) ∨ d.required = 0)
      ∧ (d.matched = true
          ↔ (calculateMatchScore 2024 scenarioExperienceProfile
              fiveYearsJob).components.experience.score = JsNum.num 25) :=
  experience_details_single 2024 scenarioExperienceProfile fiveYearsJob scenarioHistory
    { minYears := some 5 } rfl rfl

/-- C25: whenever the education factor runs, `education.details` holds exactly one record.
Its `requiredDegree` and `requiredField` are the job's degree and field of study in lower
case, or the literal string `None` when that requirement is absent or empty, and its
`degreeMatch` and `fieldMatch` flags are the ones from which `education.score` is computed
by the scoring table. -/
theorem education_details_single (currentYear : ℤ) (p : Profile) (j : JobRequirements)
    (es : List Education) (req : Education)
    (hp : p.education = some es) (hj : j.education = some req) :
    ∃ dm fm : Bool,
      (calculateMatchScore currentYear p j).components.education.details
          = [{ requiredDegree := specRequirementLabel req.degree,
               requiredField := specRequirementLabel req.fieldOfStudy,
               degreeMatch := dm, fieldMatch := fm }]
      ∧ (calculateMatchScore currentYear p j).components.education.score
          = JsNum.num (specEducationScore (truthy req.degree) (truthy req.fieldOfStudy)
              dm fm) := by
  obtain ⟨dm, fm, -, -, hrun⟩ := educationComponent_run p j es req hp hj
  have hc : (calculateMatchScore currentYear p j).components.education
      = educationComponent p j := rfl
  refine ⟨dm, fm, ?_, ?_⟩
  · rw [hc, hrun, orNone_map_toLowerCase, orNone_map_toLowerCase]
  · rw [hc, hrun]

/-- Witness of C25: a job that asks for a Master degree and names no field shows `master` and
`None`. -/
theorem education_details_single_witness :
    (calculateMatchScore 2024 scenarioEducationProfile masterJob).components.education.details
      = [{ requiredDegree := "master", requiredField := "None",
           degreeMatch := false, fieldMatch := false }] := by
  obtain ⟨dm, fm, hdet, -⟩ := education_details_single 2024 scenarioEducationProfile masterJob
    [{ degree := some "Bachelor of Science", fieldOfStudy := some "Computer Science" }]
    { degree := some "Master", fieldOfStudy := none } rfl rfl
  have hflags : (calculateMatchScore 2024 scenarioEducationProfile
      masterJob).components.education.details.map (fun d => (d.degreeMatch, d.fieldMatch))
        = [(false, false)] := by decide
  rw [hdet] at hflags ⊢
  simp only [List.map_cons, List.map_nil, List.cons.injEq, Prod.mk.injEq, and_true] at hflags
  rw [hflags.1, hflags.2]
  have h1 : specRequirementLabel (some "Master") = "master" := by decide
  rw [h1]
  rfl

/-- C26: for every input `0 <= skills.score <= 40`. When the factor runs, the counter of
matched required skills is the number of required skills that match and never exceeds the
number of required skills, likewise for the preferred skills, so both ratios are at most 1
and the two sub-scores are at most 30 and 10 without any explicit cap. -/
theorem skills_score_bounds (currentYear : ℤ) (p : Profile) (j : JobRequirements) :
    JsNum.within 0 40 (calculateMatchScore currentYear p j).components.skills.score
      ∧ ∀ (skills : List Skill) (required : List String),
          p.skills = some skills → j.requiredSkills = some required →
          (checkSkills (skills.map (fun s => toLowerCase s.name)) SkillType.required
              (required.map toLowerCase) (0, [])).1
            = required.countP (fun s => decide (SpecSkillMatches skills s))
          ∧ required.countP (fun s => decide (SpecSkillMatches skills s)) ≤ required.length
          ∧ (∀ details0, (checkSkills (skills.map (fun s => toLowerCase s.name))
              SkillType.preferred ((j.preferredSkills.getD []).map toLowerCase)
                (0, details0)).1
            = (j.preferredSkills.getD []).countP (fun s => decide (SpecSkillMatches skills s)))
          ∧ (j.preferredSkills.getD []).countP (fun s => decide (SpecSkillMatches skills s))
              ≤ (j.preferredSkills.getD []).length
          ∧ 0 ≤ specRequiredScore skills required ∧ specRequiredScore skills required ≤ 30
          ∧ 0 ≤ specPreferredScore skills j.preferredSkills
          ∧ specPreferredScore skills j.preferredSkills ≤ 10
          ∧ (calculateMatchScore currentYear p j).components.skills.score
            = JsNum.num (specRequiredScore skills required
                + specPreferredScore skills j.preferredSkills) := by
  refine ⟨skillsComponent_within p j, fun skills required hs hr => ?_⟩
  have hany : ∀ s : String, (skills.map (fun s => toLowerCase s.name)).any
      (fun a => fuzzyMatch a (toLowerCase s)) = decide (SpecSkillMatches skills s) :=
    any_fuzzyMatch_eq skills
  have hr1 := specRequiredScore_bounds skills required
  have hr2 := specPreferredScore_bounds skills j.preferredSkills
  refine ⟨?_, List.countP_le_length _, fun details0 => ?_, List.countP_le_length _,
    hr1.1, hr1.2, hr2.1, hr2.2, ?_⟩
  · simp [checkSkills_eq, List.countP_map, Function.comp_def, hany]
  · simp [checkSkills_eq, List.countP_map, Function.comp_def, hany]
  · show (skillsComponent p j).score = _
    rw [skillsComponent_run p j skills required hs hr]

/-- Witness of C26: the skills scenario, with one of two required skills and none of one
preferred skill matched. -/
theorem skills_score_bounds_witness :
    JsNum.within 0 40
        (calculateMatchScore 2024 scenarioSkillsProfile scenarioSkillsJob).components.skills.score
      ∧ (checkSkills ["javascript", "react"] SkillType.required ["javascript", "node.js"]
          (0, [])).1 = 1 := by
  have h := skills_score_bounds 2024 scenarioSkillsProfile scenarioSkillsJob
  refine ⟨h.1, ?_⟩
  have h2 := (h.2 [{ name := "JavaScript" }, { name := "React" }] ["javascript", "Node.js"]
    rfl rfl).1
  have h3 : List.countP (fun s => decide (SpecSkillMatches
      [{ name := "JavaScript" }, { name := "React" }] s)) ["javascript", "Node.js"] = 1 := by
    decide
  rw [h3] at h2
  exact h2

/-- C27: for every profile whose work-experience entries all add a number of years that is
not negative (their years parse and the end year, the current year for a current entry, is
not before the start year), and for every job, whatever its `minYears`,
`calculateMatchScore` returns an integer score with `0 <= score <= 100` and every component
score within `[0, maxScore]`. -/
theorem score_bounds_ordered_dates (currentYear : ℤ) (p : Profile) (j : JobRequirements)
    (h : ∀ ws, p.workExperience = some ws →
      ∀ w ∈ ws, ∃ c, entryYears currentYear w = JsNum.num c ∧ 0 ≤ c) :
    (∃ n : ℤ, (calculateMatchScore currentYear p j).score = JsNum.num (n : ℚ)
        ∧ 0 ≤ n ∧ n ≤ 100)
      ∧ JsNum.within 0 40 (calculateMatchScore currentYear p j).components.skills.score
      ∧ JsNum.within 0 25 (calculateMatchScore currentYear p j).components.experience.score
      ∧ JsNum.within 0 20 (calculateMatchScore currentYear p j).components.education.score
      ∧ JsNum.within 0 10 (calculateMatchScore currentYear p j).components.location.score
      ∧ JsNum.within 0 5 (calculateMatchScore currentYear p j).components.jobType.score
      ∧ (calculateMatchScore currentYear p j).components.skills.maxScore = 40
      ∧ (calculateMatchScore currentYear p j).components.experience.maxScore = 25
      ∧ (calculateMatchScore currentYear p j).components.education.maxScore = 20
      ∧ (calculateMatchScore currentYear p j).components.location.maxScore = 10
      ∧ (calculateMatchScore currentYear p j).components.jobType.maxScore = 5 := by
  have hexp : JsNum.within 0 25 (experienceComponent currentYear p j).score :=
    experienceComponent_within currentYear p j
      (fun ws _ hw _ _ => totalYears_nonneg currentYear ws (h ws hw))
  obtain ⟨a, ha, ha0, ha1⟩ := skillsComponent_within p j
  obtain ⟨b, hb, hb0, hb1⟩ := hexp
  obtain ⟨c, hc, hc0, hc1⟩ := educationComponent_within p j
  obtain ⟨d, hd, hd0, hd1⟩ := locationComponent_within p j
  obtain ⟨e, he, he0, he1⟩ := jobTypeComponent_within p j
  have hp := percentageOf_within (a + b + c + d + e) (by linarith) (by linarith)
  refine ⟨⟨⌊percentageOf (a + b + c + d + e) + 1 / 2⌋,
      matchPercentage_of_nums currentYear p j a b c d e ha hb hc hd he, ?_, ?_⟩,
    ⟨a, ha, ha0, ha1⟩, ⟨b, hb, hb0, hb1⟩, ⟨c, hc, hc0, hc1⟩, ⟨d, hd, hd0, hd1⟩,
    ⟨e, he, he0, he1⟩, skillsComponent_maxScore p j,
    experienceComponent_maxScore currentYear p j, educationComponent_maxScore p j,
    locationComponent_maxScore p j, jobTypeComponent_maxScore p j⟩
  · exact Int.floor_nonneg.2 (by linarith)
  · have h2 : ⌊percentageOf (a + b + c + d + e) + 1 / 2⌋ < (100 : ℤ) + 1 :=
      Int.floor_lt.2 (by push_cast; linarith)
    omega

/-- Witness of C27: the experience scenario, whose entry adds 3 years. -/
theorem score_bounds_ordered_dates_witness :
    ∃ n : ℤ, (calculateMatchScore 2024 scenarioExperienceProfile fiveYearsJob).score
        = JsNum.num (n : ℚ) ∧ 0 ≤ n ∧ n ≤ 100 :=
  (score_bounds_ordered_dates 2024 scenarioExperienceProfile fiveYearsJob (by
    intro ws hws w hw
    have hws2 : scenarioHistory = ws := Option.some.inj hws
    subst hws2
    simp only [scenarioHistory, List.mem_singleton] at hw
    subst hw
    refine ⟨3, ?_, by norm_num⟩
    exact totalYears_scenario)).1

/-- C28: adding a skill never hurts. When the skills factor runs, appending a further skill
to `profile.skills` leaves every previously matched job skill matched (the detail records
keep their skill and type, and a flag that was true stays true), does not decrease
`skills.score`, and does not decrease the overall score (which is `NaN` after the change
exactly when it was before). -/
theorem adding_skill_never_hurts (currentYear : ℤ) (p : Profile) (j : JobRequirements)
    (skills : List Skill) (required : List String) (s : Skill)
    (hs : p.skills = some skills) (hr : j.requiredSkills = some required) :
    (∀ jobSkill, SpecSkillMatches skills jobSkill →
        SpecSkillMatches (skills ++ [s]) jobSkill)
      ∧ List.Forall₂ (fun d d2 : SkillDetail =>
          d2.skill = d.skill ∧ d2.type = d.type ∧ (d.matched = true → d2.matched = true))
          (calculateMatchScore currentYear p j).components.skills.details
          (calculateMatchScore currentYear { p with skills := some (skills ++ [s]) }
            j).components.skills.details
      ∧ (∃ a b : ℚ,
          (calculateMatchScore currentYear p j).components.skills.score = JsNum.num a
          ∧ (calculateMatchScore currentYear { p with skills := some (skills ++ [s]) }
              j).components.skills.score = JsNum.num b
          ∧ a ≤ b)
      ∧ (((calculateMatchScore currentYear p j).score = JsNum.nan
          ∧ (calculateMatchScore currentYear { p with skills := some (skills ++ [s]) }
              j).score = JsNum.nan)
        ∨ ∃ m n : ℤ,
          (calculateMatchScore currentYear p j).score = JsNum.num (m : ℚ)
          ∧ (calculateMatchScore currentYear { p with skills := some (skills ++ [s]) }
              j).score = JsNum.num (n : ℚ)
          ∧ m ≤ n) := by
  have hrun := skillsComponent_run p j skills required hs hr
  have hrun2 := skillsComponent_run { p with skills := some (skills ++ [s]) } j
    (skills ++ [s]) required rfl hr
  have hle : specRequiredScore skills required + specPreferredScore skills j.preferredSkills
      ≤ specRequiredScore (skills ++ [s]) required
        + specPreferredScore (skills ++ [s]) j.preferredSkills :=
    add_le_add (specRequiredScore_mono skills [s] required)
      (specPreferredScore_mono skills [s] j.preferredSkills)
  have hx : experienceComponent currentYear { p with skills := some (skills ++ [s]) } j
      = experienceComponent currentYear p j := experienceComponent_congr _ _ _ _ rfl
  have hd : educationComponent { p with skills := some (skills ++ [s]) } j
      = educationComponent p j := educationComponent_congr _ _ _ rfl
  have hl : locationComponent { p with skills := some (skills ++ [s]) } j
      = locationComponent p j := locationComponent_congr _ _ _ rfl
  have ht : jobTypeComponent { p with skills := some (skills ++ [s]) } j
      = jobTypeComponent p j := jobTypeComponent_congr _ _ _ rfl
  refine ⟨fun jobSkill h => specSkillMatches_append skills [s] jobSkill h, ?_, ?_, ?_⟩
  · show List.Forall₂ _ (skillsComponent p j).details
      (skillsComponent { p with skills := some (skills ++ [s]) } j).details
    rw [hrun, hrun2]
    exact List.rel_append (specSkillDetails_mono skills [s] _ _)
      (specSkillDetails_mono skills [s] _ _)
  · refine ⟨_, _, ?_, ?_, hle⟩
    · show (skillsComponent p j).score = _
      rw [hrun]
    · show (skillsComponent { p with skills := some (skills ++ [s]) } j).score = _
      rw [hrun2]
  · obtain ⟨c, hc, -, -⟩ := educationComponent_within p j
    obtain ⟨d, hd2, -, -⟩ := locationComponent_within p j
    obtain ⟨e, he, -, -⟩ := jobTypeComponent_within p j
    cases hb : (experienceComponent currentYear p j).score with
    | nan =>
      left
      exact ⟨matchPercentage_experience_nan currentYear p j hb,
        matchPercentage_experience_nan currentYear _ j (by rw [hx]; exact hb)⟩
    | num b =>
      right
      refine ⟨_, _,
        matchPercentage_of_nums currentYear p j _ b c d e (by rw [hrun]) hb hc hd2 he,
        matchPercentage_of_nums currentYear _ j _ b c d e (by rw [hrun2])
          (by rw [hx]; exact hb) (by rw [hd]; exact hc) (by rw [hl]; exact hd2)
          (by rw [ht]; exact he), ?_⟩
      apply Int.floor_mono
      exact add_le_add_right (percentageOf_mono _ _ (by linarith)) _

/-- Witness of C28: the skills scenario before and after the applicant adds the skill Node. -/
theorem adding_skill_never_hurts_witness :
    ∃ a b : ℚ,
      (calculateMatchScore 2024 scenarioSkillsProfile scenarioSkillsJob).components.skills.score
        = JsNum.num a
      ∧ (calculateMatchScore 2024
          { scenarioSkillsProfile with
            skills := some ([{ name := "JavaScript" }, { name := "React" }]
              ++ [{ name := "Node" }]) }
          scenarioSkillsJob).components.skills.score = JsNum.num b
      ∧ a ≤ b :=
  (adding_skill_never_hurts 2024 scenarioSkillsProfile scenarioSkillsJob
    [{ name := "JavaScript" }, { name := "React" }] ["javascript", "Node.js"]
    { name := "Node" } rfl rfl).2.2.1

/-- C29: the substring rule makes the empty string match everything. For every job with
`requiredSkills` present, if some applicant skill has the empty name then every required and
every preferred job skill is flagged matched and `skills.score = 40`. -/
theorem blank_skill_matches_all (currentYear : ℤ) (p : Profile) (j : JobRequirements)
    (skills : List Skill) (required : List String)
    (hs : p.skills = some skills) (hr : j.requiredSkills = some required)
    (hb : ∃ a ∈ skills, a.name = "") :
    (calculateMatchScore currentYear p j).components.skills.score = JsNum.num 40
      ∧ (calculateMatchScore currentYear p j).components.skills.details
        = required.map (fun s => { skill := toLowerCase s, type := SkillType.required,
                                   matched := true })
          ++ (j.preferredSkills.getD []).map
              (fun s => { skill := toLowerCase s, type := SkillType.preferred,
                          matched := true })
      ∧ (calculateMatchScore currentYear p j).matchingSkills
        = required.map toLowerCase ++ (j.preferredSkills.getD []).map toLowerCase := by
  have hall : ∀ s : String, decide (SpecSkillMatches skills s) = true := fun s =>
    decide_eq_true (specSkillMatches_of_blank skills s hb)
  have hrun := skillsComponent_run p j skills required hs hr
  have hc : (calculateMatchScore currentYear p j).components.skills = skillsComponent p j := rfl
  have hm : (calculateMatchScore currentYear p j).matchingSkills
      = ((skillsComponent p j).details.filter (fun d => d.matched)).map
          (fun d => d.skill) := rfl
  have hcount : ∀ l : List String,
      l.countP (fun s => decide (SpecSkillMatches skills s)) = l.length := by
    intro l
    rw [List.countP_eq_length]
    intro x _
    exact hall x
  refine ⟨?_, ?_, ?_⟩
  · rw [hc, hrun]
    simp only [specRequiredScore, specPreferredScore, hcount]
    have hreq : (if required.length = 0 then (30 : ℚ)
        else ((required.length : ℚ) / (required.length : ℚ)) * 30) = 30 := by
      split
      · rfl
      · rename_i h0
        have : (required.length : ℚ) ≠ 0 := by exact_mod_cast h0
        field_simp
    have hpref : (match j.preferredSkills with
        | none => (10 : ℚ)
        | some ps => if ps.length = 0 then 10
            else ((ps.length : ℚ) / (ps.length : ℚ)) * 10) = 10 := by
      cases j.preferredSkills with
      | none => rfl
      | some ps =>
        simp only
        split
        · rfl
        · rename_i h0
          have : (ps.length : ℚ) ≠ 0 := by exact_mod_cast h0
          field_simp
    rw [hreq, hpref]
    norm_num
  · rw [hc, hrun]
    simp only [specSkillDetails, hall]
  · rw [hm, hrun, matchingSkills_run]
    simp only [hall, List.filter_true]

/-- Witness of C29: an applicant whose only skill is blank scores the full 40 on the skills
scenario. -/
theorem blank_skill_matches_all_witness :
    (calculateMatchScore 2024 blankSkillProfile scenarioSkillsJob).components.skills.score
        = JsNum.num 40
      ∧ (calculateMatchScore 2024 blankSkillProfile scenarioSkillsJob).matchingSkills
        = ["javascript", "node.js", "typescript"] := by
  have h := blank_skill_matches_all 2024 blankSkillProfile scenarioSkillsJob
    [{ name := "" }] ["javascript", "Node.js"] rfl rfl ⟨{ name := "" }, by simp, rfl⟩
  refine ⟨h.1, ?_⟩
  rw [h.2.2]
  decide

/-- C30: when the skills factor runs, `matchingSkills` is the lower-cased matched required
job skills, in job order, followed by the lower-cased matched preferred job skills, in job
order, duplicates kept. Each element is thus the lower-cased form of one of the job's
required or preferred skill strings, and the length is the matched required count plus the
matched preferred count. When the factor is skipped the list is empty. -/
theorem matchingSkills_structure (currentYear : ℤ) (p : Profile) (j : JobRequirements) :
    (∀ (skills : List Skill) (required : List String),
        p.skills = some skills → j.requiredSkills = some required →
        (calculateMatchScore currentYear p j).matchingSkills
            = (required.filter (fun s => decide (SpecSkillMatches skills s))).map toLowerCase
              ++ ((j.preferredSkills.getD []).filter
                  (fun s => decide (SpecSkillMatches skills s))).map toLowerCase
          ∧ (calculateMatchScore currentYear p j).matchingSkills.length
            = required.countP (fun s => decide (SpecSkillMatches skills s))
              + (j.preferredSkills.getD []).countP
                  (fun s => decide (SpecSkillMatches skills s)))
      ∧ (∀ m ∈ (calculateMatchScore currentYear p j).matchingSkills,
          ∃ s, (s ∈ j.requiredSkills.getD [] ∨ s ∈ j.preferredSkills.getD [])
            ∧ m = toLowerCase s)
      ∧ (p.skills = none ∨ j.requiredSkills = none →
          (calculateMatchScore currentYear p j).matchingSkills = []) := by
  have hm : (calculateMatchScore currentYear p j).matchingSkills
      = ((skillsComponent p j).details.filter (fun d => d.matched)).map
          (fun d => d.skill) := rfl
  have hrunAll : ∀ (skills : List Skill) (required : List String),
      p.skills = some skills → j.requiredSkills = some required →
      (calculateMatchScore currentYear p j).matchingSkills
        = (required.filter (fun s => decide (SpecSkillMatches skills s))).map toLowerCase
          ++ ((j.preferredSkills.getD []).filter
              (fun s => decide (SpecSkillMatches skills s))).map toLowerCase := by
    intro skills required hs hr
    rw [hm, skillsComponent_run p j skills required hs hr, matchingSkills_run]
  have hskip : p.skills = none ∨ j.requiredSkills = none →
      (calculateMatchScore currentYear p j).matchingSkills = [] := by
    intro h
    rw [hm, skillsComponent_skipped p j h]
    rfl
  refine ⟨fun skills required hs hr => ⟨hrunAll skills required hs hr, ?_⟩, ?_, hskip⟩
  · rw [hrunAll skills required hs hr]
    simp [List.countP_eq_length_filter]
  · intro m hmem
    cases hs : p.skills with
    | none => rw [hskip (Or.inl hs)] at hmem; cases hmem
    | some skills =>
      cases hr : j.requiredSkills with
      | none => rw [hskip (Or.inr hr)] at hmem; cases hmem
      | some required =>
        rw [hrunAll skills required hs hr, List.mem_append] at hmem
        rcases hmem with h | h
        · obtain ⟨s, hsmem, rfl⟩ := List.mem_map.1 h
          exact ⟨s, Or.inl (List.mem_of_mem_filter hsmem), rfl⟩
        · obtain ⟨s, hsmem, rfl⟩ := List.mem_map.1 h
          exact ⟨s, Or.inr (List.mem_of_mem_filter hsmem), rfl⟩

/-- Witness of C30: against a job that requires React in two spellings and prefers React
Native and Go, the applicant with the skill React gets the job's skills in lower case,
required first, the duplicate kept: three entries for two matched required skills and one
matched preferred skill. -/
theorem matchingSkills_structure_witness :
    (calculateMatchScore 2024 reactProfile duplicateSkillsJob).matchingSkills
        = ["react", "react", "react native"]
      ∧ (calculateMatchScore 2024 reactProfile duplicateSkillsJob).matchingSkills.length
        = 2 + 1 := by
  have h := (matchingSkills_structure 2024 reactProfile duplicateSkillsJob).1
    [{ name := "React" }] ["React", "REACT"] rfl rfl
  have hl : (calculateMatchScore 2024 reactProfile duplicateSkillsJob).matchingSkills
      = ["react", "react", "react native"] := by
    rw [h.1]
    decide
  exact ⟨hl, by rw [hl]; rfl⟩

end JobMatching
